import Mathlib

/-!
Shallow embedding of the libvips MCP server (`src/index.ts`, v1.2.0 document).

The program is a single-file MCP server: a static table `tools` of operation
descriptors, a `ListToolsRequestSchema` handler returning that table, and a
`CallToolRequestSchema` handler that switches on the tool name, checks input
paths with `existsSync`, calls into two external image libraries (sharp and
wasm-vips), and formats the outcome as a single text content item; a top-level
try/catch converts any thrown exception into a text response with `isError`.

Modelling conventions, stated once:
* JS numbers are embedded as `Rat` (exact arithmetic; floating point rounding
  is outside the model).  JS string interpolation of numbers is `jsNum`, which
  prints integral values exactly in decimal.
* The JSON argument bag is a record of optional typed fields (`Args`); an
  absent field is `none`, matching JS `undefined` at destructuring sites.
* The mutable process state is `World`: the filesystem, the lazily created
  wasm-vips handle (`let vips: any = null`), and the module-level `tools`
  table.  Handlers are functions `World → MRes α` (`M α`), where `MRes` is
  "returned a value" or "threw an exception", each with the updated world.
* The two external libraries are the boundary: an `Env` records whether a
  sharp call throws (`sharpFail`), whether `Vips()` resolves (`vipsLoad`),
  whether a wasm-vips image call throws (`vipsFail`), and oracle functions for
  values the libraries return (metadata dimensions, JSON-rendered statistics,
  `Math.random`).  File contents are represented syntactically: a written file
  records which library pipeline produced it and with which arguments.
-/

/-- Default value of a declared schema property (JSON scalar). -/
inductive JVal where
  | s (v : String)
  | n (v : Rat)
  | b (v : Bool)

/-- Declared schema of one parameter of a tool (type/enum/bounds/default),
as written in the static `tools` table.  Nested array item schemas are
summarised by a tag in `items`; human-readable `description` strings are kept. -/
structure PropSchema where
  type : String
  description : String := ""
  enum : Option (List String) := none
  minimum : Option Rat := none
  maximum : Option Rat := none
  dflt : Option JVal := none
  items : Option String := none
  minItems : Option Nat := none
  maxItems : Option Nat := none

/-- One entry of the static tool table: name, description, parameter schemas
and the list of required parameter names. -/
structure ToolDecl where
  name : String
  description : String
  properties : List (String × PropSchema)
  required : List String

/-- Content item of an MCP tool response. -/
structure ContentItem where
  type : String
  text : String

/-- An MCP tool response: content list plus the error flag (`isError` is
absent on success paths in the source; absence is modelled as `false`). -/
structure ToolResponse where
  content : List ContentItem
  isError : Bool := false

/-- The JSON argument bag of a tool invocation, as a record of the optional
fields the handler destructures.  `maintain_aspect_ratio` is renamed to
`maintain_aspect` for the embedding. -/
structure Args where
  image_path : Option String := none
  input_path : Option String := none
  output_path : Option String := none
  output_dir : Option String := none
  base_image_path : Option String := none
  overlay_image_path : Option String := none
  width : Option Rat := none
  height : Option Rat := none
  maintain_aspect : Option Bool := none
  fit : Option String := none
  format : Option String := none
  quality : Option Rat := none
  x : Option Rat := none
  y : Option Rat := none
  x1 : Option Rat := none
  y1 : Option Rat := none
  x2 : Option Rat := none
  y2 : Option Rat := none
  angle : Option Rat := none
  background : Option String := none
  direction : Option String := none
  sigma : Option Rat := none
  flat : Option Rat := none
  jagged : Option Rat := none
  brightness : Option Rat := none
  contrast : Option Rat := none
  saturation : Option Rat := none
  blend : Option String := none
  size : Option Rat := none
  crop : Option Bool := none
  channel : Option Rat := none
  bins : Option Rat := none
  color : Option String := none
  operation : Option String := none
  kernel_size : Option Rat := none
  iterations : Option Rat := none
  radius : Option Rat := none
  fill : Option Bool := none
  method : Option String := none
  threshold : Option Rat := none
  inverse : Option Bool := none
  kernel : Option (List (List Rat)) := none
  scale : Option Rat := none
  offset : Option Rat := none
  space : Option String := none
  noise_type : Option String := none
  amount : Option Rat := none
  corners : Option (List (List Rat)) := none
  window_size : Option Rat := none
  fill_color : Option String := none
  tolerance : Option Rat := none
  levels : Option Rat := none
  scale_factor : Option Rat := none

/-- A tool invocation request: tool name and argument bag. -/
structure ToolRequest where
  name : String
  args : Args

/-- One sharp pipeline step, recorded with the arguments the source passes.
Constructors correspond to the syntactic call shapes in `index.ts`. -/
inductive SPrim where
  | resizeOpts (width height : Option Rat) (fit : String)
  | jpegE (quality : Rat)
  | pngE (quality : Rat)
  | webpE (quality : Rat)
  | tiffE (quality : Rat)
  | avifE (quality : Rat)
  | heifE (quality : Rat)
  | extractArea (left top width height : Option Rat)
  | rotateBg (angle : Option Rat) (background : String)
  | rotateA (angle : Rat)
  | flopH
  | flipV
  | blurS (sigma : Rat)
  | sharpenS (sigma flat jagged : Rat)
  | modulateB (brightness : Option Rat)
  | modulateS (saturation : Option Rat)
  | modulateBS (brightness saturation : Rat)
  | modulateHue (hue : Rat)
  | linearAB (a b : Option Rat)
  | grayscaleOp
  | pngPlain
  | thresholdT (t : Rat)
  | compositeFile (path : Option String) (left top : Rat) (blend : String)
  | compositeSvg (svg : String) (blend : String)
  | extractChannelC (c : Option Rat)
  | toColorspace (s : String)
  | convolveK (w h : Nat) (kernel : List Rat) (scale offset : Option Rat)
  | resizeSq (size : Option Rat) (fit : String) (withoutEnlargement : Bool)
  | resizeWH (w h : Int)

/-- One wasm-vips pipeline step, recorded with the arguments the source
passes.  Statistics reads (`min`, `avg`, `hist`, `rank`...) are not pipeline
steps; their values come from `Env` oracles. -/
inductive VPrim where
  | morph (kernel : List (List Rat)) (mode : String)
  | conv (kernel : List (List Rat)) (scale offset : Option Rat)
  | fwfft
  | invfft
  | vabs
  | colourspace (s : Option String)
  | drawLine (color : List (Option Int)) (x1 y1 x2 y2 : Option Rat)
  | gaussAdd (w h sigma : Rat)
  | uniformAdd (w h v : Rat)
  | saltPepper (w h maskAdd : Rat)
  | quadrilateral (p : List (Option Rat))
  | floodfill (color : List (Option Int)) (x y : Option Rat) (tol : Rat)

/-- Contents of a file on the modelled filesystem: either a pre-existing file
(abstract id), or the recorded output of a library pipeline. -/
inductive FileVal where
  | raw (id : Nat)
  | sharpOut (src : FileVal) (ops : List SPrim)
  | sharpCreate (w h : Option Rat) (r g b : Option Int) (ops : List SPrim)
  | vipsOut (src : FileVal) (ops : List VPrim)

/-- The modelled filesystem: files (path to contents, last write first) and
the set of directories created by `mkdir`. -/
structure FS where
  files : List (String × FileVal)
  dirs : List String

/-- The mutable in-process state: filesystem, the lazily initialized
wasm-vips handle (abstract id; `none` models `vips === null`), and the
module-level tool table. -/
structure World where
  fs : FS
  vips : Option Nat
  toolTable : List ToolDecl

/-- Result of running a handler: a value or a thrown exception, with the
world as left by the run. -/
inductive MRes (α : Type) where
  | ok (a : α) (w : World)
  | err (e : String) (w : World)

/-- Handler computations: state (the `World`) plus JS exceptions. -/
def M (α : Type) : Type := World → MRes α

def M.pure {α : Type} (a : α) : M α := fun w => .ok a w

def M.bind {α β : Type} (x : M α) (f : α → M β) : M β := fun w =>
  match x w with
  | .ok a w' => f a w'
  | .err e w' => .err e w'

instance : Monad M where
  pure := M.pure
  bind := M.bind

/-- Throwing a JS exception with message `e`. -/
def throwM {α : Type} (e : String) : M α := fun w => .err e w

/-- JS `try { x } catch (error) { h error }`. -/
def tryCatchM {α : Type} (x : M α) (h : String → M α) : M α := fun w =>
  match x w with
  | .ok a w' => .ok a w'
  | .err e w' => h e w'

@[simp] theorem run_pure {α : Type} (a : α) (w : World) :
    (pure a : M α) w = .ok a w := rfl

@[simp] theorem run_bind {α β : Type} (x : M α) (f : α → M β) (w : World) :
    (x >>= f) w =
      match x w with
      | .ok a w' => f a w'
      | .err e w' => .err e w' := rfl

@[simp] theorem run_throw {α : Type} (e : String) (w : World) :
    (throwM e : M α) w = .err e w := rfl

@[simp] theorem run_tryCatch {α : Type} (x : M α) (h : String → M α) (w : World) :
    tryCatchM x h w =
      match x w with
      | .ok a w' => .ok a w'
      | .err e w' => h e w' := rfl

/-- Decimal digit string of a natural number. -/
def natStr (n : Nat) : String :=
  if n = 0 then "0"
  else List.asString ((Nat.digits 10 n).reverse.map (fun d => Char.ofNat (48 + d)))

/-- Decimal string of an integer. -/
def intStr (i : Int) : String :=
  if i < 0 then "-" ++ natStr i.natAbs else natStr i.natAbs

/-- JS template interpolation of a number.  Integral values print exactly in
decimal; values with a finite decimal expansion print that expansion; for the
rest (whose JS float formatting is outside the model) a fraction rendering is
used.  Claims only ever inspect the integral cases. -/
def jsNum (q : Rat) : String :=
  if q.den = 1 then intStr q.num
  else
    match (List.range 30).find? (fun k => 10 ^ k % q.den = 0) with
    | some k =>
        let t : Nat := q.num.natAbs * 10 ^ k / q.den
        let ip := t / 10 ^ k
        let fp := t % 10 ^ k
        let fpDigits := natStr fp
        let pad := List.asString (List.replicate (k - fpDigits.length) '0')
        (if q.num < 0 then "-" else "") ++ natStr ip ++ "." ++ pad ++ fpDigits
    | none => intStr q.num ++ "/" ++ natStr q.den

/-- JS template interpolation of a possibly-undefined number. -/
def jsNumU (o : Option Rat) : String :=
  match o with
  | some q => jsNum q
  | none => "undefined"

/-- JS template interpolation of a possibly-undefined string. -/
def jsStrU (o : Option String) : String := o.getD "undefined"

/-- Node `path.dirname`. -/
def jsDirname (s : String) : String :=
  match s.splitOn "/" with
  | [] => "."
  | [_] => "."
  | parts =>
      let j := String.intercalate "/" parts.dropLast
      if j = "" then "/" else j

/-- JS `color.replace('#', '')`: removes the first `#` only. -/
def stripHash (s : String) : String :=
  match s.splitOn "#" with
  | [] => s
  | [a] => a
  | a :: b :: rest => a ++ String.intercalate "#" (b :: rest)

/-- Value of one hexadecimal digit character. -/
def hexVal (c : Char) : Option Nat :=
  if '0' ≤ c ∧ c ≤ '9' then some (c.toNat - 48)
  else if 'a' ≤ c ∧ c ≤ 'f' then some (c.toNat - 87)
  else if 'A' ≤ c ∧ c ≤ 'F' then some (c.toNat - 55)
  else none

/-- JS `parseInt(s.substr(off, 2), 16)`: parses the maximal hex prefix of the
two characters at `off`; `none` models `NaN`. -/
def parseHex2 (s : String) (off : Nat) : Option Int :=
  match (s.toList.drop off).take 2 with
  | [] => none
  | [c] => (hexVal c).map Int.ofNat
  | c :: d :: _ =>
      match hexVal c, hexVal d with
      | some x, some y => some (Int.ofNat (16 * x + y))
      | some x, none => some (Int.ofNat x)
      | none, _ => none

/-- JS truthiness filter on an optional number (`if (width) ...`):
`undefined` and `0` are falsy. -/
def jsTruthy (o : Option Rat) : Option Rat :=
  match o with
  | some v => if v = 0 then none else some v
  | none => none

/-- JS `value || dflt` on an optional number. -/
def jsOrNum (o : Option Rat) (d : Rat) : Rat :=
  match o with
  | some v => if v = 0 then d else v
  | none => d

/-- Iteration count of `for (let i = 0; i < q; i++)` for a JS number bound. -/
def jsLoopCount (q : Rat) : Nat := (Int.ceil q).toNat

/-- JSON string escaping (quote and backslash; control characters do not
occur in the values the program builds). -/
def jsonEsc (s : String) : String :=
  String.join (s.toList.map (fun c =>
    if c = '"' then "\\\"" else if c = '\\' then "\\\\" else String.singleton c))

/-- Filesystem lookup of a file's contents. -/
def lookupFile (fs : FS) (p : String) : Option FileVal := fs.files.lookup p

/-- Node `existsSync` (returns `false` on any error, including a missing or
undefined path); directories also exist. -/
def existsSyncFS (fs : FS) (p : Option String) : Bool :=
  match p with
  | none => false
  | some s => (lookupFile fs s).isSome || fs.dirs.contains s

/-- Writing a file: the new entry shadows any previous one. -/
def fsWrite (fs : FS) (p : String) (v : FileVal) : FS :=
  { fs with files := (p, v) :: fs.files.filter (fun e => e.1 != p) }

/-- Recording a directory created by `mkdir`. -/
def fsAddDir (fs : FS) (d : String) : FS := { fs with dirs := d :: fs.dirs }

/-- Behaviour of the two external image libraries during one request:
whether calls throw, and oracles for the values they return. -/
structure Env where
  sharpFail : Option String
  vipsLoad : Except String Nat
  vipsFail : Option String
  metaDims : FileVal → Rat × Rat
  vipsDims : FileVal → Rat × Rat
  infoJson : FileVal → String
  histJson : FileVal → String
  sharpStatsJson : FileVal → String
  vipsStatsJson : FileVal → String
  vipsTextureJson : FileVal → Rat → String
  sharpTextureJson : FileVal → Rat → String
  rand : Nat → Rat

/-- The `existsSync` call on a (possibly undefined) path. -/
def existsSyncM (p : Option String) : M Bool := fun w => .ok (existsSyncFS w.fs p) w

/-- The repeated `if (!existsSync(p)) throw new Error(pre + p)` idiom. -/
def checkExistsM (p : Option String) (pre : String) : M Unit := fun w =>
  if existsSyncFS w.fs p then .ok () w else .err (pre ++ jsStrU p) w

/-- Node error message when `dirname` receives `undefined`. -/
def pathArgMsg : String :=
  "The \"path\" argument must be of type string. Received undefined"

/-- Helper `ensureDirectoryExists`: `mkdir(dirname(p), { recursive: true })`
with errors swallowed; `dirname(undefined)` itself throws. -/
def ensureDirectoryExistsM (p : Option String) : M Unit := fun w =>
  match p with
  | none => .err pathArgMsg w
  | some s => .ok () { w with fs := fsAddDir w.fs (jsDirname s) }

/-- A sharp library call's throwing point. -/
def sharpGateM (env : Env) : M Unit := fun w =>
  match env.sharpFail with
  | some m => .err m w
  | none => .ok () w

/-- Reading the contents a pipeline source path denotes. -/
def readFileM (p : Option String) : M FileVal := fun w =>
  match p with
  | none => .err "Input file is missing" w
  | some s =>
      match lookupFile w.fs s with
      | some v => .ok v w
      | none => .err ("Input file is missing: " ++ s) w

/-- Sharp `.toFile(p)`: throws when the library fails, otherwise writes. -/
def sharpToFileM (env : Env) (v : FileVal) (p : Option String) : M Unit := fun w =>
  match env.sharpFail with
  | some m => .err m w
  | none =>
      match p with
      | none => .err "Missing output file path" w
      | some s => .ok () { w with fs := fsWrite w.fs s v }

/-- Sharp `.metadata()` width/height. -/
def sharpMetadataM (env : Env) (v : FileVal) : M (Rat × Rat) := do
  sharpGateM env
  pure (env.metaDims v)

/-- The function `initVips`: creates the wasm-vips handle once and reuses it. -/
def initVipsM (env : Env) : M Nat := fun w =>
  match w.vips with
  | some h => .ok h w
  | none =>
      match env.vipsLoad with
      | .ok h => .ok h { w with vips := some h }
      | .error e => .err e w

/-- A wasm-vips image call's throwing point. -/
def vipsGateM (env : Env) : M Unit := fun w =>
  match env.vipsFail with
  | some m => .err m w
  | none => .ok () w

/-- Vips `Image.newFromFile(p)`. -/
def vipsNewFromFileM (env : Env) (p : Option String) : M FileVal := do
  vipsGateM env
  readFileM p

/-- Vips `image.writeToFile(p)`. -/
def vipsWriteToFileM (env : Env) (v : FileVal) (p : Option String) : M Unit := fun w =>
  match env.vipsFail with
  | some m => .err m w
  | none =>
      match p with
      | none => .err "Missing output file path" w
      | some s => .ok () { w with fs := fsWrite w.fs s v }

/-- JS `Array(q)` length check (`RangeError: Invalid array length` for
negative or non-integral numbers). -/
def jsArrayLenM (q : Rat) : M Nat := fun w =>
  if q.den = 1 ∧ 0 ≤ q.num then .ok q.num.toNat w else .err "Invalid array length" w

/-- A successful textual tool response. -/
def mkText (s : String) : ToolResponse :=
  { content := [{ type := "text", text := s }], isError := false }

/-- The response built by the top-level catch block. -/
def errorResponse (m : String) : ToolResponse :=
  { content := [{ type := "text", text := "Error: " ++ m }], isError := true }

/-- The static tool table (`const tools: Tool[]`), transcribed entry by entry. -/
def tools : List ToolDecl := [
  { name := "image_info",
    description := "Get detailed information about an image file",
    properties := [
      ("image_path", { type := "string", description := "Path to the image file" })],
    required := ["image_path"] },
  { name := "image_resize",
    description := "Resize an image while preserving aspect ratio or with specific dimensions",
    properties := [
      ("input_path", { type := "string", description := "Path to input image" }),
      ("output_path", { type := "string", description := "Path for output image" }),
      ("width", { type := "number", description := "Target width in pixels" }),
      ("height", { type := "number", description := "Target height in pixels" }),
      ("maintain_aspect_ratio", {
        type := "boolean",
        description := "Whether to maintain aspect ratio (default: true)", dflt := some (.b true) }),
      ("fit", {
        type := "string",
        enum := some ["cover", "contain", "fill", "inside", "outside"],
        description := "How the image should be resized to fit the target dimensions",
        dflt := some (.s "cover") })],
    required := ["input_path", "output_path"] },
  { name := "image_convert",
    description := "Convert image between different formats",
    properties := [
      ("input_path", { type := "string", description := "Path to input image" }),
      ("output_path", { type := "string", description := "Path for output image" }),
      ("format", {
        type := "string",
        enum := some ["jpeg", "png", "webp", "tiff", "avif", "heif"],
        description := "Target format" }),
      ("quality", {
        type := "number", minimum := some 1, maximum := some 100,
        description := "Quality for lossy formats (1-100)" })],
    required := ["input_path", "output_path", "format"] },
  { name := "image_crop",
    description := "Crop an image to specified dimensions and position",
    properties := [
      ("input_path", { type := "string", description := "Path to input image" }),
      ("output_path", { type := "string", description := "Path for output image" }),
      ("x", { type := "number", description := "X coordinate of crop area (left)" }),
      ("y", { type := "number", description := "Y coordinate of crop area (top)" }),
      ("width", { type := "number", description := "Width of crop area" }),
      ("height", { type := "number", description := "Height of crop area" })],
    required := ["input_path", "output_path", "x", "y", "width", "height"] },
  { name := "image_rotate",
    description := "Rotate an image by specified angle",
    properties := [
      ("input_path", { type := "string", description := "Path to input image" }),
      ("output_path", { type := "string", description := "Path for output image" }),
      ("angle", { type := "number", description := "Rotation angle in degrees (positive = clockwise)" }),
      ("background", {
        type := "string",
        description := "Background color for empty areas (hex color)", dflt := some (.s "#000000") })],
    required := ["input_path", "output_path", "angle"] },
  { name := "image_flip",
    description := "Flip an image horizontally or vertically",
    properties := [
      ("input_path", { type := "string", description := "Path to input image" }),
      ("output_path", { type := "string", description := "Path for output image" }),
      ("direction", {
        type := "string", enum := some ["horizontal", "vertical"],
        description := "Direction to flip the image" })],
    required := ["input_path", "output_path", "direction"] },
  { name := "image_blur",
    description := "Apply Gaussian blur to an image",
    properties := [
      ("input_path", { type := "string", description := "Path to input image" }),
      ("output_path", { type := "string", description := "Path for output image" }),
      ("sigma", {
        type := "number", description := "Blur strength (sigma value)",
        minimum := some (3/10), maximum := some 1000, dflt := some (.n 1) })],
    required := ["input_path", "output_path"] },
  { name := "image_sharpen",
    description := "Apply unsharp mask to sharpen an image",
    properties := [
      ("input_path", { type := "string", description := "Path to input image" }),
      ("output_path", { type := "string", description := "Path for output image" }),
      ("sigma", { type := "number", description := "Blur sigma for the mask", dflt := some (.n 1) }),
      ("flat", { type := "number", description := "Flat area threshold", dflt := some (.n 1) }),
      ("jagged", { type := "number", description := "Jagged area threshold", dflt := some (.n 2) })],
    required := ["input_path", "output_path"] },
  { name := "image_adjust_brightness",
    description := "Adjust image brightness",
    properties := [
      ("input_path", { type := "string", description := "Path to input image" }),
      ("output_path", { type := "string", description := "Path for output image" }),
      ("brightness", {
        type := "number", description := "Brightness adjustment (-100 to 100)",
        minimum := some (-100), maximum := some 100 })],
    required := ["input_path", "output_path", "brightness"] },
  { name := "image_adjust_contrast",
    description := "Adjust image contrast",
    properties := [
      ("input_path", { type := "string", description := "Path to input image" }),
      ("output_path", { type := "string", description := "Path for output image" }),
      ("contrast", {
        type := "number",
        description := "Contrast multiplier (0.1 to 3.0, 1.0 = no change)",
        minimum := some (1/10), maximum := some 3 })],
    required := ["input_path", "output_path", "contrast"] },
  { name := "image_adjust_saturation",
    description := "Adjust image saturation",
    properties := [
      ("input_path", { type := "string", description := "Path to input image" }),
      ("output_path", { type := "string", description := "Path for output image" }),
      ("saturation", {
        type := "number",
        description := "Saturation multiplier (0.0 to 2.0, 1.0 = no change)",
        minimum := some 0, maximum := some 2 })],
    required := ["input_path", "output_path", "saturation"] },
  { name := "image_grayscale",
    description := "Convert image to grayscale",
    properties := [
      ("input_path", { type := "string", description := "Path to input image" }),
      ("output_path", { type := "string", description := "Path for output image" })],
    required := ["input_path", "output_path"] },
  { name := "image_composite",
    description := "Composite two images together with various blend modes",
    properties := [
      ("base_image_path", { type := "string", description := "Path to base image" }),
      ("overlay_image_path", { type := "string", description := "Path to overlay image" }),
      ("output_path", { type := "string", description := "Path for output image" }),
      ("x", { type := "number", description := "X position of overlay on base image", dflt := some (.n 0) }),
      ("y", { type := "number", description := "Y position of overlay on base image", dflt := some (.n 0) }),
      ("blend", {
        type := "string",
        enum := some ["over", "in", "out", "atop", "dest", "dest-over", "dest-in", "dest-out",
          "dest-atop", "xor", "add", "saturate", "multiply", "screen", "overlay", "darken",
          "lighten", "colour-dodge", "colour-burn", "hard-light", "soft-light", "difference",
          "exclusion"],
        description := "Blend mode for compositing", dflt := some (.s "over") })],
    required := ["base_image_path", "overlay_image_path", "output_path"] },
  { name := "image_thumbnail",
    description := "Create a thumbnail maintaining aspect ratio",
    properties := [
      ("input_path", { type := "string", description := "Path to input image" }),
      ("output_path", { type := "string", description := "Path for output image" }),
      ("size", { type := "number", description := "Maximum dimension for thumbnail" }),
      ("crop", {
        type := "boolean", description := "Whether to crop to exact square",
        dflt := some (.b false) })],
    required := ["input_path", "output_path", "size"] },
  { name := "image_extract_channel",
    description := "Extract a specific channel from an image",
    properties := [
      ("input_path", { type := "string", description := "Path to input image" }),
      ("output_path", { type := "string", description := "Path for output image" }),
      ("channel", {
        type := "number",
        description := "Channel index to extract (0=Red, 1=Green, 2=Blue, 3=Alpha)",
        minimum := some 0, maximum := some 3 })],
    required := ["input_path", "output_path", "channel"] },
  { name := "image_histogram",
    description := "Generate histogram data for an image",
    properties := [
      ("input_path", { type := "string", description := "Path to input image" }),
      ("bins", { type := "number", description := "Number of histogram bins", dflt := some (.n 256) })],
    required := ["input_path"] },
  { name := "create_solid_color",
    description := "Create a solid color image",
    properties := [
      ("output_path", { type := "string", description := "Path for output image" }),
      ("width", { type := "number", description := "Image width in pixels" }),
      ("height", { type := "number", description := "Image height in pixels" }),
      ("color", {
        type := "string", description := "Color in hex format (e.g., #FF0000)",
        dflt := some (.s "#FFFFFF") })],
    required := ["output_path", "width", "height"] },
  { name := "image_morphology",
    description := "Apply morphological operations (erosion, dilation, opening, closing)",
    properties := [
      ("input_path", { type := "string", description := "Path to input image" }),
      ("output_path", { type := "string", description := "Path for output image" }),
      ("operation", {
        type := "string", enum := some ["erode", "dilate", "opening", "closing"],
        description := "Morphological operation to apply" }),
      ("kernel_size", {
        type := "number", dflt := some (.n 3),
        description := "Size of morphological kernel" }),
      ("iterations", {
        type := "number", dflt := some (.n 1), minimum := some 1,
        description := "Number of iterations" })],
    required := ["input_path", "output_path", "operation"] },
  { name := "image_draw_line",
    description := "Draw a line on the image",
    properties := [
      ("input_path", { type := "string", description := "Path to input image" }),
      ("output_path", { type := "string", description := "Path for output image" }),
      ("x1", { type := "number", description := "Start X coordinate" }),
      ("y1", { type := "number", description := "Start Y coordinate" }),
      ("x2", { type := "number", description := "End X coordinate" }),
      ("y2", { type := "number", description := "End Y coordinate" }),
      ("color", {
        type := "string", dflt := some (.s "#000000"),
        description := "Line color (hex format)" }),
      ("width", { type := "number", dflt := some (.n 1), description := "Line width in pixels" })],
    required := ["input_path", "output_path", "x1", "y1", "x2", "y2"] },
  { name := "image_draw_circle",
    description := "Draw a circle on the image",
    properties := [
      ("input_path", { type := "string", description := "Path to input image" }),
      ("output_path", { type := "string", description := "Path for output image" }),
      ("x", { type := "number", description := "Center X coordinate" }),
      ("y", { type := "number", description := "Center Y coordinate" }),
      ("radius", { type := "number", description := "Circle radius in pixels" }),
      ("fill", {
        type := "boolean", dflt := some (.b false),
        description := "Whether to fill the circle" }),
      ("color", {
        type := "string", dflt := some (.s "#000000"),
        description := "Circle color (hex format)" })],
    required := ["input_path", "output_path", "x", "y", "radius"] },
  { name := "image_edge_detection",
    description := "Apply edge detection algorithms",
    properties := [
      ("input_path", { type := "string", description := "Path to input image" }),
      ("output_path", { type := "string", description := "Path for output image" }),
      ("method", {
        type := "string", enum := some ["sobel", "prewitt", "roberts", "laplacian"],
        description := "Edge detection method to use" }),
      ("threshold", {
        type := "number", dflt := some (.n 128),
        description := "Edge threshold (0-255)" })],
    required := ["input_path", "output_path", "method"] },
  { name := "image_advanced_stats",
    description := "Calculate comprehensive image statistics using wasm-vips",
    properties := [
      ("input_path", { type := "string", description := "Path to input image" })],
    required := ["input_path"] },
  { name := "image_fft",
    description := "Apply Fast Fourier Transform for frequency domain analysis",
    properties := [
      ("input_path", { type := "string", description := "Path to input image" }),
      ("output_path", { type := "string", description := "Path for output image" }),
      ("inverse", { type := "boolean", dflt := some (.b false), description := "Apply inverse FFT" })],
    required := ["input_path", "output_path"] },
  { name := "image_custom_convolution",
    description := "Apply custom convolution kernel for advanced filtering",
    properties := [
      ("input_path", { type := "string", description := "Path to input image" }),
      ("output_path", { type := "string", description := "Path for output image" }),
      ("kernel", {
        type := "array", items := some "array of number",
        description := "2D convolution kernel matrix" }),
      ("scale", { type := "number", dflt := some (.n 1), description := "Kernel scale factor" }),
      ("offset", { type := "number", dflt := some (.n 0), description := "Output offset" })],
    required := ["input_path", "output_path", "kernel"] },
  { name := "image_colorspace_convert",
    description := "Convert between different color spaces",
    properties := [
      ("input_path", { type := "string", description := "Path to input image" }),
      ("output_path", { type := "string", description := "Path for output image" }),
      ("space", {
        type := "string",
        enum := some ["srgb", "rgb", "cmyk", "lab", "xyz", "scrgb", "hsv", "lch"],
        description := "Target color space" })],
    required := ["input_path", "output_path", "space"] },
  { name := "image_add_noise",
    description := "Add various types of noise to images",
    properties := [
      ("input_path", { type := "string", description := "Path to input image" }),
      ("output_path", { type := "string", description := "Path for output image" }),
      ("noise_type", {
        type := "string", enum := some ["gaussian", "uniform", "salt_pepper"],
        description := "Type of noise to add" }),
      ("amount", {
        type := "number", dflt := some (.n (1/10)), minimum := some 0, maximum := some 1,
        description := "Noise intensity (0-1)" })],
    required := ["input_path", "output_path", "noise_type"] },
  { name := "image_perspective_transform",
    description := "Apply perspective transformation to images",
    properties := [
      ("input_path", { type := "string", description := "Path to input image" }),
      ("output_path", { type := "string", description := "Path for output image" }),
      ("corners", {
        type := "array", items := some "pair of number",
        minItems := some 4, maxItems := some 4,
        description := "Four corner points [[x1,y1], [x2,y2], [x3,y3], [x4,y4]]" })],
    required := ["input_path", "output_path", "corners"] },
  { name := "image_texture_analysis",
    description := "Analyze image texture using statistical measures",
    properties := [
      ("input_path", { type := "string", description := "Path to input image" }),
      ("window_size", {
        type := "number", dflt := some (.n 5),
        description := "Analysis window size" })],
    required := ["input_path"] },
  { name := "image_flood_fill",
    description := "Fill connected regions with specified color",
    properties := [
      ("input_path", { type := "string", description := "Path to input image" }),
      ("output_path", { type := "string", description := "Path for output image" }),
      ("x", { type := "number", description := "Starting X coordinate" }),
      ("y", { type := "number", description := "Starting Y coordinate" }),
      ("fill_color", {
        type := "string", dflt := some (.s "#FF0000"),
        description := "Fill color (hex format)" }),
      ("tolerance", {
        type := "number", dflt := some (.n 10),
        description := "Color tolerance for filling" })],
    required := ["input_path", "output_path", "x", "y"] },
  { name := "image_create_pyramid",
    description := "Create image pyramid for multi-resolution analysis",
    properties := [
      ("input_path", { type := "string", description := "Path to input image" }),
      ("output_dir", { type := "string", description := "Directory for pyramid levels" }),
      ("levels", {
        type := "number", dflt := some (.n 4), minimum := some 2, maximum := some 8,
        description := "Number of pyramid levels" }),
      ("scale_factor", {
        type := "number", dflt := some (.n (1/2)),
        description := "Scale factor between levels" })],
    required := ["input_path", "output_dir"] }]

/-- The SVG template string of the draw-line fallback. -/
def svgLine (wq hq : Rat) (x1 y1 x2 y2 : Option Rat) (color : String) (lineWidth : Rat) : String :=
  "<svg width=\"" ++ jsNum wq ++ "\" height=\"" ++ jsNum hq ++
    "\" xmlns=\"http://www.w3.org/2000/svg\">\n            <line x1=\"" ++ jsNumU x1 ++
    "\" y1=\"" ++ jsNumU y1 ++ "\" x2=\"" ++ jsNumU x2 ++ "\" y2=\"" ++ jsNumU y2 ++
    "\" stroke=\"" ++ color ++ "\" stroke-width=\"" ++ jsNum lineWidth ++ "\"/>\n          </svg>"

/-- The SVG template string of the draw-circle case. -/
def svgCircle (wq hq : Rat) (x y radius : Option Rat) (color : String) (fill : Bool) : String :=
  "<svg width=\"" ++ jsNum wq ++ "\" height=\"" ++ jsNum hq ++
    "\" xmlns=\"http://www.w3.org/2000/svg\">\n          <circle cx=\"" ++ jsNumU x ++
    "\" cy=\"" ++ jsNumU y ++ "\" r=\"" ++ jsNumU radius ++ "\" stroke=\"" ++ color ++ "\" " ++
    (if fill then "fill=\"" ++ color ++ "\"" else "fill=\"none\"") ++
    " stroke-width=\"2\"/>\n        </svg>"

/-- The SVG template string of the flood-fill fallback. -/
def svgFillCircle (wq hq : Rat) (x y : Option Rat) (fillColor : String) : String :=
  "<svg width=\"" ++ jsNum wq ++ "\" height=\"" ++ jsNum hq ++
    "\" xmlns=\"http://www.w3.org/2000/svg\">\n            <circle cx=\"" ++ jsNumU x ++
    "\" cy=\"" ++ jsNumU y ++ "\" r=\"50\" fill=\"" ++ fillColor ++ "\"/>\n          </svg>"

/-- One entry of the `pyramidFiles` array. -/
structure PyrEntry where
  level : Nat
  path : String
  dims : String

/-- JSON.stringify rendering of one pyramid entry at indent 2. -/
def pyrEntryJson (e : PyrEntry) : String :=
  "  \x7b\n    \"level\": " ++ natStr e.level ++ ",\n    \"path\": \"" ++ jsonEsc e.path ++
    "\",\n    \"dimensions\": \"" ++ jsonEsc e.dims ++ "\"\n  \x7d"

/-- JSON.stringify(pyramidFiles, null, 2). -/
def pyrJson (l : List PyrEntry) : String :=
  match l with
  | [] => "[]"
  | _ => "[\n" ++ String.intercalate ",\n" (l.map pyrEntryJson) ++ "\n]"

/-- Encoder selection of the `image_convert` format switch (no default case:
an unmatched format adds no encoder step). -/
def convertOps (format : Option String) (quality : Option Rat) : List SPrim :=
  match format with
  | some "jpeg" => [.jpegE (jsOrNum quality 80)]
  | some "png" => [.pngE (jsOrNum quality 80)]
  | some "webp" => [.webpE (jsOrNum quality 80)]
  | some "tiff" => [.tiffE (jsOrNum quality 80)]
  | some "avif" => [.avifE (jsOrNum quality 80)]
  | some "heif" => [.heifE (jsOrNum quality 80)]
  | _ => []

/-- One iteration of the morphology switch (no default case). -/
def morphOps (operation : Option String) (kernel : List (List Rat)) : List VPrim :=
  match operation with
  | some "erode" => [.morph kernel "erode"]
  | some "dilate" => [.morph kernel "dilate"]
  | some "opening" => [.morph kernel "erode", .morph kernel "dilate"]
  | some "closing" => [.morph kernel "dilate", .morph kernel "erode"]
  | _ => []

/-- The morphology `for (let i = 0; i < iterations; i++)` loop. -/
def morphIter (operation : Option String) (kernel : List (List Rat)) : Nat → List VPrim
  | 0 => []
  | n + 1 => morphIter operation kernel n ++ morphOps operation kernel

/-- The sharp approximation switch of the morphology fallback. -/
def morphFallbackOps (operation : Option String) : List SPrim :=
  match operation with
  | some "erode" => [.blurS (1/2), .thresholdT 120]
  | some "dilate" => [.blurS 1, .modulateB (some (23/20))]
  | some "opening" => [.blurS (1/2), .thresholdT 120, .blurS 1]
  | some "closing" => [.blurS 1, .modulateB (some (23/20)), .blurS (1/2)]
  | _ => []

/-- The edge-detection kernel switch (default case throws). -/
def edgeKernelM (method : Option String) : M (List (List Rat)) :=
  match method with
  | some "sobel" => pure [[-1, 0, 1], [-2, 0, 2], [-1, 0, 1]]
  | some "prewitt" => pure [[-1, 0, 1], [-1, 0, 1], [-1, 0, 1]]
  | some "roberts" => pure [[1, 0], [0, -1]]
  | some "laplacian" => pure [[0, -1, 0], [-1, 4, -1], [0, -1, 0]]
  | _ => throwM ("Unknown edge detection method: " ++ jsStrU method)

/-- The add-noise switch (default case throws). -/
def noiseOpM (env : Env) (noise_type : Option String) (amount : Rat) (dims : Rat × Rat) : M VPrim :=
  match noise_type with
  | some "gaussian" => pure (.gaussAdd dims.1 dims.2 (amount * 255))
  | some "uniform" => pure (.uniformAdd dims.1 dims.2 (env.rand 0 * amount * 255))
  | some "salt_pepper" => pure (.saltPepper dims.1 dims.2 (if env.rand 1 > amount then 0 else 255))
  | _ => throwM ("Unknown noise type: " ++ jsStrU noise_type)

/-- The sharp approximation switch of the colorspace fallback. -/
def colorspaceFallbackOps (space : Option String) : List SPrim :=
  match space with
  | some "lab" => [.toColorspace "lab"]
  | some "xyz" => [.toColorspace "lab"]
  | some "cmyk" => [.toColorspace "cmyk"]
  | some "hsv" => [.modulateHue 0]
  | _ => [.toColorspace "srgb"]

/-- JS `const [tl, tr, br, bl] = corners` followed by indexing: a missing
point throws, a missing coordinate is `undefined`. -/
def cornerCoord (cs : List (List Rat)) (i j : Nat) : M (Option Rat) :=
  match cs.get? i with
  | none => throwM "Cannot read properties of undefined (reading 0)"
  | some pt => pure (pt.get? j)

/-- JS destructuring of the `corners` argument (undefined is not iterable). -/
def cornersM (corners : Option (List (List Rat))) : M (List (List Rat)) :=
  match corners with
  | some cs => pure cs
  | none => throwM "corners is not iterable"

/-- The `kernel` argument reaching `Image.newFromArray` (undefined throws). -/
def kernelArgM (kernel : Option (List (List Rat))) : M (List (List Rat)) :=
  match kernel with
  | some k => pure k
  | none => throwM "newFromArray: invalid kernel"

/-- The `image_info` case. -/
def caseImageInfo (env : Env) (a : Args) : M ToolResponse := do
  let _ ← checkExistsM a.image_path "Image file not found: "
  let v ← readFileM a.image_path
  let _ ← sharpGateM env
  pure (mkText (env.infoJson v))

/-- The `image_resize` case (single-backend: sharp only, no fallback). -/
def caseImageResize (env : Env) (a : Args) : M ToolResponse := do
  let maintain := a.maintain_aspect.getD true
  let fit := a.fit.getD "cover"
  let _ ← checkExistsM a.input_path "Input image not found: "
  let _ ← ensureDirectoryExistsM a.output_path
  let v ← readFileM a.input_path
  let fitFinal := if maintain then fit else "fill"
  let _ ← sharpToFileM env
    (.sharpOut v [.resizeOpts (jsTruthy a.width) (jsTruthy a.height) fitFinal]) a.output_path
  pure (mkText ("Image resized successfully: " ++ jsStrU a.output_path))

/-- The `image_convert` case: the format switch has no default, then
`.toFile` runs unconditionally. -/
def caseImageConvert (env : Env) (a : Args) : M ToolResponse := do
  let _ ← checkExistsM a.input_path "Input image not found: "
  let _ ← ensureDirectoryExistsM a.output_path
  let v ← readFileM a.input_path
  let _ ← sharpToFileM env (.sharpOut v (convertOps a.format a.quality)) a.output_path
  pure (mkText ("Image converted to " ++ jsStrU a.format ++ ": " ++ jsStrU a.output_path))

/-- The `image_crop` case. -/
def caseImageCrop (env : Env) (a : Args) : M ToolResponse := do
  let _ ← checkExistsM a.input_path "Input image not found: "
  let _ ← ensureDirectoryExistsM a.output_path
  let v ← readFileM a.input_path
  let _ ← sharpToFileM env (.sharpOut v [.extractArea a.x a.y a.width a.height]) a.output_path
  pure (mkText ("Image cropped successfully: " ++ jsStrU a.output_path))

/-- The `image_rotate` case. -/
def caseImageRotate (env : Env) (a : Args) : M ToolResponse := do
  let background := a.background.getD "#000000"
  let _ ← checkExistsM a.input_path "Input image not found: "
  let _ ← ensureDirectoryExistsM a.output_path
  let v ← readFileM a.input_path
  let _ ← sharpToFileM env (.sharpOut v [.rotateBg a.angle background]) a.output_path
  pure (mkText ("Image rotated by " ++ jsNumU a.angle ++ " degrees: " ++ jsStrU a.output_path))

/-- The `image_flip` case. -/
def caseImageFlip (env : Env) (a : Args) : M ToolResponse := do
  let _ ← checkExistsM a.input_path "Input image not found: "
  let _ ← ensureDirectoryExistsM a.output_path
  let v ← readFileM a.input_path
  let op : SPrim := if a.direction = some "horizontal" then .flopH else .flipV
  let _ ← sharpToFileM env (.sharpOut v [op]) a.output_path
  pure (mkText ("Image flipped " ++ jsStrU a.direction ++ "ly: " ++ jsStrU a.output_path))

/-- The `image_blur` case. -/
def caseImageBlur (env : Env) (a : Args) : M ToolResponse := do
  let sigma := a.sigma.getD 1
  let _ ← checkExistsM a.input_path "Input image not found: "
  let _ ← ensureDirectoryExistsM a.output_path
  let v ← readFileM a.input_path
  let _ ← sharpToFileM env (.sharpOut v [.blurS sigma]) a.output_path
  pure (mkText ("Image blurred with sigma " ++ jsNum sigma ++ ": " ++ jsStrU a.output_path))

/-- The `image_sharpen` case. -/
def caseImageSharpen (env : Env) (a : Args) : M ToolResponse := do
  let sigma := a.sigma.getD 1
  let flat := a.flat.getD 1
  let jagged := a.jagged.getD 2
  let _ ← checkExistsM a.input_path "Input image not found: "
  let _ ← ensureDirectoryExistsM a.output_path
  let v ← readFileM a.input_path
  let _ ← sharpToFileM env (.sharpOut v [.sharpenS sigma flat jagged]) a.output_path
  pure (mkText ("Image sharpened: " ++ jsStrU a.output_path))

/-- The `image_adjust_brightness` case. -/
def caseImageAdjustBrightness (env : Env) (a : Args) : M ToolResponse := do
  let _ ← checkExistsM a.input_path "Input image not found: "
  let _ ← ensureDirectoryExistsM a.output_path
  let v ← readFileM a.input_path
  let _ ← sharpToFileM env
    (.sharpOut v [.modulateB (a.brightness.map (fun b => 1 + b / 100))]) a.output_path
  pure (mkText ("Image brightness adjusted by " ++ jsNumU a.brightness ++ ": " ++
    jsStrU a.output_path))

/-- The `image_adjust_contrast` case: `.linear(contrast, -(128 * contrast) + 128)`,
with no check against the declared 0.1..3.0 bounds. -/
def caseImageAdjustContrast (env : Env) (a : Args) : M ToolResponse := do
  let _ ← checkExistsM a.input_path "Input image not found: "
  let _ ← ensureDirectoryExistsM a.output_path
  let v ← readFileM a.input_path
  let _ ← sharpToFileM env
    (.sharpOut v [.linearAB a.contrast (a.contrast.map (fun c => -(128 * c) + 128))]) a.output_path
  pure (mkText ("Image contrast adjusted by " ++ jsNumU a.contrast ++ ": " ++ jsStrU a.output_path))

/-- The `image_adjust_saturation` case. -/
def caseImageAdjustSaturation (env : Env) (a : Args) : M ToolResponse := do
  let _ ← checkExistsM a.input_path "Input image not found: "
  let _ ← ensureDirectoryExistsM a.output_path
  let v ← readFileM a.input_path
  let _ ← sharpToFileM env (.sharpOut v [.modulateS a.saturation]) a.output_path
  pure (mkText ("Image saturation adjusted by " ++ jsNumU a.saturation ++ ": " ++
    jsStrU a.output_path))

/-- The `image_grayscale` case. -/
def caseImageGrayscale (env : Env) (a : Args) : M ToolResponse := do
  let _ ← checkExistsM a.input_path "Input image not found: "
  let _ ← ensureDirectoryExistsM a.output_path
  let v ← readFileM a.input_path
  let _ ← sharpToFileM env (.sharpOut v [.grayscaleOp]) a.output_path
  pure (mkText ("Image converted to grayscale: " ++ jsStrU a.output_path))

/-- The `image_composite` case (two input checks, then one sharp call). -/
def caseImageComposite (env : Env) (a : Args) : M ToolResponse := do
  let x := a.x.getD 0
  let y := a.y.getD 0
  let blend := a.blend.getD "over"
  let _ ← checkExistsM a.base_image_path "Base image not found: "
  let _ ← checkExistsM a.overlay_image_path "Overlay image not found: "
  let _ ← ensureDirectoryExistsM a.output_path
  let v ← readFileM a.base_image_path
  let _ ← sharpToFileM env
    (.sharpOut v [.compositeFile a.overlay_image_path x y blend]) a.output_path
  pure (mkText ("Images composited with " ++ blend ++ " blend mode: " ++ jsStrU a.output_path))

/-- The `image_thumbnail` case. -/
def caseImageThumbnail (env : Env) (a : Args) : M ToolResponse := do
  let crop := a.crop.getD false
  let _ ← checkExistsM a.input_path "Input image not found: "
  let _ ← ensureDirectoryExistsM a.output_path
  let v ← readFileM a.input_path
  let op : SPrim :=
    if crop then .resizeSq a.size "cover" false else .resizeSq a.size "inside" true
  let _ ← sharpToFileM env (.sharpOut v [op]) a.output_path
  pure (mkText ("Thumbnail created (" ++ jsNumU a.size ++ "px): " ++ jsStrU a.output_path))

/-- The `image_extract_channel` case. -/
def caseImageExtractChannel (env : Env) (a : Args) : M ToolResponse := do
  let _ ← checkExistsM a.input_path "Input image not found: "
  let _ ← ensureDirectoryExistsM a.output_path
  let v ← readFileM a.input_path
  let _ ← sharpToFileM env (.sharpOut v [.extractChannelC a.channel]) a.output_path
  pure (mkText ("Channel " ++ jsNumU a.channel ++ " extracted: " ++ jsStrU a.output_path))

/-- The `image_histogram` case (`bins` is declared but unused by the code). -/
def caseImageHistogram (env : Env) (a : Args) : M ToolResponse := do
  let _ ← checkExistsM a.input_path "Input image not found: "
  let v ← readFileM a.input_path
  let _ ← sharpGateM env
  pure (mkText (env.histJson v))

/-- The `create_solid_color` case (no input file; hex color parsed byte-wise). -/
def caseCreateSolidColor (env : Env) (a : Args) : M ToolResponse := do
  let color := a.color.getD "#FFFFFF"
  let _ ← ensureDirectoryExistsM a.output_path
  let hex := stripHash color
  let _ ← sharpToFileM env
    (.sharpCreate a.width a.height (parseHex2 hex 0) (parseHex2 hex 2) (parseHex2 hex 4)
      [.pngPlain]) a.output_path
  pure (mkText ("Solid color image created (" ++ jsNumU a.width ++ "x" ++ jsNumU a.height ++
    ", " ++ color ++ "): " ++ jsStrU a.output_path))

/-- The `image_morphology` case: wasm-vips primary, sharp approximation in
the catch block. -/
def caseImageMorphology (env : Env) (a : Args) : M ToolResponse := do
  let kernel_size := a.kernel_size.getD 3
  let iterations := a.iterations.getD 1
  let _ ← checkExistsM a.input_path "Input image not found: "
  let _ ← ensureDirectoryExistsM a.output_path
  tryCatchM (do
    let _ ← initVipsM env
    let ks ← jsArrayLenM kernel_size
    let kernel := List.replicate ks (List.replicate ks (1 : Rat))
    let _ ← vipsGateM env
    let v ← vipsNewFromFileM env a.input_path
    let _ ← vipsWriteToFileM env
      (.vipsOut v (morphIter a.operation kernel (jsLoopCount iterations))) a.output_path
    pure (mkText ("✨ Morphological " ++ jsStrU a.operation ++ " applied (" ++ jsNum iterations ++
      " iterations, " ++ jsNum kernel_size ++ "x" ++ jsNum kernel_size ++ " kernel): " ++
      jsStrU a.output_path)))
    (fun _ => do
      let v ← readFileM a.input_path
      let _ ← sharpToFileM env (.sharpOut v (morphFallbackOps a.operation)) a.output_path
      pure (mkText ("⚡ Morphological " ++ jsStrU a.operation ++ " applied (Sharp fallback): " ++
        jsStrU a.output_path)))

/-- The `image_draw_line` case: wasm-vips primary, sharp SVG overlay in the
catch block. -/
def caseImageDrawLine (env : Env) (a : Args) : M ToolResponse := do
  let color := a.color.getD "#000000"
  let lineWidth := a.width.getD 1
  let _ ← checkExistsM a.input_path "Input image not found: "
  let _ ← ensureDirectoryExistsM a.output_path
  tryCatchM (do
    let _ ← initVipsM env
    let hex := stripHash color
    let colorArray := [parseHex2 hex 0, parseHex2 hex 2, parseHex2 hex 4]
    let v ← vipsNewFromFileM env a.input_path
    let _ ← vipsWriteToFileM env
      (.vipsOut v [.drawLine colorArray a.x1 a.y1 a.x2 a.y2]) a.output_path
    pure (mkText ("✨ Line drawn from (" ++ jsNumU a.x1 ++ "," ++ jsNumU a.y1 ++ ") to (" ++
      jsNumU a.x2 ++ "," ++ jsNumU a.y2 ++ ") with color " ++ color ++ ": " ++
      jsStrU a.output_path)))
    (fun _ => do
      let v ← readFileM a.input_path
      let dims ← sharpMetadataM env v
      let svg := svgLine dims.1 dims.2 a.x1 a.y1 a.x2 a.y2 color lineWidth
      let _ ← sharpToFileM env (.sharpOut v [.compositeSvg svg "over"]) a.output_path
      pure (mkText ("⚡ Line drawn from (" ++ jsNumU a.x1 ++ "," ++ jsNumU a.y1 ++ ") to (" ++
        jsNumU a.x2 ++ "," ++ jsNumU a.y2 ++ ") (Sharp SVG): " ++ jsStrU a.output_path)))

/-- The `image_draw_circle` case (sharp SVG overlay only; no try/catch). -/
def caseImageDrawCircle (env : Env) (a : Args) : M ToolResponse := do
  let fill := a.fill.getD false
  let color := a.color.getD "#000000"
  let _ ← checkExistsM a.input_path "Input image not found: "
  let _ ← ensureDirectoryExistsM a.output_path
  let v ← readFileM a.input_path
  let dims ← sharpMetadataM env v
  let svg := svgCircle dims.1 dims.2 a.x a.y a.radius color fill
  let _ ← sharpToFileM env (.sharpOut v [.compositeSvg svg "over"]) a.output_path
  pure (mkText ("✨ " ++ (if fill then "Filled " else "") ++ "Circle drawn at (" ++ jsNumU a.x ++
    "," ++ jsNumU a.y ++ ") radius " ++ jsNumU a.radius ++ ": " ++ jsStrU a.output_path))

/-- The `image_edge_detection` case: an unknown method throws inside the try
block and is absorbed by the sharp fallback. -/
def caseImageEdgeDetection (env : Env) (a : Args) : M ToolResponse := do
  let _ ← checkExistsM a.input_path "Input image not found: "
  let _ ← ensureDirectoryExistsM a.output_path
  tryCatchM (do
    let _ ← initVipsM env
    let v ← vipsNewFromFileM env a.input_path
    let kernel ← edgeKernelM a.method
    let _ ← vipsGateM env
    let _ ← vipsWriteToFileM env (.vipsOut v [.conv kernel none none]) a.output_path
    pure (mkText ("✨ " ++ jsStrU a.method ++ " edge detection applied: " ++ jsStrU a.output_path)))
    (fun _ => do
      let v ← readFileM a.input_path
      let _ ← sharpToFileM env
        (.sharpOut v [.grayscaleOp,
          .convolveK 3 3 [-1, -1, -1, -1, 8, -1, -1, -1, -1] none none]) a.output_path
      pure (mkText ("⚡ Edge detection applied (Sharp fallback): " ++ jsStrU a.output_path)))

/-- The `image_advanced_stats` case (read-only; statistics via oracles). -/
def caseImageAdvancedStats (env : Env) (a : Args) : M ToolResponse := do
  let _ ← checkExistsM a.input_path "Input image not found: "
  tryCatchM (do
    let _ ← initVipsM env
    let v ← vipsNewFromFileM env a.input_path
    let _ ← vipsGateM env
    pure (mkText ("✨ Advanced Statistics (wasm-vips):\n" ++ env.vipsStatsJson v)))
    (fun _ => do
      let v ← readFileM a.input_path
      let _ ← sharpGateM env
      pure (mkText ("⚡ Basic Statistics (Sharp):\n" ++ env.sharpStatsJson v)))

/-- The `image_fft` case. -/
def caseImageFft (env : Env) (a : Args) : M ToolResponse := do
  let inverse := a.inverse.getD false
  let _ ← checkExistsM a.input_path "Input image not found: "
  let _ ← ensureDirectoryExistsM a.output_path
  tryCatchM (do
    let _ ← initVipsM env
    let v ← vipsNewFromFileM env a.input_path
    let op : VPrim := if inverse then .invfft else .fwfft
    let _ ← vipsGateM env
    let _ ← vipsWriteToFileM env (.vipsOut v [op, .vabs]) a.output_path
    pure (mkText ("✨ " ++ (if inverse then "Inverse " else "") ++ "FFT applied successfully: " ++
      jsStrU a.output_path)))
    (fun _ => do
      let v ← readFileM a.input_path
      let _ ← sharpToFileM env
        (.sharpOut v [.convolveK 3 3 [0, -1, 0, -1, 5, -1, 0, -1, 0] none none]) a.output_path
      pure (mkText ("⚡ Edge enhancement applied (FFT fallback): " ++ jsStrU a.output_path)))

/-- The `image_custom_convolution` case. -/
def caseImageCustomConvolution (env : Env) (a : Args) : M ToolResponse := do
  let scale := a.scale.getD 1
  let offset := a.offset.getD 0
  let _ ← checkExistsM a.input_path "Input image not found: "
  let _ ← ensureDirectoryExistsM a.output_path
  tryCatchM (do
    let _ ← initVipsM env
    let v ← vipsNewFromFileM env a.input_path
    let k ← kernelArgM a.kernel
    let _ ← vipsGateM env
    let _ ← vipsWriteToFileM env (.vipsOut v [.conv k (some scale) (some offset)]) a.output_path
    match k with
    | [] => throwM "Cannot read properties of undefined (reading length)"
    | r :: _ =>
      pure (mkText ("✨ Custom convolution applied (" ++ natStr k.length ++ "x" ++
        natStr r.length ++ " kernel): " ++ jsStrU a.output_path)))
    (fun _ => do
      match a.kernel with
      | none => throwM "Cannot read properties of undefined (reading flat)"
      | some k =>
        match k with
        | [] => throwM "Cannot read properties of undefined (reading length)"
        | r :: _ => do
          let v ← readFileM a.input_path
          let _ ← sharpToFileM env
            (.sharpOut v [.convolveK r.length k.length k.flatten (some scale) (some offset)])
            a.output_path
          pure (mkText ("⚡ Custom convolution applied (Sharp fallback): " ++ jsStrU a.output_path)))

/-- The `image_colorspace_convert` case. -/
def caseImageColorspaceConvert (env : Env) (a : Args) : M ToolResponse := do
  let _ ← checkExistsM a.input_path "Input image not found: "
  let _ ← ensureDirectoryExistsM a.output_path
  tryCatchM (do
    let _ ← initVipsM env
    let v ← vipsNewFromFileM env a.input_path
    let _ ← vipsGateM env
    let _ ← vipsWriteToFileM env (.vipsOut v [.colourspace a.space]) a.output_path
    pure (mkText ("✨ Image converted to " ++ jsStrU a.space ++ " color space: " ++
      jsStrU a.output_path)))
    (fun _ => do
      let v ← readFileM a.input_path
      let _ ← sharpToFileM env (.sharpOut v (colorspaceFallbackOps a.space)) a.output_path
      pure (mkText ("⚡ Color space conversion applied (Sharp approximation): " ++
        jsStrU a.output_path)))

/-- The `image_add_noise` case: an unknown noise type throws inside the try
block and is absorbed by the sharp fallback. -/
def caseImageAddNoise (env : Env) (a : Args) : M ToolResponse := do
  let amount := a.amount.getD (1/10)
  let _ ← checkExistsM a.input_path "Input image not found: "
  let _ ← ensureDirectoryExistsM a.output_path
  tryCatchM (do
    let _ ← initVipsM env
    let v ← vipsNewFromFileM env a.input_path
    let op ← noiseOpM env a.noise_type amount (env.vipsDims v)
    let _ ← vipsGateM env
    let _ ← vipsWriteToFileM env (.vipsOut v [op]) a.output_path
    pure (mkText ("✨ " ++ jsStrU a.noise_type ++ " noise added (amount: " ++ jsNum amount ++
      "): " ++ jsStrU a.output_path)))
    (fun _ => do
      let v ← readFileM a.input_path
      let _ ← sharpToFileM env
        (.sharpOut v [.modulateBS (1 + (env.rand 2 - 1/2) * amount)
          (1 + (env.rand 3 - 1/2) * amount * (1/2))]) a.output_path
      pure (mkText ("⚡ Noise approximation applied (Sharp fallback): " ++ jsStrU a.output_path)))

/-- The `image_perspective_transform` case. -/
def caseImagePerspectiveTransform (env : Env) (a : Args) : M ToolResponse := do
  let _ ← checkExistsM a.input_path "Input image not found: "
  let _ ← ensureDirectoryExistsM a.output_path
  tryCatchM (do
    let _ ← initVipsM env
    let v ← vipsNewFromFileM env a.input_path
    let cs ← cornersM a.corners
    let a0 ← cornerCoord cs 0 0
    let a1 ← cornerCoord cs 0 1
    let b0 ← cornerCoord cs 1 0
    let b1 ← cornerCoord cs 1 1
    let c0 ← cornerCoord cs 2 0
    let c1 ← cornerCoord cs 2 1
    let d0 ← cornerCoord cs 3 0
    let d1 ← cornerCoord cs 3 1
    let _ ← vipsGateM env
    let _ ← vipsWriteToFileM env
      (.vipsOut v [.quadrilateral [a0, a1, b0, b1, c0, c1, d0, d1]]) a.output_path
    pure (mkText ("✨ Perspective transformation applied: " ++ jsStrU a.output_path)))
    (fun _ => do
      let v ← readFileM a.input_path
      let _ ← sharpToFileM env (.sharpOut v [.rotateA 15]) a.output_path
      pure (mkText ("⚡ Rotation applied (perspective fallback): " ++ jsStrU a.output_path)))

/-- The `image_texture_analysis` case (read-only; statistics via oracles). -/
def caseImageTextureAnalysis (env : Env) (a : Args) : M ToolResponse := do
  let window_size := a.window_size.getD 5
  let _ ← checkExistsM a.input_path "Input image not found: "
  tryCatchM (do
    let _ ← initVipsM env
    let v ← vipsNewFromFileM env a.input_path
    let _ ← vipsGateM env
    pure (mkText ("✨ Texture Analysis Results:\n" ++ env.vipsTextureJson v window_size)))
    (fun _ => do
      let v ← readFileM a.input_path
      let _ ← sharpGateM env
      pure (mkText ("⚡ Basic Texture Analysis (Sharp):\n" ++ env.sharpTextureJson v window_size)))

/-- The `image_flood_fill` case. -/
def caseImageFloodFill (env : Env) (a : Args) : M ToolResponse := do
  let fill_color := a.fill_color.getD "#FF0000"
  let tolerance := a.tolerance.getD 10
  let _ ← checkExistsM a.input_path "Input image not found: "
  let _ ← ensureDirectoryExistsM a.output_path
  tryCatchM (do
    let _ ← initVipsM env
    let hex := stripHash fill_color
    let fillRGB := [parseHex2 hex 0, parseHex2 hex 2, parseHex2 hex 4]
    let v ← vipsNewFromFileM env a.input_path
    let _ ← vipsWriteToFileM env (.vipsOut v [.floodfill fillRGB a.x a.y tolerance]) a.output_path
    pure (mkText ("✨ Flood fill applied at (" ++ jsNumU a.x ++ "," ++ jsNumU a.y ++
      ") with color " ++ fill_color ++ ": " ++ jsStrU a.output_path)))
    (fun _ => do
      let v ← readFileM a.input_path
      let dims ← sharpMetadataM env v
      let svg := svgFillCircle dims.1 dims.2 a.x a.y fill_color
      let _ ← sharpToFileM env (.sharpOut v [.compositeSvg svg "over"]) a.output_path
      pure (mkText ("⚡ Circle overlay applied (flood fill approximation): " ++
        jsStrU a.output_path)))

/-- The pyramid `for (let level = 0; level < levels; level++)` loop. -/
def pyramidLoop (env : Env) (v : FileVal) (dir : String) (sf : Rat) :
    Nat → Nat → Rat → Rat → List PyrEntry → M (List PyrEntry)
  | _, 0, _, _, acc => pure acc.reverse
  | level, fuel + 1, cw, ch, acc => do
      let outputPath := dir ++ "/level_" ++ natStr level ++ ".jpg"
      let _ ← sharpToFileM env (.sharpOut v [.resizeWH (Int.floor cw) (Int.floor ch)])
        (some outputPath)
      let d := intStr (Int.floor cw) ++ "x" ++ intStr (Int.floor ch)
      let e : PyrEntry := { level := level, path := outputPath, dims := d }
      pyramidLoop env v dir sf (level + 1) fuel (cw * sf) (ch * sf) (e :: acc)

/-- The `image_create_pyramid` case; its catch block rethrows a wrapped
message rather than falling back. -/
def caseImageCreatePyramid (env : Env) (a : Args) : M ToolResponse := do
  let levels := a.levels.getD 4
  let scale_factor := a.scale_factor.getD (1/2)
  let _ ← checkExistsM a.input_path "Input image not found: "
  let _ ← ensureDirectoryExistsM a.output_dir
  tryCatchM (do
    let v ← readFileM a.input_path
    let dims ← sharpMetadataM env v
    let entries ← pyramidLoop env v (jsStrU a.output_dir) scale_factor 0 (jsLoopCount levels)
      dims.1 dims.2 []
    pure (mkText ("✨ Image pyramid created with " ++ jsNum levels ++ " levels:\n" ++
      pyrJson entries)))
    (fun e => throwM ("Failed to create image pyramid: Error: " ++ e))

/-- The switch of the `CallToolRequestSchema` handler. -/
def dispatchTool (env : Env) (req : ToolRequest) : M ToolResponse :=
  match req.name with
  | "image_info" => caseImageInfo env req.args
  | "image_resize" => caseImageResize env req.args
  | "image_convert" => caseImageConvert env req.args
  | "image_crop" => caseImageCrop env req.args
  | "image_rotate" => caseImageRotate env req.args
  | "image_flip" => caseImageFlip env req.args
  | "image_blur" => caseImageBlur env req.args
  | "image_sharpen" => caseImageSharpen env req.args
  | "image_adjust_brightness" => caseImageAdjustBrightness env req.args
  | "image_adjust_contrast" => caseImageAdjustContrast env req.args
  | "image_adjust_saturation" => caseImageAdjustSaturation env req.args
  | "image_grayscale" => caseImageGrayscale env req.args
  | "image_composite" => caseImageComposite env req.args
  | "image_thumbnail" => caseImageThumbnail env req.args
  | "image_extract_channel" => caseImageExtractChannel env req.args
  | "image_histogram" => caseImageHistogram env req.args
  | "create_solid_color" => caseCreateSolidColor env req.args
  | "image_morphology" => caseImageMorphology env req.args
  | "image_draw_line" => caseImageDrawLine env req.args
  | "image_draw_circle" => caseImageDrawCircle env req.args
  | "image_edge_detection" => caseImageEdgeDetection env req.args
  | "image_advanced_stats" => caseImageAdvancedStats env req.args
  | "image_fft" => caseImageFft env req.args
  | "image_custom_convolution" => caseImageCustomConvolution env req.args
  | "image_colorspace_convert" => caseImageColorspaceConvert env req.args
  | "image_add_noise" => caseImageAddNoise env req.args
  | "image_perspective_transform" => caseImagePerspectiveTransform env req.args
  | "image_texture_analysis" => caseImageTextureAnalysis env req.args
  | "image_flood_fill" => caseImageFloodFill env req.args
  | "image_create_pyramid" => caseImageCreatePyramid env req.args
  | other => throwM ("Unknown tool: " ++ other)

/-- The `CallToolRequestSchema` handler: the whole switch inside
`try { ... } catch (error) { return error text with isError } `. -/
def handleCallTool (env : Env) (req : ToolRequest) (w : World) : ToolResponse × World :=
  match dispatchTool env req w with
  | .ok r w' => (r, w')
  | .err m w' => (errorResponse m, w')

/-- The `ListToolsRequestSchema` handler: returns the module-level table. -/
def handleListTools (w : World) : List ToolDecl := w.toolTable

/-- Process state at startup: empty filesystem view, `vips = null`, and the
static table. -/
def initialWorld : World :=
  { fs := { files := [], dirs := [] }, vips := none, toolTable := tools }

/-- Folding a sequence of tool invocations from a starting world. -/
def runAll (env : Env) (reqs : List ToolRequest) (w : World) : World :=
  reqs.foldl (fun acc r => (handleCallTool env r acc).2) w

/-- World of a handler result, whether returned or thrown. -/
def resWorld {α : Type} : MRes α → World
  | .ok _ w => w
  | .err _ w => w

/-- Frame relation across a handler run: the tool table is untouched and the
vips handle is only ever created (once), never replaced or cleared. -/
def frameRel (w w' : World) : Prop :=
  w'.toolTable = w.toolTable ∧ (w'.vips = w.vips ∨ (w.vips = none ∧ ∃ h, w'.vips = some h))

theorem frameRel_refl (w : World) : frameRel w w := ⟨rfl, .inl rfl⟩

theorem frameRel_trans {w w' w'' : World} (h1 : frameRel w w') (h2 : frameRel w' w'') :
    frameRel w w'' := by
  obtain ⟨t1, v1⟩ := h1
  obtain ⟨t2, v2⟩ := h2
  refine ⟨t2.trans t1, ?_⟩
  rcases v1 with e1 | ⟨n1, h1, e1⟩
  · rcases v2 with e2 | ⟨n2, hh, e2⟩
    · exact .inl (e2.trans e1)
    · exact .inr ⟨e1 ▸ n2, hh, e2⟩
  · rcases v2 with e2 | ⟨n2, _, _⟩
    · exact .inr ⟨n1, h1, e2.trans e1⟩
    · rw [e1] at n2; cases n2

/-- A computation whose run preserves the frame relation. -/
def PresM {α : Type} (m : M α) : Prop := ∀ w, frameRel w (resWorld (m w))

theorem presM_pure {α : Type} (a : α) : PresM (pure a : M α) := fun w => frameRel_refl w

theorem presM_throw {α : Type} (e : String) : PresM (throwM e : M α) := fun w => frameRel_refl w

theorem presM_bind {α β : Type} {x : M α} {f : α → M β} (hx : PresM x)
    (hf : ∀ a, PresM (f a)) : PresM (x >>= f) := by
  intro w
  have h1 := hx w
  simp only [run_bind]
  cases hxw : x w with
  | ok a w' => rw [hxw] at h1; exact frameRel_trans h1 (hf a w')
  | err e w' => rw [hxw] at h1; exact h1

theorem presM_tryCatch {α : Type} {x : M α} {h : String → M α} (hx : PresM x)
    (hh : ∀ e, PresM (h e)) : PresM (tryCatchM x h) := by
  intro w
  have h1 := hx w
  simp only [run_tryCatch]
  cases hxw : x w with
  | ok a w' => rw [hxw] at h1; exact h1
  | err e w' => rw [hxw] at h1; exact frameRel_trans h1 (hh e w')

theorem presM_checkExists (p : Option String) (pre : String) : PresM (checkExistsM p pre) := by
  intro w
  unfold checkExistsM
  split <;> exact frameRel_refl w

theorem presM_existsSync (p : Option String) : PresM (existsSyncM p) :=
  fun w => frameRel_refl w

theorem presM_ensureDir (p : Option String) : PresM (ensureDirectoryExistsM p) := by
  intro w
  unfold ensureDirectoryExistsM
  cases p with
  | none => exact frameRel_refl w
  | some s => exact ⟨rfl, .inl rfl⟩

theorem presM_sharpGate (env : Env) : PresM (sharpGateM env) := by
  intro w
  unfold sharpGateM
  cases env.sharpFail <;> exact frameRel_refl w

theorem presM_readFile (p : Option String) : PresM (readFileM p) := by
  intro w
  unfold readFileM
  split
  · exact frameRel_refl w
  · split <;> exact frameRel_refl w

theorem presM_sharpToFile (env : Env) (v : FileVal) (p : Option String) :
    PresM (sharpToFileM env v p) := by
  intro w
  unfold sharpToFileM
  cases env.sharpFail with
  | some m => exact frameRel_refl w
  | none =>
      cases p with
      | none => exact frameRel_refl w
      | some s => exact ⟨rfl, .inl rfl⟩

theorem presM_sharpMetadata (env : Env) (v : FileVal) : PresM (sharpMetadataM env v) := by
  unfold sharpMetadataM
  exact presM_bind (presM_sharpGate env) (fun _ => presM_pure _)

theorem presM_initVips (env : Env) : PresM (initVipsM env) := by
  intro w
  unfold initVipsM
  cases hv : w.vips with
  | some h => exact frameRel_refl w
  | none =>
      cases env.vipsLoad with
      | ok h => exact ⟨rfl, .inr ⟨hv, h, rfl⟩⟩
      | error e => exact frameRel_refl w

theorem presM_vipsGate (env : Env) : PresM (vipsGateM env) := by
  intro w
  unfold vipsGateM
  cases env.vipsFail <;> exact frameRel_refl w

theorem presM_vipsNewFromFile (env : Env) (p : Option String) :
    PresM (vipsNewFromFileM env p) := by
  unfold vipsNewFromFileM
  exact presM_bind (presM_vipsGate env) (fun _ => presM_readFile p)

theorem presM_vipsWriteToFile (env : Env) (v : FileVal) (p : Option String) :
    PresM (vipsWriteToFileM env v p) := by
  intro w
  unfold vipsWriteToFileM
  cases env.vipsFail with
  | some m => exact frameRel_refl w
  | none =>
      cases p with
      | none => exact frameRel_refl w
      | some s => exact ⟨rfl, .inl rfl⟩

theorem presM_jsArrayLen (q : Rat) : PresM (jsArrayLenM q) := by
  intro w
  unfold jsArrayLenM
  split <;> exact frameRel_refl w

theorem presM_cornerCoord (cs : List (List Rat)) (i j : Nat) : PresM (cornerCoord cs i j) := by
  unfold cornerCoord
  split
  · exact presM_throw _
  · exact presM_pure _

theorem presM_cornersM (corners : Option (List (List Rat))) : PresM (cornersM corners) := by
  unfold cornersM
  split
  · exact presM_pure _
  · exact presM_throw _

theorem presM_kernelArgM (kernel : Option (List (List Rat))) : PresM (kernelArgM kernel) := by
  unfold kernelArgM
  split
  · exact presM_pure _
  · exact presM_throw _

theorem presM_edgeKernelM (method : Option String) : PresM (edgeKernelM method) := by
  unfold edgeKernelM
  split
  · exact presM_pure _
  · exact presM_pure _
  · exact presM_pure _
  · exact presM_pure _
  · exact presM_throw _

theorem presM_noiseOpM (env : Env) (noise_type : Option String) (amount : Rat)
    (dims : Rat × Rat) : PresM (noiseOpM env noise_type amount dims) := by
  unfold noiseOpM
  split
  · exact presM_pure _
  · exact presM_pure _
  · exact presM_pure _
  · exact presM_throw _

/-- Shape of a handler result: every returned response is a single text
content item without the error flag (thrown exceptions are handled later by
the top-level catch). -/
def ShapeRes : MRes ToolResponse → Prop
  | .ok r _ => r.content.map (fun c => c.type) = ["text"] ∧ r.isError = false
  | .err _ _ => True

/-- A computation all of whose returns are single-text non-error responses. -/
def ShapeOkM (m : M ToolResponse) : Prop := ∀ w, ShapeRes (m w)

theorem shapeOk_pure (s : String) : ShapeOkM (pure (mkText s)) := fun _ => ⟨rfl, rfl⟩

theorem shapeOk_throw (e : String) : ShapeOkM (throwM e) := fun _ => trivial

theorem shapeOk_bind {α : Type} {x : M α} {f : α → M ToolResponse}
    (hf : ∀ a, ShapeOkM (f a)) : ShapeOkM (x >>= f) := by
  intro w
  simp only [run_bind]
  cases x w with
  | ok a w' => exact hf a w'
  | err e w' => trivial

theorem shapeOk_tryCatch {x : M ToolResponse} {h : String → M ToolResponse}
    (hx : ShapeOkM x) (hh : ∀ e, ShapeOkM (h e)) : ShapeOkM (tryCatchM x h) := by
  intro w
  have h1 := hx w
  simp only [run_tryCatch]
  cases hxw : x w with
  | ok a w' => rw [hxw] at h1; exact h1
  | err e w' => exact hh e w'

theorem shapeOk_caseImageResize (env : Env) (a : Args) : ShapeOkM (caseImageResize env a) := by
  unfold caseImageResize
  repeat' first
    | exact shapeOk_pure _
    | exact shapeOk_throw _
    | apply shapeOk_tryCatch
    | apply shapeOk_bind
    | intro _

theorem shapeOk_caseImageInfo (env : Env) (a : Args) : ShapeOkM (caseImageInfo env a) := by
  unfold caseImageInfo
  repeat' first
    | exact shapeOk_pure _
    | exact shapeOk_throw _
    | apply shapeOk_tryCatch
    | apply shapeOk_bind
    | intro _

theorem shapeOk_caseImageConvert (env : Env) (a : Args) : ShapeOkM (caseImageConvert env a) := by
  unfold caseImageConvert
  repeat' first
    | exact shapeOk_pure _
    | exact shapeOk_throw _
    | apply shapeOk_tryCatch
    | apply shapeOk_bind
    | intro _

theorem shapeOk_caseImageCrop (env : Env) (a : Args) : ShapeOkM (caseImageCrop env a) := by
  unfold caseImageCrop
  repeat' first
    | exact shapeOk_pure _
    | exact shapeOk_throw _
    | apply shapeOk_tryCatch
    | apply shapeOk_bind
    | intro _

theorem shapeOk_caseImageRotate (env : Env) (a : Args) : ShapeOkM (caseImageRotate env a) := by
  unfold caseImageRotate
  repeat' first
    | exact shapeOk_pure _
    | exact shapeOk_throw _
    | apply shapeOk_tryCatch
    | apply shapeOk_bind
    | intro _

theorem shapeOk_caseImageFlip (env : Env) (a : Args) : ShapeOkM (caseImageFlip env a) := by
  unfold caseImageFlip
  repeat' first
    | exact shapeOk_pure _
    | exact shapeOk_throw _
    | apply shapeOk_tryCatch
    | apply shapeOk_bind
    | intro _

theorem shapeOk_caseImageBlur (env : Env) (a : Args) : ShapeOkM (caseImageBlur env a) := by
  unfold caseImageBlur
  repeat' first
    | exact shapeOk_pure _
    | exact shapeOk_throw _
    | apply shapeOk_tryCatch
    | apply shapeOk_bind
    | intro _

theorem shapeOk_caseImageSharpen (env : Env) (a : Args) : ShapeOkM (caseImageSharpen env a) := by
  unfold caseImageSharpen
  repeat' first
    | exact shapeOk_pure _
    | exact shapeOk_throw _
    | apply shapeOk_tryCatch
    | apply shapeOk_bind
    | intro _

theorem shapeOk_caseImageAdjustBrightness (env : Env) (a : Args) : ShapeOkM (caseImageAdjustBrightness env a) := by
  unfold caseImageAdjustBrightness
  repeat' first
    | exact shapeOk_pure _
    | exact shapeOk_throw _
    | apply shapeOk_tryCatch
    | apply shapeOk_bind
    | intro _

theorem shapeOk_caseImageAdjustContrast (env : Env) (a : Args) : ShapeOkM (caseImageAdjustContrast env a) := by
  unfold caseImageAdjustContrast
  repeat' first
    | exact shapeOk_pure _
    | exact shapeOk_throw _
    | apply shapeOk_tryCatch
    | apply shapeOk_bind
    | intro _

theorem shapeOk_caseImageAdjustSaturation (env : Env) (a : Args) : ShapeOkM (caseImageAdjustSaturation env a) := by
  unfold caseImageAdjustSaturation
  repeat' first
    | exact shapeOk_pure _
    | exact shapeOk_throw _
    | apply shapeOk_tryCatch
    | apply shapeOk_bind
    | intro _

theorem shapeOk_caseImageGrayscale (env : Env) (a : Args) : ShapeOkM (caseImageGrayscale env a) := by
  unfold caseImageGrayscale
  repeat' first
    | exact shapeOk_pure _
    | exact shapeOk_throw _
    | apply shapeOk_tryCatch
    | apply shapeOk_bind
    | intro _

theorem shapeOk_caseImageComposite (env : Env) (a : Args) : ShapeOkM (caseImageComposite env a) := by
  unfold caseImageComposite
  repeat' first
    | exact shapeOk_pure _
    | exact shapeOk_throw _
    | apply shapeOk_tryCatch
    | apply shapeOk_bind
    | intro _

theorem shapeOk_caseImageThumbnail (env : Env) (a : Args) : ShapeOkM (caseImageThumbnail env a) := by
  unfold caseImageThumbnail
  repeat' first
    | exact shapeOk_pure _
    | exact shapeOk_throw _
    | apply shapeOk_tryCatch
    | apply shapeOk_bind
    | intro _

theorem shapeOk_caseImageExtractChannel (env : Env) (a : Args) : ShapeOkM (caseImageExtractChannel env a) := by
  unfold caseImageExtractChannel
  repeat' first
    | exact shapeOk_pure _
    | exact shapeOk_throw _
    | apply shapeOk_tryCatch
    | apply shapeOk_bind
    | intro _

theorem shapeOk_caseImageHistogram (env : Env) (a : Args) : ShapeOkM (caseImageHistogram env a) := by
  unfold caseImageHistogram
  repeat' first
    | exact shapeOk_pure _
    | exact shapeOk_throw _
    | apply shapeOk_tryCatch
    | apply shapeOk_bind
    | intro _

theorem shapeOk_caseCreateSolidColor (env : Env) (a : Args) : ShapeOkM (caseCreateSolidColor env a) := by
  unfold caseCreateSolidColor
  repeat' first
    | exact shapeOk_pure _
    | exact shapeOk_throw _
    | apply shapeOk_tryCatch
    | apply shapeOk_bind
    | intro _

theorem shapeOk_caseImageMorphology (env : Env) (a : Args) : ShapeOkM (caseImageMorphology env a) := by
  unfold caseImageMorphology
  repeat' first
    | exact shapeOk_pure _
    | exact shapeOk_throw _
    | apply shapeOk_tryCatch
    | apply shapeOk_bind
    | intro _

theorem shapeOk_caseImageDrawLine (env : Env) (a : Args) : ShapeOkM (caseImageDrawLine env a) := by
  unfold caseImageDrawLine
  repeat' first
    | exact shapeOk_pure _
    | exact shapeOk_throw _
    | apply shapeOk_tryCatch
    | apply shapeOk_bind
    | intro _

theorem shapeOk_caseImageDrawCircle (env : Env) (a : Args) : ShapeOkM (caseImageDrawCircle env a) := by
  unfold caseImageDrawCircle
  repeat' first
    | exact shapeOk_pure _
    | exact shapeOk_throw _
    | apply shapeOk_tryCatch
    | apply shapeOk_bind
    | intro _

theorem shapeOk_caseImageEdgeDetection (env : Env) (a : Args) : ShapeOkM (caseImageEdgeDetection env a) := by
  unfold caseImageEdgeDetection
  repeat' first
    | exact shapeOk_pure _
    | exact shapeOk_throw _
    | apply shapeOk_tryCatch
    | apply shapeOk_bind
    | intro _

theorem shapeOk_caseImageAdvancedStats (env : Env) (a : Args) : ShapeOkM (caseImageAdvancedStats env a) := by
  unfold caseImageAdvancedStats
  repeat' first
    | exact shapeOk_pure _
    | exact shapeOk_throw _
    | apply shapeOk_tryCatch
    | apply shapeOk_bind
    | intro _

theorem shapeOk_caseImageFft (env : Env) (a : Args) : ShapeOkM (caseImageFft env a) := by
  unfold caseImageFft
  repeat' first
    | exact shapeOk_pure _
    | exact shapeOk_throw _
    | apply shapeOk_tryCatch
    | apply shapeOk_bind
    | intro _

theorem shapeOk_caseImageCustomConvolution (env : Env) (a : Args) :
    ShapeOkM (caseImageCustomConvolution env a) := by
  unfold caseImageCustomConvolution
  apply shapeOk_bind; intro _
  apply shapeOk_bind; intro _
  apply shapeOk_tryCatch
  · apply shapeOk_bind; intro _
    apply shapeOk_bind; intro _
    apply shapeOk_bind; intro k
    apply shapeOk_bind; intro _
    apply shapeOk_bind; intro _
    cases k with
    | nil => exact shapeOk_throw _
    | cons r t => exact shapeOk_pure _
  · intro e
    cases a.kernel with
    | none => exact shapeOk_throw _
    | some k =>
      cases k with
      | nil => exact shapeOk_throw _
      | cons r t =>
        apply shapeOk_bind; intro _
        apply shapeOk_bind; intro _
        exact shapeOk_pure _

theorem shapeOk_caseImageColorspaceConvert (env : Env) (a : Args) : ShapeOkM (caseImageColorspaceConvert env a) := by
  unfold caseImageColorspaceConvert
  repeat' first
    | exact shapeOk_pure _
    | exact shapeOk_throw _
    | apply shapeOk_tryCatch
    | apply shapeOk_bind
    | intro _

theorem shapeOk_caseImageAddNoise (env : Env) (a : Args) : ShapeOkM (caseImageAddNoise env a) := by
  unfold caseImageAddNoise
  repeat' first
    | exact shapeOk_pure _
    | exact shapeOk_throw _
    | apply shapeOk_tryCatch
    | apply shapeOk_bind
    | intro _

theorem shapeOk_caseImagePerspectiveTransform (env : Env) (a : Args) : ShapeOkM (caseImagePerspectiveTransform env a) := by
  unfold caseImagePerspectiveTransform
  repeat' first
    | exact shapeOk_pure _
    | exact shapeOk_throw _
    | apply shapeOk_tryCatch
    | apply shapeOk_bind
    | intro _

theorem shapeOk_caseImageTextureAnalysis (env : Env) (a : Args) : ShapeOkM (caseImageTextureAnalysis env a) := by
  unfold caseImageTextureAnalysis
  repeat' first
    | exact shapeOk_pure _
    | exact shapeOk_throw _
    | apply shapeOk_tryCatch
    | apply shapeOk_bind
    | intro _

theorem shapeOk_caseImageFloodFill (env : Env) (a : Args) : ShapeOkM (caseImageFloodFill env a) := by
  unfold caseImageFloodFill
  repeat' first
    | exact shapeOk_pure _
    | exact shapeOk_throw _
    | apply shapeOk_tryCatch
    | apply shapeOk_bind
    | intro _

theorem shapeOk_caseImageCreatePyramid (env : Env) (a : Args) : ShapeOkM (caseImageCreatePyramid env a) := by
  unfold caseImageCreatePyramid
  repeat' first
    | exact shapeOk_pure _
    | exact shapeOk_throw _
    | apply shapeOk_tryCatch
    | apply shapeOk_bind
    | intro _

theorem presM_pyramidLoop (env : Env) (v : FileVal) (dir : String) (sf : Rat) :
    ∀ (fuel level : Nat) (cw ch : Rat) (acc : List PyrEntry),
      PresM (pyramidLoop env v dir sf level fuel cw ch acc) := by
  intro fuel
  induction fuel with
  | zero => intro level cw ch acc; exact presM_pure _
  | succ n ih =>
      intro level cw ch acc
      unfold pyramidLoop
      apply presM_bind (presM_sharpToFile env _ _)
      intro _
      exact ih _ _ _ _

theorem presM_caseImageInfo (env : Env) (a : Args) : PresM (caseImageInfo env a) := by
  unfold caseImageInfo
  repeat' first
    | exact presM_pure _
    | exact presM_throw _
    | apply presM_tryCatch
    | apply presM_bind
    | exact presM_checkExists _ _
    | exact presM_ensureDir _
    | exact presM_readFile _
    | exact presM_sharpGate _
    | exact presM_sharpToFile _ _ _
    | exact presM_sharpMetadata _ _
    | exact presM_initVips _
    | exact presM_vipsGate _
    | exact presM_vipsNewFromFile _ _
    | exact presM_vipsWriteToFile _ _ _
    | exact presM_jsArrayLen _
    | exact presM_cornerCoord _ _ _
    | exact presM_cornersM _
    | exact presM_kernelArgM _
    | exact presM_edgeKernelM _
    | exact presM_noiseOpM _ _ _ _
    | exact presM_pyramidLoop _ _ _ _ _ _ _ _ _
    | exact presM_existsSync _
    | intro _

theorem presM_caseImageResize (env : Env) (a : Args) : PresM (caseImageResize env a) := by
  unfold caseImageResize
  repeat' first
    | exact presM_pure _
    | exact presM_throw _
    | apply presM_tryCatch
    | apply presM_bind
    | exact presM_checkExists _ _
    | exact presM_ensureDir _
    | exact presM_readFile _
    | exact presM_sharpGate _
    | exact presM_sharpToFile _ _ _
    | exact presM_sharpMetadata _ _
    | exact presM_initVips _
    | exact presM_vipsGate _
    | exact presM_vipsNewFromFile _ _
    | exact presM_vipsWriteToFile _ _ _
    | exact presM_jsArrayLen _
    | exact presM_cornerCoord _ _ _
    | exact presM_cornersM _
    | exact presM_kernelArgM _
    | exact presM_edgeKernelM _
    | exact presM_noiseOpM _ _ _ _
    | exact presM_pyramidLoop _ _ _ _ _ _ _ _ _
    | exact presM_existsSync _
    | intro _

theorem presM_caseImageConvert (env : Env) (a : Args) : PresM (caseImageConvert env a) := by
  unfold caseImageConvert
  repeat' first
    | exact presM_pure _
    | exact presM_throw _
    | apply presM_tryCatch
    | apply presM_bind
    | exact presM_checkExists _ _
    | exact presM_ensureDir _
    | exact presM_readFile _
    | exact presM_sharpGate _
    | exact presM_sharpToFile _ _ _
    | exact presM_sharpMetadata _ _
    | exact presM_initVips _
    | exact presM_vipsGate _
    | exact presM_vipsNewFromFile _ _
    | exact presM_vipsWriteToFile _ _ _
    | exact presM_jsArrayLen _
    | exact presM_cornerCoord _ _ _
    | exact presM_cornersM _
    | exact presM_kernelArgM _
    | exact presM_edgeKernelM _
    | exact presM_noiseOpM _ _ _ _
    | exact presM_pyramidLoop _ _ _ _ _ _ _ _ _
    | exact presM_existsSync _
    | intro _

theorem presM_caseImageCrop (env : Env) (a : Args) : PresM (caseImageCrop env a) := by
  unfold caseImageCrop
  repeat' first
    | exact presM_pure _
    | exact presM_throw _
    | apply presM_tryCatch
    | apply presM_bind
    | exact presM_checkExists _ _
    | exact presM_ensureDir _
    | exact presM_readFile _
    | exact presM_sharpGate _
    | exact presM_sharpToFile _ _ _
    | exact presM_sharpMetadata _ _
    | exact presM_initVips _
    | exact presM_vipsGate _
    | exact presM_vipsNewFromFile _ _
    | exact presM_vipsWriteToFile _ _ _
    | exact presM_jsArrayLen _
    | exact presM_cornerCoord _ _ _
    | exact presM_cornersM _
    | exact presM_kernelArgM _
    | exact presM_edgeKernelM _
    | exact presM_noiseOpM _ _ _ _
    | exact presM_pyramidLoop _ _ _ _ _ _ _ _ _
    | exact presM_existsSync _
    | intro _

theorem presM_caseImageRotate (env : Env) (a : Args) : PresM (caseImageRotate env a) := by
  unfold caseImageRotate
  repeat' first
    | exact presM_pure _
    | exact presM_throw _
    | apply presM_tryCatch
    | apply presM_bind
    | exact presM_checkExists _ _
    | exact presM_ensureDir _
    | exact presM_readFile _
    | exact presM_sharpGate _
    | exact presM_sharpToFile _ _ _
    | exact presM_sharpMetadata _ _
    | exact presM_initVips _
    | exact presM_vipsGate _
    | exact presM_vipsNewFromFile _ _
    | exact presM_vipsWriteToFile _ _ _
    | exact presM_jsArrayLen _
    | exact presM_cornerCoord _ _ _
    | exact presM_cornersM _
    | exact presM_kernelArgM _
    | exact presM_edgeKernelM _
    | exact presM_noiseOpM _ _ _ _
    | exact presM_pyramidLoop _ _ _ _ _ _ _ _ _
    | exact presM_existsSync _
    | intro _

theorem presM_caseImageFlip (env : Env) (a : Args) : PresM (caseImageFlip env a) := by
  unfold caseImageFlip
  repeat' first
    | exact presM_pure _
    | exact presM_throw _
    | apply presM_tryCatch
    | apply presM_bind
    | exact presM_checkExists _ _
    | exact presM_ensureDir _
    | exact presM_readFile _
    | exact presM_sharpGate _
    | exact presM_sharpToFile _ _ _
    | exact presM_sharpMetadata _ _
    | exact presM_initVips _
    | exact presM_vipsGate _
    | exact presM_vipsNewFromFile _ _
    | exact presM_vipsWriteToFile _ _ _
    | exact presM_jsArrayLen _
    | exact presM_cornerCoord _ _ _
    | exact presM_cornersM _
    | exact presM_kernelArgM _
    | exact presM_edgeKernelM _
    | exact presM_noiseOpM _ _ _ _
    | exact presM_pyramidLoop _ _ _ _ _ _ _ _ _
    | exact presM_existsSync _
    | intro _

theorem presM_caseImageBlur (env : Env) (a : Args) : PresM (caseImageBlur env a) := by
  unfold caseImageBlur
  repeat' first
    | exact presM_pure _
    | exact presM_throw _
    | apply presM_tryCatch
    | apply presM_bind
    | exact presM_checkExists _ _
    | exact presM_ensureDir _
    | exact presM_readFile _
    | exact presM_sharpGate _
    | exact presM_sharpToFile _ _ _
    | exact presM_sharpMetadata _ _
    | exact presM_initVips _
    | exact presM_vipsGate _
    | exact presM_vipsNewFromFile _ _
    | exact presM_vipsWriteToFile _ _ _
    | exact presM_jsArrayLen _
    | exact presM_cornerCoord _ _ _
    | exact presM_cornersM _
    | exact presM_kernelArgM _
    | exact presM_edgeKernelM _
    | exact presM_noiseOpM _ _ _ _
    | exact presM_pyramidLoop _ _ _ _ _ _ _ _ _
    | exact presM_existsSync _
    | intro _

theorem presM_caseImageSharpen (env : Env) (a : Args) : PresM (caseImageSharpen env a) := by
  unfold caseImageSharpen
  repeat' first
    | exact presM_pure _
    | exact presM_throw _
    | apply presM_tryCatch
    | apply presM_bind
    | exact presM_checkExists _ _
    | exact presM_ensureDir _
    | exact presM_readFile _
    | exact presM_sharpGate _
    | exact presM_sharpToFile _ _ _
    | exact presM_sharpMetadata _ _
    | exact presM_initVips _
    | exact presM_vipsGate _
    | exact presM_vipsNewFromFile _ _
    | exact presM_vipsWriteToFile _ _ _
    | exact presM_jsArrayLen _
    | exact presM_cornerCoord _ _ _
    | exact presM_cornersM _
    | exact presM_kernelArgM _
    | exact presM_edgeKernelM _
    | exact presM_noiseOpM _ _ _ _
    | exact presM_pyramidLoop _ _ _ _ _ _ _ _ _
    | exact presM_existsSync _
    | intro _

theorem presM_caseImageAdjustBrightness (env : Env) (a : Args) : PresM (caseImageAdjustBrightness env a) := by
  unfold caseImageAdjustBrightness
  repeat' first
    | exact presM_pure _
    | exact presM_throw _
    | apply presM_tryCatch
    | apply presM_bind
    | exact presM_checkExists _ _
    | exact presM_ensureDir _
    | exact presM_readFile _
    | exact presM_sharpGate _
    | exact presM_sharpToFile _ _ _
    | exact presM_sharpMetadata _ _
    | exact presM_initVips _
    | exact presM_vipsGate _
    | exact presM_vipsNewFromFile _ _
    | exact presM_vipsWriteToFile _ _ _
    | exact presM_jsArrayLen _
    | exact presM_cornerCoord _ _ _
    | exact presM_cornersM _
    | exact presM_kernelArgM _
    | exact presM_edgeKernelM _
    | exact presM_noiseOpM _ _ _ _
    | exact presM_pyramidLoop _ _ _ _ _ _ _ _ _
    | exact presM_existsSync _
    | intro _

theorem presM_caseImageAdjustContrast (env : Env) (a : Args) : PresM (caseImageAdjustContrast env a) := by
  unfold caseImageAdjustContrast
  repeat' first
    | exact presM_pure _
    | exact presM_throw _
    | apply presM_tryCatch
    | apply presM_bind
    | exact presM_checkExists _ _
    | exact presM_ensureDir _
    | exact presM_readFile _
    | exact presM_sharpGate _
    | exact presM_sharpToFile _ _ _
    | exact presM_sharpMetadata _ _
    | exact presM_initVips _
    | exact presM_vipsGate _
    | exact presM_vipsNewFromFile _ _
    | exact presM_vipsWriteToFile _ _ _
    | exact presM_jsArrayLen _
    | exact presM_cornerCoord _ _ _
    | exact presM_cornersM _
    | exact presM_kernelArgM _
    | exact presM_edgeKernelM _
    | exact presM_noiseOpM _ _ _ _
    | exact presM_pyramidLoop _ _ _ _ _ _ _ _ _
    | exact presM_existsSync _
    | intro _

theorem presM_caseImageAdjustSaturation (env : Env) (a : Args) : PresM (caseImageAdjustSaturation env a) := by
  unfold caseImageAdjustSaturation
  repeat' first
    | exact presM_pure _
    | exact presM_throw _
    | apply presM_tryCatch
    | apply presM_bind
    | exact presM_checkExists _ _
    | exact presM_ensureDir _
    | exact presM_readFile _
    | exact presM_sharpGate _
    | exact presM_sharpToFile _ _ _
    | exact presM_sharpMetadata _ _
    | exact presM_initVips _
    | exact presM_vipsGate _
    | exact presM_vipsNewFromFile _ _
    | exact presM_vipsWriteToFile _ _ _
    | exact presM_jsArrayLen _
    | exact presM_cornerCoord _ _ _
    | exact presM_cornersM _
    | exact presM_kernelArgM _
    | exact presM_edgeKernelM _
    | exact presM_noiseOpM _ _ _ _
    | exact presM_pyramidLoop _ _ _ _ _ _ _ _ _
    | exact presM_existsSync _
    | intro _

theorem presM_caseImageGrayscale (env : Env) (a : Args) : PresM (caseImageGrayscale env a) := by
  unfold caseImageGrayscale
  repeat' first
    | exact presM_pure _
    | exact presM_throw _
    | apply presM_tryCatch
    | apply presM_bind
    | exact presM_checkExists _ _
    | exact presM_ensureDir _
    | exact presM_readFile _
    | exact presM_sharpGate _
    | exact presM_sharpToFile _ _ _
    | exact presM_sharpMetadata _ _
    | exact presM_initVips _
    | exact presM_vipsGate _
    | exact presM_vipsNewFromFile _ _
    | exact presM_vipsWriteToFile _ _ _
    | exact presM_jsArrayLen _
    | exact presM_cornerCoord _ _ _
    | exact presM_cornersM _
    | exact presM_kernelArgM _
    | exact presM_edgeKernelM _
    | exact presM_noiseOpM _ _ _ _
    | exact presM_pyramidLoop _ _ _ _ _ _ _ _ _
    | exact presM_existsSync _
    | intro _

theorem presM_caseImageComposite (env : Env) (a : Args) : PresM (caseImageComposite env a) := by
  unfold caseImageComposite
  repeat' first
    | exact presM_pure _
    | exact presM_throw _
    | apply presM_tryCatch
    | apply presM_bind
    | exact presM_checkExists _ _
    | exact presM_ensureDir _
    | exact presM_readFile _
    | exact presM_sharpGate _
    | exact presM_sharpToFile _ _ _
    | exact presM_sharpMetadata _ _
    | exact presM_initVips _
    | exact presM_vipsGate _
    | exact presM_vipsNewFromFile _ _
    | exact presM_vipsWriteToFile _ _ _
    | exact presM_jsArrayLen _
    | exact presM_cornerCoord _ _ _
    | exact presM_cornersM _
    | exact presM_kernelArgM _
    | exact presM_edgeKernelM _
    | exact presM_noiseOpM _ _ _ _
    | exact presM_pyramidLoop _ _ _ _ _ _ _ _ _
    | exact presM_existsSync _
    | intro _

theorem presM_caseImageThumbnail (env : Env) (a : Args) : PresM (caseImageThumbnail env a) := by
  unfold caseImageThumbnail
  repeat' first
    | exact presM_pure _
    | exact presM_throw _
    | apply presM_tryCatch
    | apply presM_bind
    | exact presM_checkExists _ _
    | exact presM_ensureDir _
    | exact presM_readFile _
    | exact presM_sharpGate _
    | exact presM_sharpToFile _ _ _
    | exact presM_sharpMetadata _ _
    | exact presM_initVips _
    | exact presM_vipsGate _
    | exact presM_vipsNewFromFile _ _
    | exact presM_vipsWriteToFile _ _ _
    | exact presM_jsArrayLen _
    | exact presM_cornerCoord _ _ _
    | exact presM_cornersM _
    | exact presM_kernelArgM _
    | exact presM_edgeKernelM _
    | exact presM_noiseOpM _ _ _ _
    | exact presM_pyramidLoop _ _ _ _ _ _ _ _ _
    | exact presM_existsSync _
    | intro _

theorem presM_caseImageExtractChannel (env : Env) (a : Args) : PresM (caseImageExtractChannel env a) := by
  unfold caseImageExtractChannel
  repeat' first
    | exact presM_pure _
    | exact presM_throw _
    | apply presM_tryCatch
    | apply presM_bind
    | exact presM_checkExists _ _
    | exact presM_ensureDir _
    | exact presM_readFile _
    | exact presM_sharpGate _
    | exact presM_sharpToFile _ _ _
    | exact presM_sharpMetadata _ _
    | exact presM_initVips _
    | exact presM_vipsGate _
    | exact presM_vipsNewFromFile _ _
    | exact presM_vipsWriteToFile _ _ _
    | exact presM_jsArrayLen _
    | exact presM_cornerCoord _ _ _
    | exact presM_cornersM _
    | exact presM_kernelArgM _
    | exact presM_edgeKernelM _
    | exact presM_noiseOpM _ _ _ _
    | exact presM_pyramidLoop _ _ _ _ _ _ _ _ _
    | exact presM_existsSync _
    | intro _

theorem presM_caseImageHistogram (env : Env) (a : Args) : PresM (caseImageHistogram env a) := by
  unfold caseImageHistogram
  repeat' first
    | exact presM_pure _
    | exact presM_throw _
    | apply presM_tryCatch
    | apply presM_bind
    | exact presM_checkExists _ _
    | exact presM_ensureDir _
    | exact presM_readFile _
    | exact presM_sharpGate _
    | exact presM_sharpToFile _ _ _
    | exact presM_sharpMetadata _ _
    | exact presM_initVips _
    | exact presM_vipsGate _
    | exact presM_vipsNewFromFile _ _
    | exact presM_vipsWriteToFile _ _ _
    | exact presM_jsArrayLen _
    | exact presM_cornerCoord _ _ _
    | exact presM_cornersM _
    | exact presM_kernelArgM _
    | exact presM_edgeKernelM _
    | exact presM_noiseOpM _ _ _ _
    | exact presM_pyramidLoop _ _ _ _ _ _ _ _ _
    | exact presM_existsSync _
    | intro _

theorem presM_caseCreateSolidColor (env : Env) (a : Args) : PresM (caseCreateSolidColor env a) := by
  unfold caseCreateSolidColor
  repeat' first
    | exact presM_pure _
    | exact presM_throw _
    | apply presM_tryCatch
    | apply presM_bind
    | exact presM_checkExists _ _
    | exact presM_ensureDir _
    | exact presM_readFile _
    | exact presM_sharpGate _
    | exact presM_sharpToFile _ _ _
    | exact presM_sharpMetadata _ _
    | exact presM_initVips _
    | exact presM_vipsGate _
    | exact presM_vipsNewFromFile _ _
    | exact presM_vipsWriteToFile _ _ _
    | exact presM_jsArrayLen _
    | exact presM_cornerCoord _ _ _
    | exact presM_cornersM _
    | exact presM_kernelArgM _
    | exact presM_edgeKernelM _
    | exact presM_noiseOpM _ _ _ _
    | exact presM_pyramidLoop _ _ _ _ _ _ _ _ _
    | exact presM_existsSync _
    | intro _

theorem presM_caseImageMorphology (env : Env) (a : Args) : PresM (caseImageMorphology env a) := by
  unfold caseImageMorphology
  repeat' first
    | exact presM_pure _
    | exact presM_throw _
    | apply presM_tryCatch
    | apply presM_bind
    | exact presM_checkExists _ _
    | exact presM_ensureDir _
    | exact presM_readFile _
    | exact presM_sharpGate _
    | exact presM_sharpToFile _ _ _
    | exact presM_sharpMetadata _ _
    | exact presM_initVips _
    | exact presM_vipsGate _
    | exact presM_vipsNewFromFile _ _
    | exact presM_vipsWriteToFile _ _ _
    | exact presM_jsArrayLen _
    | exact presM_cornerCoord _ _ _
    | exact presM_cornersM _
    | exact presM_kernelArgM _
    | exact presM_edgeKernelM _
    | exact presM_noiseOpM _ _ _ _
    | exact presM_pyramidLoop _ _ _ _ _ _ _ _ _
    | exact presM_existsSync _
    | intro _

theorem presM_caseImageDrawLine (env : Env) (a : Args) : PresM (caseImageDrawLine env a) := by
  unfold caseImageDrawLine
  repeat' first
    | exact presM_pure _
    | exact presM_throw _
    | apply presM_tryCatch
    | apply presM_bind
    | exact presM_checkExists _ _
    | exact presM_ensureDir _
    | exact presM_readFile _
    | exact presM_sharpGate _
    | exact presM_sharpToFile _ _ _
    | exact presM_sharpMetadata _ _
    | exact presM_initVips _
    | exact presM_vipsGate _
    | exact presM_vipsNewFromFile _ _
    | exact presM_vipsWriteToFile _ _ _
    | exact presM_jsArrayLen _
    | exact presM_cornerCoord _ _ _
    | exact presM_cornersM _
    | exact presM_kernelArgM _
    | exact presM_edgeKernelM _
    | exact presM_noiseOpM _ _ _ _
    | exact presM_pyramidLoop _ _ _ _ _ _ _ _ _
    | exact presM_existsSync _
    | intro _

theorem presM_caseImageDrawCircle (env : Env) (a : Args) : PresM (caseImageDrawCircle env a) := by
  unfold caseImageDrawCircle
  repeat' first
    | exact presM_pure _
    | exact presM_throw _
    | apply presM_tryCatch
    | apply presM_bind
    | exact presM_checkExists _ _
    | exact presM_ensureDir _
    | exact presM_readFile _
    | exact presM_sharpGate _
    | exact presM_sharpToFile _ _ _
    | exact presM_sharpMetadata _ _
    | exact presM_initVips _
    | exact presM_vipsGate _
    | exact presM_vipsNewFromFile _ _
    | exact presM_vipsWriteToFile _ _ _
    | exact presM_jsArrayLen _
    | exact presM_cornerCoord _ _ _
    | exact presM_cornersM _
    | exact presM_kernelArgM _
    | exact presM_edgeKernelM _
    | exact presM_noiseOpM _ _ _ _
    | exact presM_pyramidLoop _ _ _ _ _ _ _ _ _
    | exact presM_existsSync _
    | intro _

theorem presM_caseImageEdgeDetection (env : Env) (a : Args) : PresM (caseImageEdgeDetection env a) := by
  unfold caseImageEdgeDetection
  repeat' first
    | exact presM_pure _
    | exact presM_throw _
    | apply presM_tryCatch
    | apply presM_bind
    | exact presM_checkExists _ _
    | exact presM_ensureDir _
    | exact presM_readFile _
    | exact presM_sharpGate _
    | exact presM_sharpToFile _ _ _
    | exact presM_sharpMetadata _ _
    | exact presM_initVips _
    | exact presM_vipsGate _
    | exact presM_vipsNewFromFile _ _
    | exact presM_vipsWriteToFile _ _ _
    | exact presM_jsArrayLen _
    | exact presM_cornerCoord _ _ _
    | exact presM_cornersM _
    | exact presM_kernelArgM _
    | exact presM_edgeKernelM _
    | exact presM_noiseOpM _ _ _ _
    | exact presM_pyramidLoop _ _ _ _ _ _ _ _ _
    | exact presM_existsSync _
    | intro _

theorem presM_caseImageAdvancedStats (env : Env) (a : Args) : PresM (caseImageAdvancedStats env a) := by
  unfold caseImageAdvancedStats
  repeat' first
    | exact presM_pure _
    | exact presM_throw _
    | apply presM_tryCatch
    | apply presM_bind
    | exact presM_checkExists _ _
    | exact presM_ensureDir _
    | exact presM_readFile _
    | exact presM_sharpGate _
    | exact presM_sharpToFile _ _ _
    | exact presM_sharpMetadata _ _
    | exact presM_initVips _
    | exact presM_vipsGate _
    | exact presM_vipsNewFromFile _ _
    | exact presM_vipsWriteToFile _ _ _
    | exact presM_jsArrayLen _
    | exact presM_cornerCoord _ _ _
    | exact presM_cornersM _
    | exact presM_kernelArgM _
    | exact presM_edgeKernelM _
    | exact presM_noiseOpM _ _ _ _
    | exact presM_pyramidLoop _ _ _ _ _ _ _ _ _
    | exact presM_existsSync _
    | intro _

theorem presM_caseImageFft (env : Env) (a : Args) : PresM (caseImageFft env a) := by
  unfold caseImageFft
  repeat' first
    | exact presM_pure _
    | exact presM_throw _
    | apply presM_tryCatch
    | apply presM_bind
    | exact presM_checkExists _ _
    | exact presM_ensureDir _
    | exact presM_readFile _
    | exact presM_sharpGate _
    | exact presM_sharpToFile _ _ _
    | exact presM_sharpMetadata _ _
    | exact presM_initVips _
    | exact presM_vipsGate _
    | exact presM_vipsNewFromFile _ _
    | exact presM_vipsWriteToFile _ _ _
    | exact presM_jsArrayLen _
    | exact presM_cornerCoord _ _ _
    | exact presM_cornersM _
    | exact presM_kernelArgM _
    | exact presM_edgeKernelM _
    | exact presM_noiseOpM _ _ _ _
    | exact presM_pyramidLoop _ _ _ _ _ _ _ _ _
    | exact presM_existsSync _
    | intro _

theorem presM_caseImageColorspaceConvert (env : Env) (a : Args) : PresM (caseImageColorspaceConvert env a) := by
  unfold caseImageColorspaceConvert
  repeat' first
    | exact presM_pure _
    | exact presM_throw _
    | apply presM_tryCatch
    | apply presM_bind
    | exact presM_checkExists _ _
    | exact presM_ensureDir _
    | exact presM_readFile _
    | exact presM_sharpGate _
    | exact presM_sharpToFile _ _ _
    | exact presM_sharpMetadata _ _
    | exact presM_initVips _
    | exact presM_vipsGate _
    | exact presM_vipsNewFromFile _ _
    | exact presM_vipsWriteToFile _ _ _
    | exact presM_jsArrayLen _
    | exact presM_cornerCoord _ _ _
    | exact presM_cornersM _
    | exact presM_kernelArgM _
    | exact presM_edgeKernelM _
    | exact presM_noiseOpM _ _ _ _
    | exact presM_pyramidLoop _ _ _ _ _ _ _ _ _
    | exact presM_existsSync _
    | intro _

theorem presM_caseImageAddNoise (env : Env) (a : Args) : PresM (caseImageAddNoise env a) := by
  unfold caseImageAddNoise
  repeat' first
    | exact presM_pure _
    | exact presM_throw _
    | apply presM_tryCatch
    | apply presM_bind
    | exact presM_checkExists _ _
    | exact presM_ensureDir _
    | exact presM_readFile _
    | exact presM_sharpGate _
    | exact presM_sharpToFile _ _ _
    | exact presM_sharpMetadata _ _
    | exact presM_initVips _
    | exact presM_vipsGate _
    | exact presM_vipsNewFromFile _ _
    | exact presM_vipsWriteToFile _ _ _
    | exact presM_jsArrayLen _
    | exact presM_cornerCoord _ _ _
    | exact presM_cornersM _
    | exact presM_kernelArgM _
    | exact presM_edgeKernelM _
    | exact presM_noiseOpM _ _ _ _
    | exact presM_pyramidLoop _ _ _ _ _ _ _ _ _
    | exact presM_existsSync _
    | intro _

theorem presM_caseImagePerspectiveTransform (env : Env) (a : Args) : PresM (caseImagePerspectiveTransform env a) := by
  unfold caseImagePerspectiveTransform
  repeat' first
    | exact presM_pure _
    | exact presM_throw _
    | apply presM_tryCatch
    | apply presM_bind
    | exact presM_checkExists _ _
    | exact presM_ensureDir _
    | exact presM_readFile _
    | exact presM_sharpGate _
    | exact presM_sharpToFile _ _ _
    | exact presM_sharpMetadata _ _
    | exact presM_initVips _
    | exact presM_vipsGate _
    | exact presM_vipsNewFromFile _ _
    | exact presM_vipsWriteToFile _ _ _
    | exact presM_jsArrayLen _
    | exact presM_cornerCoord _ _ _
    | exact presM_cornersM _
    | exact presM_kernelArgM _
    | exact presM_edgeKernelM _
    | exact presM_noiseOpM _ _ _ _
    | exact presM_pyramidLoop _ _ _ _ _ _ _ _ _
    | exact presM_existsSync _
    | intro _

theorem presM_caseImageTextureAnalysis (env : Env) (a : Args) : PresM (caseImageTextureAnalysis env a) := by
  unfold caseImageTextureAnalysis
  repeat' first
    | exact presM_pure _
    | exact presM_throw _
    | apply presM_tryCatch
    | apply presM_bind
    | exact presM_checkExists _ _
    | exact presM_ensureDir _
    | exact presM_readFile _
    | exact presM_sharpGate _
    | exact presM_sharpToFile _ _ _
    | exact presM_sharpMetadata _ _
    | exact presM_initVips _
    | exact presM_vipsGate _
    | exact presM_vipsNewFromFile _ _
    | exact presM_vipsWriteToFile _ _ _
    | exact presM_jsArrayLen _
    | exact presM_cornerCoord _ _ _
    | exact presM_cornersM _
    | exact presM_kernelArgM _
    | exact presM_edgeKernelM _
    | exact presM_noiseOpM _ _ _ _
    | exact presM_pyramidLoop _ _ _ _ _ _ _ _ _
    | exact presM_existsSync _
    | intro _

theorem presM_caseImageFloodFill (env : Env) (a : Args) : PresM (caseImageFloodFill env a) := by
  unfold caseImageFloodFill
  repeat' first
    | exact presM_pure _
    | exact presM_throw _
    | apply presM_tryCatch
    | apply presM_bind
    | exact presM_checkExists _ _
    | exact presM_ensureDir _
    | exact presM_readFile _
    | exact presM_sharpGate _
    | exact presM_sharpToFile _ _ _
    | exact presM_sharpMetadata _ _
    | exact presM_initVips _
    | exact presM_vipsGate _
    | exact presM_vipsNewFromFile _ _
    | exact presM_vipsWriteToFile _ _ _
    | exact presM_jsArrayLen _
    | exact presM_cornerCoord _ _ _
    | exact presM_cornersM _
    | exact presM_kernelArgM _
    | exact presM_edgeKernelM _
    | exact presM_noiseOpM _ _ _ _
    | exact presM_pyramidLoop _ _ _ _ _ _ _ _ _
    | exact presM_existsSync _
    | intro _

theorem presM_caseImageCreatePyramid (env : Env) (a : Args) : PresM (caseImageCreatePyramid env a) := by
  unfold caseImageCreatePyramid
  repeat' first
    | exact presM_pure _
    | exact presM_throw _
    | apply presM_tryCatch
    | apply presM_bind
    | exact presM_checkExists _ _
    | exact presM_ensureDir _
    | exact presM_readFile _
    | exact presM_sharpGate _
    | exact presM_sharpToFile _ _ _
    | exact presM_sharpMetadata _ _
    | exact presM_initVips _
    | exact presM_vipsGate _
    | exact presM_vipsNewFromFile _ _
    | exact presM_vipsWriteToFile _ _ _
    | exact presM_jsArrayLen _
    | exact presM_cornerCoord _ _ _
    | exact presM_cornersM _
    | exact presM_kernelArgM _
    | exact presM_edgeKernelM _
    | exact presM_noiseOpM _ _ _ _
    | exact presM_pyramidLoop _ _ _ _ _ _ _ _ _
    | exact presM_existsSync _
    | intro _

theorem presM_caseImageCustomConvolution (env : Env) (a : Args) :
    PresM (caseImageCustomConvolution env a) := by
  unfold caseImageCustomConvolution
  apply presM_bind (presM_checkExists _ _); intro _
  apply presM_bind (presM_ensureDir _); intro _
  apply presM_tryCatch
  · apply presM_bind (presM_initVips _); intro _
    apply presM_bind (presM_vipsNewFromFile _ _); intro _
    apply presM_bind (presM_kernelArgM _); intro k
    apply presM_bind (presM_vipsGate _); intro _
    apply presM_bind (presM_vipsWriteToFile _ _ _); intro _
    cases k with
    | nil => exact presM_throw _
    | cons r t => exact presM_pure _
  · intro e
    cases a.kernel with
    | none => exact presM_throw _
    | some k =>
      cases k with
      | nil => exact presM_throw _
      | cons r t =>
        apply presM_bind (presM_readFile _); intro _
        apply presM_bind (presM_sharpToFile _ _ _); intro _
        exact presM_pure _

theorem shapeOk_dispatch (env : Env) (req : ToolRequest) : ShapeOkM (dispatchTool env req) := by
  unfold dispatchTool
  split
  · exact shapeOk_caseImageInfo _ _
  · exact shapeOk_caseImageResize _ _
  · exact shapeOk_caseImageConvert _ _
  · exact shapeOk_caseImageCrop _ _
  · exact shapeOk_caseImageRotate _ _
  · exact shapeOk_caseImageFlip _ _
  · exact shapeOk_caseImageBlur _ _
  · exact shapeOk_caseImageSharpen _ _
  · exact shapeOk_caseImageAdjustBrightness _ _
  · exact shapeOk_caseImageAdjustContrast _ _
  · exact shapeOk_caseImageAdjustSaturation _ _
  · exact shapeOk_caseImageGrayscale _ _
  · exact shapeOk_caseImageComposite _ _
  · exact shapeOk_caseImageThumbnail _ _
  · exact shapeOk_caseImageExtractChannel _ _
  · exact shapeOk_caseImageHistogram _ _
  · exact shapeOk_caseCreateSolidColor _ _
  · exact shapeOk_caseImageMorphology _ _
  · exact shapeOk_caseImageDrawLine _ _
  · exact shapeOk_caseImageDrawCircle _ _
  · exact shapeOk_caseImageEdgeDetection _ _
  · exact shapeOk_caseImageAdvancedStats _ _
  · exact shapeOk_caseImageFft _ _
  · exact shapeOk_caseImageCustomConvolution _ _
  · exact shapeOk_caseImageColorspaceConvert _ _
  · exact shapeOk_caseImageAddNoise _ _
  · exact shapeOk_caseImagePerspectiveTransform _ _
  · exact shapeOk_caseImageTextureAnalysis _ _
  · exact shapeOk_caseImageFloodFill _ _
  · exact shapeOk_caseImageCreatePyramid _ _
  · exact shapeOk_throw _

theorem presM_dispatch (env : Env) (req : ToolRequest) : PresM (dispatchTool env req) := by
  unfold dispatchTool
  split
  · exact presM_caseImageInfo _ _
  · exact presM_caseImageResize _ _
  · exact presM_caseImageConvert _ _
  · exact presM_caseImageCrop _ _
  · exact presM_caseImageRotate _ _
  · exact presM_caseImageFlip _ _
  · exact presM_caseImageBlur _ _
  · exact presM_caseImageSharpen _ _
  · exact presM_caseImageAdjustBrightness _ _
  · exact presM_caseImageAdjustContrast _ _
  · exact presM_caseImageAdjustSaturation _ _
  · exact presM_caseImageGrayscale _ _
  · exact presM_caseImageComposite _ _
  · exact presM_caseImageThumbnail _ _
  · exact presM_caseImageExtractChannel _ _
  · exact presM_caseImageHistogram _ _
  · exact presM_caseCreateSolidColor _ _
  · exact presM_caseImageMorphology _ _
  · exact presM_caseImageDrawLine _ _
  · exact presM_caseImageDrawCircle _ _
  · exact presM_caseImageEdgeDetection _ _
  · exact presM_caseImageAdvancedStats _ _
  · exact presM_caseImageFft _ _
  · exact presM_caseImageCustomConvolution _ _
  · exact presM_caseImageColorspaceConvert _ _
  · exact presM_caseImageAddNoise _ _
  · exact presM_caseImagePerspectiveTransform _ _
  · exact presM_caseImageTextureAnalysis _ _
  · exact presM_caseImageFloodFill _ _
  · exact presM_caseImageCreatePyramid _ _
  · exact presM_throw _

theorem frameRel_handleCallTool (env : Env) (req : ToolRequest) (w : World) :
    frameRel w (handleCallTool env req w).2 := by
  have h := presM_dispatch env req w
  unfold handleCallTool
  cases hd : dispatchTool env req w with
  | ok r w' => rw [hd] at h; exact h
  | err m w' => rw [hd] at h; exact h

/-- A concrete environment with both libraries healthy, used by witnesses. -/
def envHealthy : Env :=
  { sharpFail := none, vipsLoad := .ok 7, vipsFail := none,
    metaDims := fun _ => (100, 50), vipsDims := fun _ => (64, 32),
    infoJson := fun _ => "", histJson := fun _ => "",
    sharpStatsJson := fun _ => "", vipsStatsJson := fun _ => "",
    vipsTextureJson := fun _ _ => "", sharpTextureJson := fun _ _ => "",
    rand := fun _ => 0 }

/-- A concrete world holding one raw input file, used by witnesses. -/
def wOneFile : World :=
  { fs := { files := [("in.png", .raw 0)], dirs := [] }, vips := none, toolTable := tools }

/-- C4: the wasm-vips handle is a lazily created per-process singleton: it is
null at process start, the first `initVips` call creates it from the loaded
module (storing it in the process state), and every subsequent call returns
the same handle without creating a new one or changing any state. -/
theorem C4_initVips_singleton :
    initialWorld.vips = none ∧
    (∀ (env : Env) (w : World) (h : Nat), w.vips = none → env.vipsLoad = .ok h →
      initVipsM env w = .ok h { w with vips := some h }) ∧
    (∀ (env : Env) (w : World) (h : Nat), w.vips = some h →
      initVipsM env w = .ok h w) := by
  refine ⟨rfl, ?_, ?_⟩
  · intro env w h hv hl
    unfold initVipsM
    rw [hv, hl]
  · intro env w h hv
    unfold initVipsM
    rw [hv]

/-- Witness for C4 at a concrete environment and worlds. -/
theorem C4_initVips_singleton_witness :
    initVipsM envHealthy initialWorld = .ok 7 { initialWorld with vips := some 7 } ∧
    initVipsM envHealthy { initialWorld with vips := some 7 } =
      .ok 7 { initialWorld with vips := some 7 } :=
  ⟨C4_initVips_singleton.2.1 envHealthy initialWorld 7 rfl rfl,
   C4_initVips_singleton.2.2 envHealthy { initialWorld with vips := some 7 } 7 rfl⟩

/-- C5: for every request name and argument bag, the response carries exactly
one content item of type text, and the error flag is set exactly when the
dispatch threw (the error path of the top-level catch). -/
theorem C5_response_shape (env : Env) (req : ToolRequest) (w : World) :
    ((handleCallTool env req w).1.content.map (fun c => c.type) = ["text"]) ∧
    ((handleCallTool env req w).1.isError = true ↔
      ∃ m w', dispatchTool env req w = .err m w') := by
  have h := shapeOk_dispatch env req w
  cases hd : dispatchTool env req w with
  | ok r w' =>
      have hcall : handleCallTool env req w = (r, w') := by
        unfold handleCallTool; rw [hd]
      rw [hd] at h
      obtain ⟨h1, h2⟩ := h
      rw [hcall]
      refine ⟨h1, ?_⟩
      constructor
      · intro hfalse; rw [h2] at hfalse; cases hfalse
      · rintro ⟨m, w'', he⟩
        cases he
  | err m w' =>
      have hcall : handleCallTool env req w = (errorResponse m, w') := by
        unfold handleCallTool; rw [hd]
      rw [hcall]
      exact ⟨rfl, fun _ => ⟨m, w', rfl⟩, fun _ => rfl⟩

/-- C6: the descriptor table is immutable after startup: after any sequence
of tool invocations from the initial world the list-tools handler still
returns the static `tools` list, and no single invocation adds, removes or
modifies a descriptor. -/
theorem C6_tool_table_immutable :
    (∀ (env : Env) (reqs : List ToolRequest),
      handleListTools (runAll env reqs initialWorld) = tools) ∧
    (∀ (env : Env) (req : ToolRequest) (w : World),
      (handleCallTool env req w).2.toolTable = w.toolTable) := by
  have hstep : ∀ (env : Env) (req : ToolRequest) (w : World),
      (handleCallTool env req w).2.toolTable = w.toolTable :=
    fun env req w => (frameRel_handleCallTool env req w).1
  refine ⟨?_, hstep⟩
  intro env reqs
  suffices h : ∀ w, (runAll env reqs w).toolTable = w.toolTable by
    show (runAll env reqs initialWorld).toolTable = tools
    rw [h initialWorld]
    rfl
  induction reqs with
  | nil => intro w; rfl
  | cons r rs ih =>
      intro w
      have hr : runAll env (r :: rs) w = runAll env rs (handleCallTool env r w).2 := rfl
      rw [hr, ih, hstep]

/-- C7: a tool invocation modifies no in-process server state other than the
one-time lazy initialization of the vips handle: the tool table is unchanged,
an existing handle is kept identical, and otherwise the handle either stays
null or is initialized once. -/
theorem C7_frame (env : Env) (req : ToolRequest) (w : World) :
    (handleCallTool env req w).2.toolTable = w.toolTable ∧
    (∀ h, w.vips = some h → (handleCallTool env req w).2.vips = some h) ∧
    ((handleCallTool env req w).2.vips = w.vips ∨
      (w.vips = none ∧ ∃ h, (handleCallTool env req w).2.vips = some h)) := by
  obtain ⟨ht, hv⟩ := frameRel_handleCallTool env req w
  refine ⟨ht, ?_, hv⟩
  intro h hw
  rcases hv with e | ⟨n, _, _⟩
  · rw [e, hw]
  · rw [hw] at n; cases n

/-- Witness for C7 at a concrete request from a world with the handle set. -/
theorem C7_frame_witness :
    (handleCallTool envHealthy ⟨"image_info", {}⟩
      { wOneFile with vips := some 7 }).2.vips = some 7 :=
  (C7_frame envHealthy ⟨"image_info", {}⟩ { wOneFile with vips := some 7 }).2.1 7 rfl

/-- C3: any exception thrown during dispatch — including the unknown-tool
throw of the default case — is caught by the top-level catch and converted
into a response carrying the exception message with the error flag set; the
handler is a total function of one dispatch run (the exception never escapes
and there is no retry). -/
theorem C3_top_level_catch (env : Env) (w : World) (name : String) (a : Args) :
    (∀ m w', dispatchTool env ⟨name, a⟩ w = .err m w' →
      handleCallTool env ⟨name, a⟩ w = (errorResponse m, w')) ∧
    (name ∉ tools.map ToolDecl.name →
      handleCallTool env ⟨name, a⟩ w = (errorResponse ("Unknown tool: " ++ name), w)) := by
  constructor
  · intro m w' hd
    unfold handleCallTool
    rw [hd]
  · intro hn
    have hnames : tools.map ToolDecl.name =
        ["image_info", "image_resize", "image_convert", "image_crop", "image_rotate",
         "image_flip", "image_blur", "image_sharpen", "image_adjust_brightness",
         "image_adjust_contrast", "image_adjust_saturation", "image_grayscale",
         "image_composite", "image_thumbnail", "image_extract_channel", "image_histogram",
         "create_solid_color", "image_morphology", "image_draw_line", "image_draw_circle",
         "image_edge_detection", "image_advanced_stats", "image_fft",
         "image_custom_convolution", "image_colorspace_convert", "image_add_noise",
         "image_perspective_transform", "image_texture_analysis", "image_flood_fill",
         "image_create_pyramid"] := rfl
    rw [hnames] at hn
    simp only [List.mem_cons, List.not_mem_nil, or_false, not_or] at hn
    have hd : dispatchTool env ⟨name, a⟩ w = .err ("Unknown tool: " ++ name) w := by
      have hfun : dispatchTool env ⟨name, a⟩ = throwM ("Unknown tool: " ++ name) := by
        unfold dispatchTool
        split <;> simp_all
      rw [hfun]
      rfl
    unfold handleCallTool
    rw [hd]

/-- Witness for C3: a concrete unknown tool name yields the error response. -/
theorem C3_top_level_catch_witness :
    handleCallTool envHealthy ⟨"no_such_tool", {}⟩ wOneFile =
      (errorResponse ("Unknown tool: " ++ "no_such_tool"), wOneFile) :=
  (C3_top_level_catch envHealthy wOneFile "no_such_tool" {}).2 (by decide)

theorem run_checkExists_fail {β : Type} (p : Option String) (pre : String)
    (f : Unit → M β) (w : World) (h : existsSyncFS w.fs p = false) :
    (checkExistsM p pre >>= f) w = .err (pre ++ jsStrU p) w := by
  simp only [run_bind]
  unfold checkExistsM
  simp [h]

theorem run_checkExists_ok {β : Type} (p : Option String) (pre : String)
    (f : Unit → M β) (w : World) (h : existsSyncFS w.fs p = true) :
    (checkExistsM p pre >>= f) w = f () w := by
  simp only [run_bind]
  unfold checkExistsM
  simp [h]

theorem c8aux_image_info (env : Env) (a : Args) (w : World) (p : String)
    (ha : a.image_path = some p) (h : existsSyncFS w.fs (some p) = false) :
    handleCallTool env ⟨"image_info", a⟩ w =
      (errorResponse ("Image file not found: " ++ p), w) := by
  have hd : dispatchTool env ⟨"image_info", a⟩ w =
      .err ("Image file not found: " ++ p) w := by
    show caseImageInfo env a w = _
    unfold caseImageInfo
    rw [ha]
    exact run_checkExists_fail _ _ _ w h
  unfold handleCallTool
  rw [hd]

theorem c8aux_image_resize (env : Env) (a : Args) (w : World) (p : String)
    (ha : a.input_path = some p) (h : existsSyncFS w.fs (some p) = false) :
    handleCallTool env ⟨"image_resize", a⟩ w =
      (errorResponse ("Input image not found: " ++ p), w) := by
  have hd : dispatchTool env ⟨"image_resize", a⟩ w =
      .err ("Input image not found: " ++ p) w := by
    show caseImageResize env a w = _
    unfold caseImageResize
    rw [ha]
    exact run_checkExists_fail _ _ _ w h
  unfold handleCallTool
  rw [hd]

theorem c8aux_image_convert (env : Env) (a : Args) (w : World) (p : String)
    (ha : a.input_path = some p) (h : existsSyncFS w.fs (some p) = false) :
    handleCallTool env ⟨"image_convert", a⟩ w =
      (errorResponse ("Input image not found: " ++ p), w) := by
  have hd : dispatchTool env ⟨"image_convert", a⟩ w =
      .err ("Input image not found: " ++ p) w := by
    show caseImageConvert env a w = _
    unfold caseImageConvert
    rw [ha]
    exact run_checkExists_fail _ _ _ w h
  unfold handleCallTool
  rw [hd]

theorem c8aux_image_crop (env : Env) (a : Args) (w : World) (p : String)
    (ha : a.input_path = some p) (h : existsSyncFS w.fs (some p) = false) :
    handleCallTool env ⟨"image_crop", a⟩ w =
      (errorResponse ("Input image not found: " ++ p), w) := by
  have hd : dispatchTool env ⟨"image_crop", a⟩ w =
      .err ("Input image not found: " ++ p) w := by
    show caseImageCrop env a w = _
    unfold caseImageCrop
    rw [ha]
    exact run_checkExists_fail _ _ _ w h
  unfold handleCallTool
  rw [hd]

theorem c8aux_image_rotate (env : Env) (a : Args) (w : World) (p : String)
    (ha : a.input_path = some p) (h : existsSyncFS w.fs (some p) = false) :
    handleCallTool env ⟨"image_rotate", a⟩ w =
      (errorResponse ("Input image not found: " ++ p), w) := by
  have hd : dispatchTool env ⟨"image_rotate", a⟩ w =
      .err ("Input image not found: " ++ p) w := by
    show caseImageRotate env a w = _
    unfold caseImageRotate
    rw [ha]
    exact run_checkExists_fail _ _ _ w h
  unfold handleCallTool
  rw [hd]

theorem c8aux_image_flip (env : Env) (a : Args) (w : World) (p : String)
    (ha : a.input_path = some p) (h : existsSyncFS w.fs (some p) = false) :
    handleCallTool env ⟨"image_flip", a⟩ w =
      (errorResponse ("Input image not found: " ++ p), w) := by
  have hd : dispatchTool env ⟨"image_flip", a⟩ w =
      .err ("Input image not found: " ++ p) w := by
    show caseImageFlip env a w = _
    unfold caseImageFlip
    rw [ha]
    exact run_checkExists_fail _ _ _ w h
  unfold handleCallTool
  rw [hd]

theorem c8aux_image_blur (env : Env) (a : Args) (w : World) (p : String)
    (ha : a.input_path = some p) (h : existsSyncFS w.fs (some p) = false) :
    handleCallTool env ⟨"image_blur", a⟩ w =
      (errorResponse ("Input image not found: " ++ p), w) := by
  have hd : dispatchTool env ⟨"image_blur", a⟩ w =
      .err ("Input image not found: " ++ p) w := by
    show caseImageBlur env a w = _
    unfold caseImageBlur
    rw [ha]
    exact run_checkExists_fail _ _ _ w h
  unfold handleCallTool
  rw [hd]

theorem c8aux_image_sharpen (env : Env) (a : Args) (w : World) (p : String)
    (ha : a.input_path = some p) (h : existsSyncFS w.fs (some p) = false) :
    handleCallTool env ⟨"image_sharpen", a⟩ w =
      (errorResponse ("Input image not found: " ++ p), w) := by
  have hd : dispatchTool env ⟨"image_sharpen", a⟩ w =
      .err ("Input image not found: " ++ p) w := by
    show caseImageSharpen env a w = _
    unfold caseImageSharpen
    rw [ha]
    exact run_checkExists_fail _ _ _ w h
  unfold handleCallTool
  rw [hd]

theorem c8aux_image_adjust_brightness (env : Env) (a : Args) (w : World) (p : String)
    (ha : a.input_path = some p) (h : existsSyncFS w.fs (some p) = false) :
    handleCallTool env ⟨"image_adjust_brightness", a⟩ w =
      (errorResponse ("Input image not found: " ++ p), w) := by
  have hd : dispatchTool env ⟨"image_adjust_brightness", a⟩ w =
      .err ("Input image not found: " ++ p) w := by
    show caseImageAdjustBrightness env a w = _
    unfold caseImageAdjustBrightness
    rw [ha]
    exact run_checkExists_fail _ _ _ w h
  unfold handleCallTool
  rw [hd]

theorem c8aux_image_adjust_contrast (env : Env) (a : Args) (w : World) (p : String)
    (ha : a.input_path = some p) (h : existsSyncFS w.fs (some p) = false) :
    handleCallTool env ⟨"image_adjust_contrast", a⟩ w =
      (errorResponse ("Input image not found: " ++ p), w) := by
  have hd : dispatchTool env ⟨"image_adjust_contrast", a⟩ w =
      .err ("Input image not found: " ++ p) w := by
    show caseImageAdjustContrast env a w = _
    unfold caseImageAdjustContrast
    rw [ha]
    exact run_checkExists_fail _ _ _ w h
  unfold handleCallTool
  rw [hd]

theorem c8aux_image_adjust_saturation (env : Env) (a : Args) (w : World) (p : String)
    (ha : a.input_path = some p) (h : existsSyncFS w.fs (some p) = false) :
    handleCallTool env ⟨"image_adjust_saturation", a⟩ w =
      (errorResponse ("Input image not found: " ++ p), w) := by
  have hd : dispatchTool env ⟨"image_adjust_saturation", a⟩ w =
      .err ("Input image not found: " ++ p) w := by
    show caseImageAdjustSaturation env a w = _
    unfold caseImageAdjustSaturation
    rw [ha]
    exact run_checkExists_fail _ _ _ w h
  unfold handleCallTool
  rw [hd]

theorem c8aux_image_grayscale (env : Env) (a : Args) (w : World) (p : String)
    (ha : a.input_path = some p) (h : existsSyncFS w.fs (some p) = false) :
    handleCallTool env ⟨"image_grayscale", a⟩ w =
      (errorResponse ("Input image not found: " ++ p), w) := by
  have hd : dispatchTool env ⟨"image_grayscale", a⟩ w =
      .err ("Input image not found: " ++ p) w := by
    show caseImageGrayscale env a w = _
    unfold caseImageGrayscale
    rw [ha]
    exact run_checkExists_fail _ _ _ w h
  unfold handleCallTool
  rw [hd]

theorem c8aux_image_composite (env : Env) (a : Args) (w : World) (p : String)
    (ha : a.base_image_path = some p) (h : existsSyncFS w.fs (some p) = false) :
    handleCallTool env ⟨"image_composite", a⟩ w =
      (errorResponse ("Base image not found: " ++ p), w) := by
  have hd : dispatchTool env ⟨"image_composite", a⟩ w =
      .err ("Base image not found: " ++ p) w := by
    show caseImageComposite env a w = _
    unfold caseImageComposite
    rw [ha]
    exact run_checkExists_fail _ _ _ w h
  unfold handleCallTool
  rw [hd]

theorem c8aux_image_thumbnail (env : Env) (a : Args) (w : World) (p : String)
    (ha : a.input_path = some p) (h : existsSyncFS w.fs (some p) = false) :
    handleCallTool env ⟨"image_thumbnail", a⟩ w =
      (errorResponse ("Input image not found: " ++ p), w) := by
  have hd : dispatchTool env ⟨"image_thumbnail", a⟩ w =
      .err ("Input image not found: " ++ p) w := by
    show caseImageThumbnail env a w = _
    unfold caseImageThumbnail
    rw [ha]
    exact run_checkExists_fail _ _ _ w h
  unfold handleCallTool
  rw [hd]

theorem c8aux_image_extract_channel (env : Env) (a : Args) (w : World) (p : String)
    (ha : a.input_path = some p) (h : existsSyncFS w.fs (some p) = false) :
    handleCallTool env ⟨"image_extract_channel", a⟩ w =
      (errorResponse ("Input image not found: " ++ p), w) := by
  have hd : dispatchTool env ⟨"image_extract_channel", a⟩ w =
      .err ("Input image not found: " ++ p) w := by
    show caseImageExtractChannel env a w = _
    unfold caseImageExtractChannel
    rw [ha]
    exact run_checkExists_fail _ _ _ w h
  unfold handleCallTool
  rw [hd]

theorem c8aux_image_histogram (env : Env) (a : Args) (w : World) (p : String)
    (ha : a.input_path = some p) (h : existsSyncFS w.fs (some p) = false) :
    handleCallTool env ⟨"image_histogram", a⟩ w =
      (errorResponse ("Input image not found: " ++ p), w) := by
  have hd : dispatchTool env ⟨"image_histogram", a⟩ w =
      .err ("Input image not found: " ++ p) w := by
    show caseImageHistogram env a w = _
    unfold caseImageHistogram
    rw [ha]
    exact run_checkExists_fail _ _ _ w h
  unfold handleCallTool
  rw [hd]

theorem c8aux_image_morphology (env : Env) (a : Args) (w : World) (p : String)
    (ha : a.input_path = some p) (h : existsSyncFS w.fs (some p) = false) :
    handleCallTool env ⟨"image_morphology", a⟩ w =
      (errorResponse ("Input image not found: " ++ p), w) := by
  have hd : dispatchTool env ⟨"image_morphology", a⟩ w =
      .err ("Input image not found: " ++ p) w := by
    show caseImageMorphology env a w = _
    unfold caseImageMorphology
    rw [ha]
    exact run_checkExists_fail _ _ _ w h
  unfold handleCallTool
  rw [hd]

theorem c8aux_image_draw_line (env : Env) (a : Args) (w : World) (p : String)
    (ha : a.input_path = some p) (h : existsSyncFS w.fs (some p) = false) :
    handleCallTool env ⟨"image_draw_line", a⟩ w =
      (errorResponse ("Input image not found: " ++ p), w) := by
  have hd : dispatchTool env ⟨"image_draw_line", a⟩ w =
      .err ("Input image not found: " ++ p) w := by
    show caseImageDrawLine env a w = _
    unfold caseImageDrawLine
    rw [ha]
    exact run_checkExists_fail _ _ _ w h
  unfold handleCallTool
  rw [hd]

theorem c8aux_image_draw_circle (env : Env) (a : Args) (w : World) (p : String)
    (ha : a.input_path = some p) (h : existsSyncFS w.fs (some p) = false) :
    handleCallTool env ⟨"image_draw_circle", a⟩ w =
      (errorResponse ("Input image not found: " ++ p), w) := by
  have hd : dispatchTool env ⟨"image_draw_circle", a⟩ w =
      .err ("Input image not found: " ++ p) w := by
    show caseImageDrawCircle env a w = _
    unfold caseImageDrawCircle
    rw [ha]
    exact run_checkExists_fail _ _ _ w h
  unfold handleCallTool
  rw [hd]

theorem c8aux_image_edge_detection (env : Env) (a : Args) (w : World) (p : String)
    (ha : a.input_path = some p) (h : existsSyncFS w.fs (some p) = false) :
    handleCallTool env ⟨"image_edge_detection", a⟩ w =
      (errorResponse ("Input image not found: " ++ p), w) := by
  have hd : dispatchTool env ⟨"image_edge_detection", a⟩ w =
      .err ("Input image not found: " ++ p) w := by
    show caseImageEdgeDetection env a w = _
    unfold caseImageEdgeDetection
    rw [ha]
    exact run_checkExists_fail _ _ _ w h
  unfold handleCallTool
  rw [hd]

theorem c8aux_image_advanced_stats (env : Env) (a : Args) (w : World) (p : String)
    (ha : a.input_path = some p) (h : existsSyncFS w.fs (some p) = false) :
    handleCallTool env ⟨"image_advanced_stats", a⟩ w =
      (errorResponse ("Input image not found: " ++ p), w) := by
  have hd : dispatchTool env ⟨"image_advanced_stats", a⟩ w =
      .err ("Input image not found: " ++ p) w := by
    show caseImageAdvancedStats env a w = _
    unfold caseImageAdvancedStats
    rw [ha]
    exact run_checkExists_fail _ _ _ w h
  unfold handleCallTool
  rw [hd]

theorem c8aux_image_fft (env : Env) (a : Args) (w : World) (p : String)
    (ha : a.input_path = some p) (h : existsSyncFS w.fs (some p) = false) :
    handleCallTool env ⟨"image_fft", a⟩ w =
      (errorResponse ("Input image not found: " ++ p), w) := by
  have hd : dispatchTool env ⟨"image_fft", a⟩ w =
      .err ("Input image not found: " ++ p) w := by
    show caseImageFft env a w = _
    unfold caseImageFft
    rw [ha]
    exact run_checkExists_fail _ _ _ w h
  unfold handleCallTool
  rw [hd]

theorem c8aux_image_custom_convolution (env : Env) (a : Args) (w : World) (p : String)
    (ha : a.input_path = some p) (h : existsSyncFS w.fs (some p) = false) :
    handleCallTool env ⟨"image_custom_convolution", a⟩ w =
      (errorResponse ("Input image not found: " ++ p), w) := by
  have hd : dispatchTool env ⟨"image_custom_convolution", a⟩ w =
      .err ("Input image not found: " ++ p) w := by
    show caseImageCustomConvolution env a w = _
    unfold caseImageCustomConvolution
    rw [ha]
    exact run_checkExists_fail _ _ _ w h
  unfold handleCallTool
  rw [hd]

theorem c8aux_image_colorspace_convert (env : Env) (a : Args) (w : World) (p : String)
    (ha : a.input_path = some p) (h : existsSyncFS w.fs (some p) = false) :
    handleCallTool env ⟨"image_colorspace_convert", a⟩ w =
      (errorResponse ("Input image not found: " ++ p), w) := by
  have hd : dispatchTool env ⟨"image_colorspace_convert", a⟩ w =
      .err ("Input image not found: " ++ p) w := by
    show caseImageColorspaceConvert env a w = _
    unfold caseImageColorspaceConvert
    rw [ha]
    exact run_checkExists_fail _ _ _ w h
  unfold handleCallTool
  rw [hd]

theorem c8aux_image_add_noise (env : Env) (a : Args) (w : World) (p : String)
    (ha : a.input_path = some p) (h : existsSyncFS w.fs (some p) = false) :
    handleCallTool env ⟨"image_add_noise", a⟩ w =
      (errorResponse ("Input image not found: " ++ p), w) := by
  have hd : dispatchTool env ⟨"image_add_noise", a⟩ w =
      .err ("Input image not found: " ++ p) w := by
    show caseImageAddNoise env a w = _
    unfold caseImageAddNoise
    rw [ha]
    exact run_checkExists_fail _ _ _ w h
  unfold handleCallTool
  rw [hd]

theorem c8aux_image_perspective_transform (env : Env) (a : Args) (w : World) (p : String)
    (ha : a.input_path = some p) (h : existsSyncFS w.fs (some p) = false) :
    handleCallTool env ⟨"image_perspective_transform", a⟩ w =
      (errorResponse ("Input image not found: " ++ p), w) := by
  have hd : dispatchTool env ⟨"image_perspective_transform", a⟩ w =
      .err ("Input image not found: " ++ p) w := by
    show caseImagePerspectiveTransform env a w = _
    unfold caseImagePerspectiveTransform
    rw [ha]
    exact run_checkExists_fail _ _ _ w h
  unfold handleCallTool
  rw [hd]

theorem c8aux_image_texture_analysis (env : Env) (a : Args) (w : World) (p : String)
    (ha : a.input_path = some p) (h : existsSyncFS w.fs (some p) = false) :
    handleCallTool env ⟨"image_texture_analysis", a⟩ w =
      (errorResponse ("Input image not found: " ++ p), w) := by
  have hd : dispatchTool env ⟨"image_texture_analysis", a⟩ w =
      .err ("Input image not found: " ++ p) w := by
    show caseImageTextureAnalysis env a w = _
    unfold caseImageTextureAnalysis
    rw [ha]
    exact run_checkExists_fail _ _ _ w h
  unfold handleCallTool
  rw [hd]

theorem c8aux_image_flood_fill (env : Env) (a : Args) (w : World) (p : String)
    (ha : a.input_path = some p) (h : existsSyncFS w.fs (some p) = false) :
    handleCallTool env ⟨"image_flood_fill", a⟩ w =
      (errorResponse ("Input image not found: " ++ p), w) := by
  have hd : dispatchTool env ⟨"image_flood_fill", a⟩ w =
      .err ("Input image not found: " ++ p) w := by
    show caseImageFloodFill env a w = _
    unfold caseImageFloodFill
    rw [ha]
    exact run_checkExists_fail _ _ _ w h
  unfold handleCallTool
  rw [hd]

theorem c8aux_image_create_pyramid (env : Env) (a : Args) (w : World) (p : String)
    (ha : a.input_path = some p) (h : existsSyncFS w.fs (some p) = false) :
    handleCallTool env ⟨"image_create_pyramid", a⟩ w =
      (errorResponse ("Input image not found: " ++ p), w) := by
  have hd : dispatchTool env ⟨"image_create_pyramid", a⟩ w =
      .err ("Input image not found: " ++ p) w := by
    show caseImageCreatePyramid env a w = _
    unfold caseImageCreatePyramid
    rw [ha]
    exact run_checkExists_fail _ _ _ w h
  unfold handleCallTool
  rw [hd]

theorem c8aux_image_composite_overlay (env : Env) (a : Args) (w : World) (b q : String)
    (hb : a.base_image_path = some b) (hbe : existsSyncFS w.fs (some b) = true)
    (ho : a.overlay_image_path = some q) (h : existsSyncFS w.fs (some q) = false) :
    handleCallTool env ⟨"image_composite", a⟩ w =
      (errorResponse ("Overlay image not found: " ++ q), w) := by
  have hd : dispatchTool env ⟨"image_composite", a⟩ w =
      .err ("Overlay image not found: " ++ q) w := by
    show caseImageComposite env a w = _
    unfold caseImageComposite
    rw [hb, ho]
    rw [run_checkExists_ok _ _ _ w hbe]
    exact run_checkExists_fail _ _ _ w h
  unfold handleCallTool
  rw [hd]

/-- C8: for every file-consuming operation, a missing checked input path
yields an error response whose message names the missing path, and the whole
world — filesystem (no directory created, no file written) and vips handle —
is left exactly unchanged, because the existence check precedes directory
creation and every backend call. -/
theorem C8_missing_input_no_effect :
    (∀ (env : Env) (a : Args) (w : World) (p : String), a.image_path = some p →
      existsSyncFS w.fs (some p) = false →
      handleCallTool env ⟨"image_info", a⟩ w = (errorResponse ("Image file not found: " ++ p), w)) ∧
    (∀ (env : Env) (a : Args) (w : World) (p : String), a.input_path = some p →
      existsSyncFS w.fs (some p) = false →
      handleCallTool env ⟨"image_resize", a⟩ w = (errorResponse ("Input image not found: " ++ p), w)) ∧
    (∀ (env : Env) (a : Args) (w : World) (p : String), a.input_path = some p →
      existsSyncFS w.fs (some p) = false →
      handleCallTool env ⟨"image_convert", a⟩ w = (errorResponse ("Input image not found: " ++ p), w)) ∧
    (∀ (env : Env) (a : Args) (w : World) (p : String), a.input_path = some p →
      existsSyncFS w.fs (some p) = false →
      handleCallTool env ⟨"image_crop", a⟩ w = (errorResponse ("Input image not found: " ++ p), w)) ∧
    (∀ (env : Env) (a : Args) (w : World) (p : String), a.input_path = some p →
      existsSyncFS w.fs (some p) = false →
      handleCallTool env ⟨"image_rotate", a⟩ w = (errorResponse ("Input image not found: " ++ p), w)) ∧
    (∀ (env : Env) (a : Args) (w : World) (p : String), a.input_path = some p →
      existsSyncFS w.fs (some p) = false →
      handleCallTool env ⟨"image_flip", a⟩ w = (errorResponse ("Input image not found: " ++ p), w)) ∧
    (∀ (env : Env) (a : Args) (w : World) (p : String), a.input_path = some p →
      existsSyncFS w.fs (some p) = false →
      handleCallTool env ⟨"image_blur", a⟩ w = (errorResponse ("Input image not found: " ++ p), w)) ∧
    (∀ (env : Env) (a : Args) (w : World) (p : String), a.input_path = some p →
      existsSyncFS w.fs (some p) = false →
      handleCallTool env ⟨"image_sharpen", a⟩ w = (errorResponse ("Input image not found: " ++ p), w)) ∧
    (∀ (env : Env) (a : Args) (w : World) (p : String), a.input_path = some p →
      existsSyncFS w.fs (some p) = false →
      handleCallTool env ⟨"image_adjust_brightness", a⟩ w = (errorResponse ("Input image not found: " ++ p), w)) ∧
    (∀ (env : Env) (a : Args) (w : World) (p : String), a.input_path = some p →
      existsSyncFS w.fs (some p) = false →
      handleCallTool env ⟨"image_adjust_contrast", a⟩ w = (errorResponse ("Input image not found: " ++ p), w)) ∧
    (∀ (env : Env) (a : Args) (w : World) (p : String), a.input_path = some p →
      existsSyncFS w.fs (some p) = false →
      handleCallTool env ⟨"image_adjust_saturation", a⟩ w = (errorResponse ("Input image not found: " ++ p), w)) ∧
    (∀ (env : Env) (a : Args) (w : World) (p : String), a.input_path = some p →
      existsSyncFS w.fs (some p) = false →
      handleCallTool env ⟨"image_grayscale", a⟩ w = (errorResponse ("Input image not found: " ++ p), w)) ∧
    (∀ (env : Env) (a : Args) (w : World) (p : String), a.base_image_path = some p →
      existsSyncFS w.fs (some p) = false →
      handleCallTool env ⟨"image_composite", a⟩ w = (errorResponse ("Base image not found: " ++ p), w)) ∧
    (∀ (env : Env) (a : Args) (w : World) (p : String), a.input_path = some p →
      existsSyncFS w.fs (some p) = false →
      handleCallTool env ⟨"image_thumbnail", a⟩ w = (errorResponse ("Input image not found: " ++ p), w)) ∧
    (∀ (env : Env) (a : Args) (w : World) (p : String), a.input_path = some p →
      existsSyncFS w.fs (some p) = false →
      handleCallTool env ⟨"image_extract_channel", a⟩ w = (errorResponse ("Input image not found: " ++ p), w)) ∧
    (∀ (env : Env) (a : Args) (w : World) (p : String), a.input_path = some p →
      existsSyncFS w.fs (some p) = false →
      handleCallTool env ⟨"image_histogram", a⟩ w = (errorResponse ("Input image not found: " ++ p), w)) ∧
    (∀ (env : Env) (a : Args) (w : World) (p : String), a.input_path = some p →
      existsSyncFS w.fs (some p) = false →
      handleCallTool env ⟨"image_morphology", a⟩ w = (errorResponse ("Input image not found: " ++ p), w)) ∧
    (∀ (env : Env) (a : Args) (w : World) (p : String), a.input_path = some p →
      existsSyncFS w.fs (some p) = false →
      handleCallTool env ⟨"image_draw_line", a⟩ w = (errorResponse ("Input image not found: " ++ p), w)) ∧
    (∀ (env : Env) (a : Args) (w : World) (p : String), a.input_path = some p →
      existsSyncFS w.fs (some p) = false →
      handleCallTool env ⟨"image_draw_circle", a⟩ w = (errorResponse ("Input image not found: " ++ p), w)) ∧
    (∀ (env : Env) (a : Args) (w : World) (p : String), a.input_path = some p →
      existsSyncFS w.fs (some p) = false →
      handleCallTool env ⟨"image_edge_detection", a⟩ w = (errorResponse ("Input image not found: " ++ p), w)) ∧
    (∀ (env : Env) (a : Args) (w : World) (p : String), a.input_path = some p →
      existsSyncFS w.fs (some p) = false →
      handleCallTool env ⟨"image_advanced_stats", a⟩ w = (errorResponse ("Input image not found: " ++ p), w)) ∧
    (∀ (env : Env) (a : Args) (w : World) (p : String), a.input_path = some p →
      existsSyncFS w.fs (some p) = false →
      handleCallTool env ⟨"image_fft", a⟩ w = (errorResponse ("Input image not found: " ++ p), w)) ∧
    (∀ (env : Env) (a : Args) (w : World) (p : String), a.input_path = some p →
      existsSyncFS w.fs (some p) = false →
      handleCallTool env ⟨"image_custom_convolution", a⟩ w = (errorResponse ("Input image not found: " ++ p), w)) ∧
    (∀ (env : Env) (a : Args) (w : World) (p : String), a.input_path = some p →
      existsSyncFS w.fs (some p) = false →
      handleCallTool env ⟨"image_colorspace_convert", a⟩ w = (errorResponse ("Input image not found: " ++ p), w)) ∧
    (∀ (env : Env) (a : Args) (w : World) (p : String), a.input_path = some p →
      existsSyncFS w.fs (some p) = false →
      handleCallTool env ⟨"image_add_noise", a⟩ w = (errorResponse ("Input image not found: " ++ p), w)) ∧
    (∀ (env : Env) (a : Args) (w : World) (p : String), a.input_path = some p →
      existsSyncFS w.fs (some p) = false →
      handleCallTool env ⟨"image_perspective_transform", a⟩ w = (errorResponse ("Input image not found: " ++ p), w)) ∧
    (∀ (env : Env) (a : Args) (w : World) (p : String), a.input_path = some p →
      existsSyncFS w.fs (some p) = false →
      handleCallTool env ⟨"image_texture_analysis", a⟩ w = (errorResponse ("Input image not found: " ++ p), w)) ∧
    (∀ (env : Env) (a : Args) (w : World) (p : String), a.input_path = some p →
      existsSyncFS w.fs (some p) = false →
      handleCallTool env ⟨"image_flood_fill", a⟩ w = (errorResponse ("Input image not found: " ++ p), w)) ∧
    (∀ (env : Env) (a : Args) (w : World) (p : String), a.input_path = some p →
      existsSyncFS w.fs (some p) = false →
      handleCallTool env ⟨"image_create_pyramid", a⟩ w = (errorResponse ("Input image not found: " ++ p), w)) ∧
    (∀ (env : Env) (a : Args) (w : World) (b q : String), a.base_image_path = some b →
      existsSyncFS w.fs (some b) = true → a.overlay_image_path = some q →
      existsSyncFS w.fs (some q) = false →
      handleCallTool env ⟨"image_composite", a⟩ w =
        (errorResponse ("Overlay image not found: " ++ q), w)) := by
  exact ⟨c8aux_image_info, c8aux_image_resize, c8aux_image_convert, c8aux_image_crop, c8aux_image_rotate, c8aux_image_flip, c8aux_image_blur, c8aux_image_sharpen, c8aux_image_adjust_brightness, c8aux_image_adjust_contrast, c8aux_image_adjust_saturation, c8aux_image_grayscale, c8aux_image_composite, c8aux_image_thumbnail, c8aux_image_extract_channel, c8aux_image_histogram, c8aux_image_morphology, c8aux_image_draw_line, c8aux_image_draw_circle, c8aux_image_edge_detection, c8aux_image_advanced_stats, c8aux_image_fft, c8aux_image_custom_convolution, c8aux_image_colorspace_convert, c8aux_image_add_noise, c8aux_image_perspective_transform, c8aux_image_texture_analysis, c8aux_image_flood_fill, c8aux_image_create_pyramid, c8aux_image_composite_overlay⟩

/-- Witness for C8 at a concrete missing input. -/
theorem C8_missing_input_no_effect_witness :
    handleCallTool envHealthy
      ⟨"image_resize", { input_path := some "missing.png", output_path := some "out.png" }⟩
      initialWorld =
      (errorResponse ("Input image not found: " ++ "missing.png"), initialWorld) :=
  C8_missing_input_no_effect.2.1 envHealthy
    { input_path := some "missing.png", output_path := some "out.png" }
    initialWorld "missing.png" rfl rfl

theorem existsSync_of_lookup {fs : FS} {p : String} {v : FileVal}
    (h : lookupFile fs p = some v) : existsSyncFS fs (some p) = true := by
  unfold existsSyncFS
  dsimp only
  rw [h]
  rfl

theorem lookupFile_addDir (fs : FS) (d p : String) :
    lookupFile (fsAddDir fs d) p = lookupFile fs p := rfl

theorem run_ensureDir_some {β : Type} (s : String) (f : Unit → M β) (w : World) :
    (ensureDirectoryExistsM (some s) >>= f) w =
      f () { w with fs := fsAddDir w.fs (jsDirname s) } := by
  simp only [run_bind]
  rfl

theorem run_readFile_some {β : Type} {p : String} {v : FileVal} (f : FileVal → M β) (w : World)
    (h : lookupFile w.fs p = some v) :
    (readFileM (some p) >>= f) w = f v w := by
  simp only [run_bind]
  unfold readFileM
  dsimp only
  rw [h]

theorem run_sharpToFile_some {β : Type} (env : Env) (v : FileVal) (s : String)
    (f : Unit → M β) (w : World) (h : env.sharpFail = none) :
    (sharpToFileM env v (some s) >>= f) w = f () { w with fs := fsWrite w.fs s v } := by
  simp only [run_bind]
  unfold sharpToFileM
  rw [h]

/-- C2 fails on the code: a contrast of 100, far above the declared maximum
3.0 in the image_adjust_contrast schema, is not rejected — the call succeeds
(no error flag) and the out-of-range value reaches the sharp backend
(`linear(100, -(128 * 100) + 128)` recorded in the written file). -/
theorem C2_counterexample :
    ((tools.find? (fun t => t.name = "image_adjust_contrast")).bind
        (fun t => (t.properties.lookup "contrast").bind PropSchema.maximum) = some 3) ∧
    ((3 : Rat) < 100) ∧
    (handleCallTool envHealthy
        ⟨"image_adjust_contrast",
          { input_path := some "in.png", output_path := some "out.png",
            contrast := some 100 }⟩ wOneFile).1.isError = false ∧
    lookupFile (handleCallTool envHealthy
        ⟨"image_adjust_contrast",
          { input_path := some "in.png", output_path := some "out.png",
            contrast := some 100 }⟩ wOneFile).2.fs "out.png" =
      some (.sharpOut (.raw 0) [.linearAB (some 100) (some (-(128 * 100) + 128))]) :=
  ⟨rfl, by norm_num, rfl, rfl⟩

/-- C2 amended: the dispatch layer performs no validation against the
declared schemas (they serve discovery only): for every contrast value —
also one violating the declared bounds — the argument is passed to the sharp
backend unchecked and the call succeeds, writing the output file with
`linear(contrast, -(128 * contrast) + 128)` applied. -/
theorem C2_amended_no_validation (env : Env) (a : Args) (w : World) (p out : String)
    (q : Rat) (v : FileVal)
    (hsharp : env.sharpFail = none)
    (hin : a.input_path = some p) (hout : a.output_path = some out)
    (hc : a.contrast = some q) (hv : lookupFile w.fs p = some v) :
    handleCallTool env ⟨"image_adjust_contrast", a⟩ w =
      (mkText ("Image contrast adjusted by " ++ jsNum q ++ ": " ++ out),
       { w with fs := fsWrite (fsAddDir w.fs (jsDirname out)) out
                        (.sharpOut v [.linearAB (some q) (some (-(128 * q) + 128))]) }) := by
  have hd : dispatchTool env ⟨"image_adjust_contrast", a⟩ w =
      .ok (mkText ("Image contrast adjusted by " ++ jsNum q ++ ": " ++ out))
        { w with fs := fsWrite (fsAddDir w.fs (jsDirname out)) out
                         (.sharpOut v [.linearAB (some q) (some (-(128 * q) + 128))]) } := by
    show caseImageAdjustContrast env a w = _
    unfold caseImageAdjustContrast
    rw [hin, hout, hc]
    rw [run_checkExists_ok _ _ _ w (existsSync_of_lookup hv)]
    rw [run_ensureDir_some]
    rw [run_readFile_some _ _ (by rw [lookupFile_addDir]; exact hv)]
    rw [run_sharpToFile_some _ _ _ _ _ hsharp]
    rfl
  unfold handleCallTool
  rw [hd]

/-- Witness for the amended C2 at contrast = 100. -/
theorem C2_amended_no_validation_witness :
    handleCallTool envHealthy ⟨"image_adjust_contrast",
      { input_path := some "in.png", output_path := some "out.png", contrast := some 100 }⟩
      wOneFile =
      (mkText ("Image contrast adjusted by " ++ jsNum 100 ++ ": " ++ "out.png"),
       { wOneFile with fs := fsWrite (fsAddDir wOneFile.fs (jsDirname "out.png")) "out.png"
                               (.sharpOut (.raw 0) [.linearAB (some 100) (some (-(128 * 100) + 128))]) }) :=
  C2_amended_no_validation envHealthy
    { input_path := some "in.png", output_path := some "out.png", contrast := some 100 }
    wOneFile "in.png" "out.png" 100 (.raw 0) rfl rfl rfl rfl rfl

/-- C9: a format value outside the declared enum is not rejected by
image_convert: the format switch matches no case, so no encoder step is
added, the input image is still re-encoded to the output path, and the
response is the success message naming the format with no error flag. -/
theorem C9_convert_unknown_format (env : Env) (a : Args) (w : World) (p out fmt : String)
    (v : FileVal)
    (hsharp : env.sharpFail = none)
    (hin : a.input_path = some p) (hout : a.output_path = some out)
    (hf : a.format = some fmt)
    (henum : fmt ∉ ["jpeg", "png", "webp", "tiff", "avif", "heif"])
    (hv : lookupFile w.fs p = some v) :
    handleCallTool env ⟨"image_convert", a⟩ w =
      (mkText ("Image converted to " ++ fmt ++ ": " ++ out),
       { w with fs := fsWrite (fsAddDir w.fs (jsDirname out)) out (.sharpOut v []) }) ∧
    ((tools.find? (fun t => t.name = "image_convert")).bind
        (fun t => (t.properties.lookup "format").bind PropSchema.enum) =
      some ["jpeg", "png", "webp", "tiff", "avif", "heif"]) := by
  refine ⟨?_, rfl⟩
  have hops : convertOps (some fmt) a.quality = [] := by
    simp only [List.mem_cons, List.not_mem_nil, or_false, not_or] at henum
    unfold convertOps
    split <;> simp_all
  have hd : dispatchTool env ⟨"image_convert", a⟩ w =
      .ok (mkText ("Image converted to " ++ fmt ++ ": " ++ out))
        { w with fs := fsWrite (fsAddDir w.fs (jsDirname out)) out (.sharpOut v []) } := by
    show caseImageConvert env a w = _
    unfold caseImageConvert
    rw [hin, hout, hf, hops]
    rw [run_checkExists_ok _ _ _ w (existsSync_of_lookup hv)]
    rw [run_ensureDir_some]
    rw [run_readFile_some _ _ (by rw [lookupFile_addDir]; exact hv)]
    rw [run_sharpToFile_some _ _ _ _ _ hsharp]
    rfl
  unfold handleCallTool
  rw [hd]

/-- Witness for C9 at the undeclared format bmp. -/
theorem C9_convert_unknown_format_witness :
    handleCallTool envHealthy ⟨"image_convert",
      { input_path := some "in.png", output_path := some "out.bmp", format := some "bmp" }⟩
      wOneFile =
      (mkText ("Image converted to " ++ "bmp" ++ ": " ++ "out.bmp"),
       { wOneFile with fs := fsWrite (fsAddDir wOneFile.fs (jsDirname "out.bmp")) "out.bmp"
                            ((FileVal.raw 0).sharpOut []) }) :=
  (C9_convert_unknown_format envHealthy
    { input_path := some "in.png", output_path := some "out.bmp", format := some "bmp" }
    wOneFile "in.png" "out.bmp" "bmp" (.raw 0) rfl rfl rfl rfl (by decide) rfl).1

theorem digitChar_inj {d e : Nat} (hd : d < 10) (he : e < 10)
    (h : Char.ofNat (48 + d) = Char.ofNat (48 + e)) : d = e := by
  interval_cases d <;> interval_cases e <;> simp_all

theorem digitsMap_inj : ∀ (l1 l2 : List Nat), (∀ d ∈ l1, d < 10) → (∀ d ∈ l2, d < 10) →
    l1.map (fun d => Char.ofNat (48 + d)) = l2.map (fun d => Char.ofNat (48 + d)) → l1 = l2 := by
  intro l1
  induction l1 with
  | nil =>
      intro l2 _ _ h
      cases l2 with
      | nil => rfl
      | cons b t2 => simp at h
  | cons a t ih =>
      intro l2 h1 h2 h
      cases l2 with
      | nil => simp at h
      | cons b t2 =>
          simp only [List.map_cons, List.cons.injEq] at h
          have hab : a = b := digitChar_inj (h1 a (by simp)) (h2 b (by simp)) h.1
          rw [hab, ih t2 (fun d hd => h1 d (by simp [hd])) (fun d hd => h2 d (by simp [hd])) h.2]

theorem natStr_ne_zero_str {n : Nat} (hn : n ≠ 0) : natStr n ≠ "0" := by
  intro h
  unfold natStr at h
  rw [if_neg hn] at h
  have hl : (Nat.digits 10 n).reverse.map (fun d => Char.ofNat (48 + d)) = ['0'] := by
    have := congrArg String.toList h
    rwa [List.toList_asString] at this
  have hdig : ∀ d ∈ (Nat.digits 10 n).reverse, d < 10 := by
    intro d hd
    exact Nat.digits_lt_base (by norm_num) (List.mem_reverse.mp hd)
  have h0 : (Nat.digits 10 n).reverse = [0] := by
    have h01 : ([0] : List Nat).map (fun d => Char.ofNat (48 + d)) = ['0'] := by decide
    exact digitsMap_inj _ [0] hdig (by intro d hd; simp at hd; omega) (hl.trans h01.symm)
  have : Nat.digits 10 n = [0] := by
    have := congrArg List.reverse h0
    simpa using this
  have hzero := Nat.ofDigits_digits 10 n
  rw [this] at hzero
  simp [Nat.ofDigits] at hzero
  exact hn hzero.symm

theorem natStr_injective {m n : Nat} (h : natStr m = natStr n) : m = n := by
  by_cases hm : m = 0 <;> by_cases hn : n = 0
  · rw [hm, hn]
  · exfalso
    rw [hm] at h
    exact natStr_ne_zero_str hn h.symm
  · exfalso
    rw [hn] at h
    exact natStr_ne_zero_str hm h
  · unfold natStr at h
    rw [if_neg hm, if_neg hn] at h
    have hlist := List.asString_inj.mp h
    have hdm : ∀ d ∈ (Nat.digits 10 m).reverse, d < 10 :=
      fun d hd => Nat.digits_lt_base (by norm_num) (List.mem_reverse.mp hd)
    have hdn : ∀ d ∈ (Nat.digits 10 n).reverse, d < 10 :=
      fun d hd => Nat.digits_lt_base (by norm_num) (List.mem_reverse.mp hd)
    have hrev := digitsMap_inj _ _ hdm hdn hlist
    have hdig : Nat.digits 10 m = Nat.digits 10 n := by
      have := congrArg List.reverse hrev
      simpa using this
    exact Nat.digits.injective 10 hdig

theorem lookup_filter_ne (l : List (String × FileVal)) (p q : String) (h : q ≠ p) :
    (l.filter (fun e => e.1 != p)).lookup q = l.lookup q := by
  induction l with
  | nil => rfl
  | cons e t ih =>
      by_cases hp : e.1 = p
      · have hb : (e.1 != p) = false := by simp [hp]
        have hqe : (q == e.1) = false := by simp [hp, h]
        simp [List.filter_cons, hb, List.lookup, hqe, ih]
      · have hb : (e.1 != p) = true := by simp [hp]
        by_cases hq : q = e.1
        · simp [List.filter_cons, hb, List.lookup, hq]
        · simp [List.filter_cons, hb, List.lookup, hq, ih]

theorem lookupFile_fsWrite_self (fs : FS) (p : String) (v : FileVal) :
    lookupFile (fsWrite fs p v) p = some v := by
  unfold lookupFile fsWrite
  simp [List.lookup]

theorem lookupFile_fsWrite_ne (fs : FS) (p q : String) (v : FileVal) (h : q ≠ p) :
    lookupFile (fsWrite fs p v) q = lookupFile fs q := by
  unfold lookupFile fsWrite
  simp only [List.lookup, show (q == p) = false from beq_eq_false_iff_ne.mpr h]
  exact lookup_filter_ne fs.files p q h

theorem levelPath_inj {dir : String} {j k : Nat}
    (h : dir ++ "/level_" ++ natStr j ++ ".jpg" = dir ++ "/level_" ++ natStr k ++ ".jpg") :
    j = k := by
  apply natStr_injective
  have hd := congrArg String.data h
  simp only [String.data_append, List.append_assoc] at hd
  have h1 := List.append_cancel_left hd
  have h2 := List.append_cancel_left h1
  have h3 := List.append_cancel_right h2
  exact String.ext h3

/-- Denotation of the pyramid loop's filesystem effect. -/
def pyramidFS (v : FileVal) (dir : String) (sf : Rat) :
    Nat → Nat → Rat → Rat → FS → FS
  | _, 0, _, _, fs => fs
  | level, fuel + 1, cw, ch, fs =>
      pyramidFS v dir sf (level + 1) fuel (cw * sf) (ch * sf)
        (fsWrite fs (dir ++ "/level_" ++ natStr level ++ ".jpg")
          (.sharpOut v [.resizeWH (Int.floor cw) (Int.floor ch)]))

theorem pyramidFS_lookup_other (v : FileVal) (dir : String) (sf : Rat) :
    ∀ (fuel level : Nat) (cw ch : Rat) (fs : FS) (q : String),
      (∀ j, level ≤ j → j < level + fuel → q ≠ dir ++ "/level_" ++ natStr j ++ ".jpg") →
      lookupFile (pyramidFS v dir sf level fuel cw ch fs) q = lookupFile fs q := by
  intro fuel
  induction fuel with
  | zero => intro level cw ch fs q _; rfl
  | succ n ih =>
      intro level cw ch fs q hq
      simp only [pyramidFS]
      rw [ih (level + 1) (cw * sf) (ch * sf) _ q (fun j h1 h2 => hq j (by omega) (by omega))]
      exact lookupFile_fsWrite_ne _ _ _ _ (hq level (by omega) (by omega))

theorem pyramidFS_lookup (v : FileVal) (dir : String) (sf : Rat) :
    ∀ (fuel level : Nat) (cw ch : Rat) (fs : FS) (k : Nat), k < fuel →
      lookupFile (pyramidFS v dir sf level fuel cw ch fs)
          (dir ++ "/level_" ++ natStr (level + k) ++ ".jpg") =
        some (.sharpOut v [.resizeWH (Int.floor (cw * sf ^ k)) (Int.floor (ch * sf ^ k))]) := by
  intro fuel
  induction fuel with
  | zero => intro level cw ch fs k hk; omega
  | succ n ih =>
      intro level cw ch fs k hk
      simp only [pyramidFS]
      cases k with
      | zero =>
          rw [pyramidFS_lookup_other v dir sf n (level + 1) (cw * sf) (ch * sf) _ _
            (fun j h1 h2 hcontra => by
              have := levelPath_inj hcontra
              omega)]
          simp only [Nat.add_zero, pow_zero, mul_one]
          exact lookupFile_fsWrite_self _ _ _
      | succ m =>
          have hidx : level + (m + 1) = (level + 1) + m := by omega
          have h2 : cw * sf ^ (m + 1) = (cw * sf) * sf ^ m := by ring
          have h3 : ch * sf ^ (m + 1) = (ch * sf) * sf ^ m := by ring
          rw [hidx, h2, h3]
          exact ih (level + 1) (cw * sf) (ch * sf) _ m (by omega)

theorem jsLoopCount_natCast (n : Nat) : jsLoopCount (n : Rat) = n := by
  unfold jsLoopCount
  rw [Int.ceil_natCast]
  exact Int.toNat_natCast n

theorem run_sharpMetadata {β : Type} (env : Env) (v : FileVal) (f : Rat × Rat → M β)
    (w : World) (h : env.sharpFail = none) :
    (sharpMetadataM env v >>= f) w = f (env.metaDims v) w := by
  unfold sharpMetadataM sharpGateM
  simp only [run_bind]
  rw [h]
  rfl

/-- Denotation of the pyramid loop's entry list. -/
def pyramidEntries (dir : String) (sf : Rat) : Nat → Nat → Rat → Rat → List PyrEntry
  | _, 0, _, _ => []
  | level, fuel + 1, cw, ch =>
      { level := level, path := dir ++ "/level_" ++ natStr level ++ ".jpg",
        dims := intStr (Int.floor cw) ++ "x" ++ intStr (Int.floor ch) } ::
      pyramidEntries dir sf (level + 1) fuel (cw * sf) (ch * sf)

theorem range_succ_map_shift {α : Type} (g : Nat → α) (n : Nat) :
    (List.range (n + 1)).map g = g 0 :: (List.range n).map (fun i => g (i + 1)) := by
  rw [List.range_succ_eq_map, List.map_cons, List.map_map]
  rfl

theorem pyramidEntries_eq (dir : String) (sf : Rat) :
    ∀ (fuel level : Nat) (cw ch : Rat),
      pyramidEntries dir sf level fuel cw ch =
        (List.range fuel).map (fun i =>
          { level := level + i, path := dir ++ "/level_" ++ natStr (level + i) ++ ".jpg",
            dims := intStr (Int.floor (cw * sf ^ i)) ++ "x" ++
              intStr (Int.floor (ch * sf ^ i)) }) := by
  intro fuel
  induction fuel with
  | zero => intro level cw ch; rfl
  | succ n ih =>
      intro level cw ch
      simp only [pyramidEntries]
      rw [ih, range_succ_map_shift]
      congr 1
      · simp
      · apply List.map_congr_left
        intro i _
        have h1 : level + 1 + i = level + (i + 1) := by omega
        have h2 : cw * sf * sf ^ i = cw * sf ^ (i + 1) := by ring
        have h3 : ch * sf * sf ^ i = ch * sf ^ (i + 1) := by ring
        rw [h1, h2, h3]

theorem pyramidLoop_spec (env : Env) (v : FileVal) (dir : String) (sf : Rat)
    (hsharp : env.sharpFail = none) :
    ∀ (fuel level : Nat) (cw ch : Rat) (acc : List PyrEntry) (w : World),
      pyramidLoop env v dir sf level fuel cw ch acc w =
        .ok (acc.reverse ++ pyramidEntries dir sf level fuel cw ch)
          { w with fs := pyramidFS v dir sf level fuel cw ch w.fs } := by
  intro fuel
  induction fuel with
  | zero =>
      intro level cw ch acc w
      simp only [pyramidLoop, pyramidFS, pyramidEntries, run_pure, List.append_nil]
  | succ n ih =>
      intro level cw ch acc w
      simp only [pyramidLoop, pyramidFS, pyramidEntries]
      rw [run_sharpToFile_some env _ _ _ w hsharp]
      rw [ih]
      rw [List.reverse_cons, List.append_assoc, List.singleton_append]

theorem run_bind_ok {α β : Type} {x : M α} {aa : α} {w w' : World} (f : α → M β)
    (h : x w = .ok aa w') : (x >>= f) w = f aa w' := by
  simp only [run_bind]
  rw [h]

/-- C10: image_create_pyramid on an existing input whose metadata dimensions
are w0 by h0, with levels = n and scale_factor = s, writes exactly the n
files level_0.jpg through level_{n-1}.jpg into output_dir — level k holding
the input resized to floor(w0 * s^k) by floor(h0 * s^k) — leaves every other
path unchanged, and returns the success text listing the n levels in
ascending order of k. -/
theorem C10_create_pyramid (env : Env) (a : Args) (w : World) (p dir : String)
    (n : Nat) (s : Rat) (v : FileVal) (w0 h0 : Rat)
    (hsharp : env.sharpFail = none)
    (hin : a.input_path = some p) (hdir : a.output_dir = some dir)
    (hlev : a.levels = some (n : Rat)) (hs : a.scale_factor = some s)
    (hv : lookupFile w.fs p = some v) (hmeta : env.metaDims v = (w0, h0)) :
    (handleCallTool env ⟨"image_create_pyramid", a⟩ w).1 =
      mkText ("✨ Image pyramid created with " ++ jsNum (n : Rat) ++ " levels:\n" ++
        pyrJson ((List.range n).map (fun k =>
          { level := k, path := dir ++ "/level_" ++ natStr k ++ ".jpg",
            dims := intStr (Int.floor (w0 * s ^ k)) ++ "x" ++
              intStr (Int.floor (h0 * s ^ k)) }))) ∧
    (∀ k, k < n →
      lookupFile (handleCallTool env ⟨"image_create_pyramid", a⟩ w).2.fs
          (dir ++ "/level_" ++ natStr k ++ ".jpg") =
        some (.sharpOut v [.resizeWH (Int.floor (w0 * s ^ k)) (Int.floor (h0 * s ^ k))])) ∧
    (∀ q : String, (∀ k, k < n → q ≠ dir ++ "/level_" ++ natStr k ++ ".jpg") →
      lookupFile (handleCallTool env ⟨"image_create_pyramid", a⟩ w).2.fs q =
        lookupFile w.fs q) := by
  have hd : dispatchTool env ⟨"image_create_pyramid", a⟩ w =
      .ok (mkText ("✨ Image pyramid created with " ++ jsNum (n : Rat) ++ " levels:\n" ++
            pyrJson (pyramidEntries dir s 0 n w0 h0)))
        { w with fs := pyramidFS v dir s 0 n w0 h0 (fsAddDir w.fs (jsDirname dir)) } := by
    show caseImageCreatePyramid env a w = _
    unfold caseImageCreatePyramid
    rw [hin, hdir, hlev, hs]
    rw [run_checkExists_ok _ _ _ w (existsSync_of_lookup hv)]
    rw [run_ensureDir_some]
    simp only [run_tryCatch]
    rw [run_readFile_some _ _ (by rw [lookupFile_addDir]; exact hv)]
    rw [run_sharpMetadata env v _ _ hsharp]
    rw [hmeta]
    dsimp only [jsStrU, Option.getD]
    rw [jsLoopCount_natCast]
    rw [run_bind_ok _ (pyramidLoop_spec env v dir s hsharp n 0 w0 h0 [] _)]
    rfl
  have hcall : handleCallTool env ⟨"image_create_pyramid", a⟩ w =
      (mkText ("✨ Image pyramid created with " ++ jsNum (n : Rat) ++ " levels:\n" ++
          pyrJson (pyramidEntries dir s 0 n w0 h0)),
       { w with fs := pyramidFS v dir s 0 n w0 h0 (fsAddDir w.fs (jsDirname dir)) }) := by
    unfold handleCallTool
    rw [hd]
  rw [hcall]
  refine ⟨?_, ?_, ?_⟩
  · rw [pyramidEntries_eq]
    simp only [Nat.zero_add]
  · intro k hk
    have h := pyramidFS_lookup v dir s n 0 w0 h0 (fsAddDir w.fs (jsDirname dir)) k hk
    simpa using h
  · intro q hq
    have h := pyramidFS_lookup_other v dir s n 0 w0 h0 (fsAddDir w.fs (jsDirname dir)) q
      (fun j _ hj hcontra => hq j (by omega) hcontra)
    rw [h]
    exact lookupFile_addDir _ _ _

/-- Witness for C10: two levels at scale factor 1/2 from a 100 by 50 input. -/
theorem C10_create_pyramid_witness :
    lookupFile (handleCallTool envHealthy ⟨"image_create_pyramid",
        { input_path := some "in.png", output_dir := some "pyr",
          levels := some ((2 : Nat) : Rat), scale_factor := some (1/2) }⟩ wOneFile).2.fs
        ("pyr" ++ "/level_" ++ natStr 1 ++ ".jpg") =
      some (.sharpOut (.raw 0) [.resizeWH (Int.floor ((100 : Rat) * (1/2) ^ 1))
        (Int.floor ((50 : Rat) * (1/2) ^ 1))]) :=
  (C10_create_pyramid envHealthy
    { input_path := some "in.png", output_dir := some "pyr",
      levels := some ((2 : Nat) : Rat), scale_factor := some (1/2) }
    wOneFile "in.png" "pyr" 2 (1/2) (.raw 0) 100 50
    rfl rfl rfl rfl rfl rfl rfl).2.1 1 (by decide)

/-- A computation that never changes the filesystem. -/
def FsFixed {α : Type} (m : M α) : Prop := ∀ w, (resWorld (m w)).fs = w.fs

/-- A computation that has not changed the filesystem whenever it throws. -/
def FsStableErr {α : Type} (m : M α) : Prop := ∀ w e w', m w = .err e w' → w'.fs = w.fs

theorem fsStableErr_of_fsFixed {α : Type} (m : M α) (h : FsFixed m) : FsStableErr m := by
  intro w e w' hm
  have := h w
  rw [hm] at this
  exact this

theorem fsFixed_pure {α : Type} (a : α) : FsFixed (pure a : M α) := fun _ => rfl

theorem fsFixed_throw {α : Type} (e : String) : FsFixed (throwM e : M α) := fun _ => rfl

theorem fsFixed_bind {α β : Type} {x : M α} {f : α → M β} (hx : FsFixed x)
    (hf : ∀ a, FsFixed (f a)) : FsFixed (x >>= f) := by
  intro w
  have h1 := hx w
  simp only [run_bind]
  cases hxw : x w with
  | ok a w' =>
      rw [hxw] at h1
      exact (hf a w').trans h1
  | err e w' => rw [hxw] at h1; exact h1

theorem fsFixed_initVips (env : Env) : FsFixed (initVipsM env) := by
  intro w
  unfold initVipsM
  cases w.vips with
  | some h => rfl
  | none => cases env.vipsLoad <;> rfl

theorem fsFixed_vipsGate (env : Env) : FsFixed (vipsGateM env) := by
  intro w
  unfold vipsGateM
  cases env.vipsFail <;> rfl

theorem fsFixed_sharpGate (env : Env) : FsFixed (sharpGateM env) := by
  intro w
  unfold sharpGateM
  cases env.sharpFail <;> rfl

theorem fsFixed_readFile (p : Option String) : FsFixed (readFileM p) := by
  intro w
  unfold readFileM
  split
  · rfl
  · split <;> rfl

theorem fsFixed_vipsNewFromFile (env : Env) (p : Option String) :
    FsFixed (vipsNewFromFileM env p) := by
  unfold vipsNewFromFileM
  exact fsFixed_bind (fsFixed_vipsGate env) (fun _ => fsFixed_readFile p)

theorem fsFixed_jsArrayLen (q : Rat) : FsFixed (jsArrayLenM q) := by
  intro w
  unfold jsArrayLenM
  split <;> rfl

theorem fsFixed_cornerCoord (cs : List (List Rat)) (i j : Nat) :
    FsFixed (cornerCoord cs i j) := by
  unfold cornerCoord
  split
  · exact fsFixed_throw _
  · exact fsFixed_pure _

theorem fsFixed_cornersM (corners : Option (List (List Rat))) : FsFixed (cornersM corners) := by
  unfold cornersM
  split
  · exact fsFixed_pure _
  · exact fsFixed_throw _

theorem fsFixed_kernelArgM (kernel : Option (List (List Rat))) : FsFixed (kernelArgM kernel) := by
  unfold kernelArgM
  split
  · exact fsFixed_pure _
  · exact fsFixed_throw _

theorem fsFixed_edgeKernelM (method : Option String) : FsFixed (edgeKernelM method) := by
  unfold edgeKernelM
  split
  · exact fsFixed_pure _
  · exact fsFixed_pure _
  · exact fsFixed_pure _
  · exact fsFixed_pure _
  · exact fsFixed_throw _

theorem fsFixed_noiseOpM (env : Env) (noise_type : Option String) (amount : Rat)
    (dims : Rat × Rat) : FsFixed (noiseOpM env noise_type amount dims) := by
  unfold noiseOpM
  split
  · exact fsFixed_pure _
  · exact fsFixed_pure _
  · exact fsFixed_pure _
  · exact fsFixed_throw _

theorem fsStableErr_bind_fixed {α β : Type} {x : M α} {f : α → M β}
    (hx : FsFixed x) (hf : ∀ a, FsStableErr (f a)) : FsStableErr (x >>= f) := by
  intro w e w' h
  have h1 := hx w
  simp only [run_bind] at h
  cases hxw : x w with
  | ok a wa =>
      rw [hxw] at h h1
      exact (hf a wa e w' h).trans h1
  | err e2 w2 =>
      rw [hxw] at h h1
      cases h
      exact h1

theorem fsStableErr_write_pure {β : Type} (env : Env) (v : FileVal) (p : Option String)
    (r : β) : FsStableErr (vipsWriteToFileM env v p >>= fun _ => pure r) := by
  intro w e w' h
  simp only [run_bind] at h
  unfold vipsWriteToFileM at h
  cases hv : env.vipsFail with
  | some m => rw [hv] at h; cases h; rfl
  | none =>
      rw [hv] at h
      cases p with
      | none => cases h; rfl
      | some s => cases h

theorem tryCatch_err_stable {α : Type} {x : M α} {h : String → M α} {w : World} {e : String}
    {w' : World} (hst : FsStableErr x) (hcontra : tryCatchM x h w = .err e w') :
    ∃ e1 w1, x w = .err e1 w1 ∧ w1.fs = w.fs ∧ h e1 w1 = .err e w' := by
  simp only [run_tryCatch] at hcontra
  cases hb : x w with
  | ok a w1 => rw [hb] at hcontra; cases hcontra
  | err e1 w1 =>
      rw [hb] at hcontra
      exact ⟨e1, w1, rfl, hst w e1 w1 hb, hcontra⟩

theorem isError_false_of_dispatch_ok (env : Env) (req : ToolRequest) (w : World)
    (h : ∀ e w', dispatchTool env req w ≠ .err e w') :
    (handleCallTool env req w).1.isError = false := by
  have hs := shapeOk_dispatch env req w
  unfold handleCallTool
  cases hd : dispatchTool env req w with
  | ok r w' => rw [hd] at hs; exact hs.2
  | err e w' => exact absurd hd (h e w')

theorem run_sharpGate_ok {β : Type} (env : Env) (f : Unit → M β) (w : World)
    (h : env.sharpFail = none) : (sharpGateM env >>= f) w = f () w := by
  unfold sharpGateM
  simp only [run_bind]
  rw [h]

theorem run_sharpToFile_fail {β : Type} (env : Env) (v : FileVal) (p : Option String)
    (f : Unit → M β) (w : World) {m : String} (h : env.sharpFail = some m) :
    (sharpToFileM env v p >>= f) w = .err m w := by
  simp only [run_bind]
  unfold sharpToFileM
  rw [h]

theorem c1aux_morphology (env : Env) (a : Args) (w : World) (p out : String) (v : FileVal)
    (hsharp : env.sharpFail = none) (hin : a.input_path = some p)
    (hout : a.output_path = some out) (hv : lookupFile w.fs p = some v) :
    (handleCallTool env ⟨"image_morphology", a⟩ w).1.isError = false := by
  apply isError_false_of_dispatch_ok
  intro e w' hcontra
  rw [show dispatchTool env ⟨"image_morphology", a⟩ w = caseImageMorphology env a w from rfl]
    at hcontra
  unfold caseImageMorphology at hcontra
  rw [hin, hout] at hcontra
  rw [run_checkExists_ok _ _ _ w (existsSync_of_lookup hv)] at hcontra
  rw [run_ensureDir_some] at hcontra
  obtain ⟨e1, w1, hbody, hfs, hhand⟩ := tryCatch_err_stable (by
    repeat' first
      | exact fsStableErr_write_pure _ _ _ _
      | exact fsStableErr_of_fsFixed _ (fsFixed_pure _)
      | apply fsStableErr_bind_fixed
      | exact fsFixed_initVips _
      | exact fsFixed_jsArrayLen _
      | exact fsFixed_vipsGate _
      | exact fsFixed_vipsNewFromFile _ _
      | intro _) hcontra
  have hv1 : lookupFile w1.fs p = some v := by rw [hfs]; exact hv
  rw [run_readFile_some _ _ hv1] at hhand
  rw [run_sharpToFile_some _ _ _ _ _ hsharp] at hhand
  simp only [run_pure] at hhand
  cases hhand

theorem c1aux_advanced_stats (env : Env) (a : Args) (w : World) (p : String) (v : FileVal)
    (hsharp : env.sharpFail = none) (hin : a.input_path = some p)
    (hv : lookupFile w.fs p = some v) :
    (handleCallTool env ⟨"image_advanced_stats", a⟩ w).1.isError = false := by
  apply isError_false_of_dispatch_ok
  intro e w' hcontra
  rw [show dispatchTool env ⟨"image_advanced_stats", a⟩ w = caseImageAdvancedStats env a w
    from rfl] at hcontra
  unfold caseImageAdvancedStats at hcontra
  rw [hin] at hcontra
  rw [run_checkExists_ok _ _ _ w (existsSync_of_lookup hv)] at hcontra
  obtain ⟨e1, w1, hbody, hfs, hhand⟩ := tryCatch_err_stable (by
    repeat' first
      | exact fsStableErr_of_fsFixed _ (fsFixed_pure _)
      | apply fsStableErr_bind_fixed
      | exact fsFixed_initVips _
      | exact fsFixed_vipsGate _
      | exact fsFixed_vipsNewFromFile _ _
      | intro _) hcontra
  have hv1 : lookupFile w1.fs p = some v := by rw [hfs]; exact hv
  rw [run_readFile_some _ _ hv1] at hhand
  rw [run_sharpGate_ok env _ _ hsharp] at hhand
  simp only [run_pure] at hhand
  cases hhand

theorem fsStableErr_bind_pure_eq {α β : Type} {x : M α} {aa : α} {f : α → M β}
    (hx : x = pure aa) (hf : FsStableErr (f aa)) : FsStableErr (x >>= f) := by
  subst hx
  intro w e w' h
  simp only [run_bind, run_pure] at h
  exact hf w e w' h

theorem c1aux_draw_line (env : Env) (a : Args) (w : World) (p out : String) (v : FileVal)
    (hsharp : env.sharpFail = none) (hin : a.input_path = some p)
    (hout : a.output_path = some out) (hv : lookupFile w.fs p = some v) :
    (handleCallTool env ⟨"image_draw_line", a⟩ w).1.isError = false := by
  apply isError_false_of_dispatch_ok
  intro e w' hcontra
  rw [show dispatchTool env ⟨"image_draw_line", a⟩ w = caseImageDrawLine env a w from rfl]
    at hcontra
  unfold caseImageDrawLine at hcontra
  rw [hin, hout] at hcontra
  rw [run_checkExists_ok _ _ _ w (existsSync_of_lookup hv)] at hcontra
  rw [run_ensureDir_some] at hcontra
  obtain ⟨e1, w1, hbody, hfs, hhand⟩ := tryCatch_err_stable (by
    repeat' first
      | exact fsStableErr_write_pure _ _ _ _
      | exact fsStableErr_of_fsFixed _ (fsFixed_pure _)
      | apply fsStableErr_bind_fixed
      | exact fsFixed_initVips _
      | exact fsFixed_vipsGate _
      | exact fsFixed_vipsNewFromFile _ _
      | intro _) hcontra
  have hv1 : lookupFile w1.fs p = some v := by rw [hfs]; exact hv
  rw [run_readFile_some _ _ hv1] at hhand
  rw [run_sharpMetadata env v _ _ hsharp] at hhand
  rw [run_sharpToFile_some _ _ _ _ _ hsharp] at hhand
  simp only [run_pure] at hhand
  cases hhand

theorem c1aux_edge_detection (env : Env) (a : Args) (w : World) (p out : String) (v : FileVal)
    (hsharp : env.sharpFail = none) (hin : a.input_path = some p)
    (hout : a.output_path = some out) (hv : lookupFile w.fs p = some v) :
    (handleCallTool env ⟨"image_edge_detection", a⟩ w).1.isError = false := by
  apply isError_false_of_dispatch_ok
  intro e w' hcontra
  rw [show dispatchTool env ⟨"image_edge_detection", a⟩ w = caseImageEdgeDetection env a w
    from rfl] at hcontra
  unfold caseImageEdgeDetection at hcontra
  rw [hin, hout] at hcontra
  rw [run_checkExists_ok _ _ _ w (existsSync_of_lookup hv)] at hcontra
  rw [run_ensureDir_some] at hcontra
  obtain ⟨e1, w1, hbody, hfs, hhand⟩ := tryCatch_err_stable (by
    repeat' first
      | exact fsStableErr_write_pure _ _ _ _
      | exact fsStableErr_of_fsFixed _ (fsFixed_pure _)
      | apply fsStableErr_bind_fixed
      | exact fsFixed_initVips _
      | exact fsFixed_vipsGate _
      | exact fsFixed_vipsNewFromFile _ _
      | exact fsFixed_edgeKernelM _
      | intro _) hcontra
  have hv1 : lookupFile w1.fs p = some v := by rw [hfs]; exact hv
  rw [run_readFile_some _ _ hv1] at hhand
  rw [run_sharpToFile_some _ _ _ _ _ hsharp] at hhand
  simp only [run_pure] at hhand
  cases hhand

theorem c1aux_fft (env : Env) (a : Args) (w : World) (p out : String) (v : FileVal)
    (hsharp : env.sharpFail = none) (hin : a.input_path = some p)
    (hout : a.output_path = some out) (hv : lookupFile w.fs p = some v) :
    (handleCallTool env ⟨"image_fft", a⟩ w).1.isError = false := by
  apply isError_false_of_dispatch_ok
  intro e w' hcontra
  rw [show dispatchTool env ⟨"image_fft", a⟩ w = caseImageFft env a w from rfl] at hcontra
  unfold caseImageFft at hcontra
  rw [hin, hout] at hcontra
  rw [run_checkExists_ok _ _ _ w (existsSync_of_lookup hv)] at hcontra
  rw [run_ensureDir_some] at hcontra
  obtain ⟨e1, w1, hbody, hfs, hhand⟩ := tryCatch_err_stable (by
    repeat' first
      | exact fsStableErr_write_pure _ _ _ _
      | exact fsStableErr_of_fsFixed _ (fsFixed_pure _)
      | apply fsStableErr_bind_fixed
      | exact fsFixed_initVips _
      | exact fsFixed_vipsGate _
      | exact fsFixed_vipsNewFromFile _ _
      | intro _) hcontra
  have hv1 : lookupFile w1.fs p = some v := by rw [hfs]; exact hv
  rw [run_readFile_some _ _ hv1] at hhand
  rw [run_sharpToFile_some _ _ _ _ _ hsharp] at hhand
  simp only [run_pure] at hhand
  cases hhand

theorem c1aux_custom_convolution (env : Env) (a : Args) (w : World) (p out : String)
    (v : FileVal) (r : List Rat) (t : List (List Rat))
    (hsharp : env.sharpFail = none) (hin : a.input_path = some p)
    (hout : a.output_path = some out) (hk : a.kernel = some (r :: t))
    (hv : lookupFile w.fs p = some v) :
    (handleCallTool env ⟨"image_custom_convolution", a⟩ w).1.isError = false := by
  apply isError_false_of_dispatch_ok
  intro e w' hcontra
  rw [show dispatchTool env ⟨"image_custom_convolution", a⟩ w =
    caseImageCustomConvolution env a w from rfl] at hcontra
  unfold caseImageCustomConvolution at hcontra
  rw [hin, hout, hk] at hcontra
  rw [run_checkExists_ok _ _ _ w (existsSync_of_lookup hv)] at hcontra
  rw [run_ensureDir_some] at hcontra
  obtain ⟨e1, w1, hbody, hfs, hhand⟩ := tryCatch_err_stable (by
    repeat' first
      | exact fsStableErr_write_pure _ _ _ _
      | exact fsStableErr_of_fsFixed _ (fsFixed_pure _)
      | apply fsStableErr_bind_pure_eq rfl
      | apply fsStableErr_bind_fixed
      | exact fsFixed_initVips _
      | exact fsFixed_vipsGate _
      | exact fsFixed_vipsNewFromFile _ _
      | intro _) hcontra
  have hv1 : lookupFile w1.fs p = some v := by rw [hfs]; exact hv
  dsimp only at hhand
  rw [run_readFile_some _ _ hv1] at hhand
  rw [run_sharpToFile_some _ _ _ _ _ hsharp] at hhand
  simp only [run_pure] at hhand
  cases hhand

theorem c1aux_colorspace (env : Env) (a : Args) (w : World) (p out : String) (v : FileVal)
    (hsharp : env.sharpFail = none) (hin : a.input_path = some p)
    (hout : a.output_path = some out) (hv : lookupFile w.fs p = some v) :
    (handleCallTool env ⟨"image_colorspace_convert", a⟩ w).1.isError = false := by
  apply isError_false_of_dispatch_ok
  intro e w' hcontra
  rw [show dispatchTool env ⟨"image_colorspace_convert", a⟩ w =
    caseImageColorspaceConvert env a w from rfl] at hcontra
  unfold caseImageColorspaceConvert at hcontra
  rw [hin, hout] at hcontra
  rw [run_checkExists_ok _ _ _ w (existsSync_of_lookup hv)] at hcontra
  rw [run_ensureDir_some] at hcontra
  obtain ⟨e1, w1, hbody, hfs, hhand⟩ := tryCatch_err_stable (by
    repeat' first
      | exact fsStableErr_write_pure _ _ _ _
      | exact fsStableErr_of_fsFixed _ (fsFixed_pure _)
      | apply fsStableErr_bind_fixed
      | exact fsFixed_initVips _
      | exact fsFixed_vipsGate _
      | exact fsFixed_vipsNewFromFile _ _
      | intro _) hcontra
  have hv1 : lookupFile w1.fs p = some v := by rw [hfs]; exact hv
  rw [run_readFile_some _ _ hv1] at hhand
  rw [run_sharpToFile_some _ _ _ _ _ hsharp] at hhand
  simp only [run_pure] at hhand
  cases hhand

theorem c1aux_add_noise (env : Env) (a : Args) (w : World) (p out : String) (v : FileVal)
    (hsharp : env.sharpFail = none) (hin : a.input_path = some p)
    (hout : a.output_path = some out) (hv : lookupFile w.fs p = some v) :
    (handleCallTool env ⟨"image_add_noise", a⟩ w).1.isError = false := by
  apply isError_false_of_dispatch_ok
  intro e w' hcontra
  rw [show dispatchTool env ⟨"image_add_noise", a⟩ w = caseImageAddNoise env a w from rfl]
    at hcontra
  unfold caseImageAddNoise at hcontra
  rw [hin, hout] at hcontra
  rw [run_checkExists_ok _ _ _ w (existsSync_of_lookup hv)] at hcontra
  rw [run_ensureDir_some] at hcontra
  obtain ⟨e1, w1, hbody, hfs, hhand⟩ := tryCatch_err_stable (by
    repeat' first
      | exact fsStableErr_write_pure _ _ _ _
      | exact fsStableErr_of_fsFixed _ (fsFixed_pure _)
      | apply fsStableErr_bind_fixed
      | exact fsFixed_initVips _
      | exact fsFixed_vipsGate _
      | exact fsFixed_vipsNewFromFile _ _
      | exact fsFixed_noiseOpM _ _ _ _
      | intro _) hcontra
  have hv1 : lookupFile w1.fs p = some v := by rw [hfs]; exact hv
  rw [run_readFile_some _ _ hv1] at hhand
  rw [run_sharpToFile_some _ _ _ _ _ hsharp] at hhand
  simp only [run_pure] at hhand
  cases hhand

theorem c1aux_perspective (env : Env) (a : Args) (w : World) (p out : String) (v : FileVal)
    (hsharp : env.sharpFail = none) (hin : a.input_path = some p)
    (hout : a.output_path = some out) (hv : lookupFile w.fs p = some v) :
    (handleCallTool env ⟨"image_perspective_transform", a⟩ w).1.isError = false := by
  apply isError_false_of_dispatch_ok
  intro e w' hcontra
  rw [show dispatchTool env ⟨"image_perspective_transform", a⟩ w =
    caseImagePerspectiveTransform env a w from rfl] at hcontra
  unfold caseImagePerspectiveTransform at hcontra
  rw [hin, hout] at hcontra
  rw [run_checkExists_ok _ _ _ w (existsSync_of_lookup hv)] at hcontra
  rw [run_ensureDir_some] at hcontra
  obtain ⟨e1, w1, hbody, hfs, hhand⟩ := tryCatch_err_stable (by
    repeat' first
      | exact fsStableErr_write_pure _ _ _ _
      | exact fsStableErr_of_fsFixed _ (fsFixed_pure _)
      | apply fsStableErr_bind_fixed
      | exact fsFixed_initVips _
      | exact fsFixed_vipsGate _
      | exact fsFixed_vipsNewFromFile _ _
      | exact fsFixed_cornersM _
      | exact fsFixed_cornerCoord _ _ _
      | intro _) hcontra
  have hv1 : lookupFile w1.fs p = some v := by rw [hfs]; exact hv
  rw [run_readFile_some _ _ hv1] at hhand
  rw [run_sharpToFile_some _ _ _ _ _ hsharp] at hhand
  simp only [run_pure] at hhand
  cases hhand

theorem c1aux_texture (env : Env) (a : Args) (w : World) (p : String) (v : FileVal)
    (hsharp : env.sharpFail = none) (hin : a.input_path = some p)
    (hv : lookupFile w.fs p = some v) :
    (handleCallTool env ⟨"image_texture_analysis", a⟩ w).1.isError = false := by
  apply isError_false_of_dispatch_ok
  intro e w' hcontra
  rw [show dispatchTool env ⟨"image_texture_analysis", a⟩ w = caseImageTextureAnalysis env a w
    from rfl] at hcontra
  unfold caseImageTextureAnalysis at hcontra
  rw [hin] at hcontra
  rw [run_checkExists_ok _ _ _ w (existsSync_of_lookup hv)] at hcontra
  obtain ⟨e1, w1, hbody, hfs, hhand⟩ := tryCatch_err_stable (by
    repeat' first
      | exact fsStableErr_of_fsFixed _ (fsFixed_pure _)
      | apply fsStableErr_bind_fixed
      | exact fsFixed_initVips _
      | exact fsFixed_vipsGate _
      | exact fsFixed_vipsNewFromFile _ _
      | intro _) hcontra
  have hv1 : lookupFile w1.fs p = some v := by rw [hfs]; exact hv
  rw [run_readFile_some _ _ hv1] at hhand
  rw [run_sharpGate_ok env _ _ hsharp] at hhand
  simp only [run_pure] at hhand
  cases hhand

theorem c1aux_flood_fill (env : Env) (a : Args) (w : World) (p out : String) (v : FileVal)
    (hsharp : env.sharpFail = none) (hin : a.input_path = some p)
    (hout : a.output_path = some out) (hv : lookupFile w.fs p = some v) :
    (handleCallTool env ⟨"image_flood_fill", a⟩ w).1.isError = false := by
  apply isError_false_of_dispatch_ok
  intro e w' hcontra
  rw [show dispatchTool env ⟨"image_flood_fill", a⟩ w = caseImageFloodFill env a w from rfl]
    at hcontra
  unfold caseImageFloodFill at hcontra
  rw [hin, hout] at hcontra
  rw [run_checkExists_ok _ _ _ w (existsSync_of_lookup hv)] at hcontra
  rw [run_ensureDir_some] at hcontra
  obtain ⟨e1, w1, hbody, hfs, hhand⟩ := tryCatch_err_stable (by
    repeat' first
      | exact fsStableErr_write_pure _ _ _ _
      | exact fsStableErr_of_fsFixed _ (fsFixed_pure _)
      | apply fsStableErr_bind_fixed
      | exact fsFixed_initVips _
      | exact fsFixed_vipsGate _
      | exact fsFixed_vipsNewFromFile _ _
      | intro _) hcontra
  have hv1 : lookupFile w1.fs p = some v := by rw [hfs]; exact hv
  rw [run_readFile_some _ _ hv1] at hhand
  rw [run_sharpMetadata env v _ _ hsharp] at hhand
  rw [run_sharpToFile_some _ _ _ _ _ hsharp] at hhand
  simp only [run_pure] at hhand
  cases hhand

theorem c1aux_resize_fails (env : Env) (a : Args) (w : World) (p out : String) (v : FileVal)
    (m : String) (hsharp : env.sharpFail = some m) (hin : a.input_path = some p)
    (hout : a.output_path = some out) (hv : lookupFile w.fs p = some v) :
    handleCallTool env ⟨"image_resize", a⟩ w =
      (errorResponse m, { w with fs := fsAddDir w.fs (jsDirname out) }) := by
  have hd : dispatchTool env ⟨"image_resize", a⟩ w =
      .err m { w with fs := fsAddDir w.fs (jsDirname out) } := by
    show caseImageResize env a w = _
    unfold caseImageResize
    rw [hin, hout]
    rw [run_checkExists_ok _ _ _ w (existsSync_of_lookup hv)]
    rw [run_ensureDir_some]
    rw [run_readFile_some _ _ (by rw [lookupFile_addDir]; exact hv)]
    rw [run_sharpToFile_fail _ _ _ _ _ hsharp]
  unfold handleCallTool
  rw [hd]

/-- Environment with the sharp library throwing and wasm-vips healthy. -/
def envSharpDown : Env := { envHealthy with sharpFail := some "sharp: not available" }

/-- Environment with wasm-vips image calls throwing and sharp healthy. -/
def envVipsDown : Env := { envHealthy with vipsFail := some "vips: unsupported" }

/-- C1 fails on the code: image_resize is implemented as a single sharp call
with no try/catch substitution — with the sharp call throwing and the
wasm-vips backend fully available, the whole call fails. -/
theorem C1_counterexample :
    envSharpDown.vipsFail = none ∧ envSharpDown.vipsLoad = .ok 7 ∧
    (handleCallTool envSharpDown ⟨"image_resize",
      { input_path := some "in.png", output_path := some "out.png",
        width := some 100 }⟩ wOneFile).1.isError = true :=
  ⟨rfl, rfl, rfl⟩

/-- C1 amended: only the eleven wasm-vips-backed operations (morphology,
draw_line, edge_detection, advanced_stats, fft, custom_convolution,
colorspace_convert, add_noise, perspective_transform, texture_analysis,
flood_fill) wrap the primary call in a try/catch that substitutes a sharp
approximation: for these, given the input file exists (and the required
output path / kernel arguments are present), the call returns a non-error
response whenever the sharp library is healthy, whatever the wasm-vips
outcome — so the whole call fails only when the fallback also throws.  The
remaining operations call a single backend directly with no substitution:
image_resize returns an error response whenever its sharp call throws, even
with wasm-vips fully available. -/
theorem C1_amended_fallback_only_vips_ops :
    (∀ (env : Env) (a : Args) (w : World) (p out : String) (v : FileVal),
      env.sharpFail = none → a.input_path = some p → a.output_path = some out →
      lookupFile w.fs p = some v →
      (handleCallTool env ⟨"image_morphology", a⟩ w).1.isError = false) ∧
    (∀ (env : Env) (a : Args) (w : World) (p out : String) (v : FileVal),
      env.sharpFail = none → a.input_path = some p → a.output_path = some out →
      lookupFile w.fs p = some v →
      (handleCallTool env ⟨"image_draw_line", a⟩ w).1.isError = false) ∧
    (∀ (env : Env) (a : Args) (w : World) (p out : String) (v : FileVal),
      env.sharpFail = none → a.input_path = some p → a.output_path = some out →
      lookupFile w.fs p = some v →
      (handleCallTool env ⟨"image_edge_detection", a⟩ w).1.isError = false) ∧
    (∀ (env : Env) (a : Args) (w : World) (p : String) (v : FileVal),
      env.sharpFail = none → a.input_path = some p → lookupFile w.fs p = some v →
      (handleCallTool env ⟨"image_advanced_stats", a⟩ w).1.isError = false) ∧
    (∀ (env : Env) (a : Args) (w : World) (p out : String) (v : FileVal),
      env.sharpFail = none → a.input_path = some p → a.output_path = some out →
      lookupFile w.fs p = some v →
      (handleCallTool env ⟨"image_fft", a⟩ w).1.isError = false) ∧
    (∀ (env : Env) (a : Args) (w : World) (p out : String) (v : FileVal)
      (r : List Rat) (t : List (List Rat)),
      env.sharpFail = none → a.input_path = some p → a.output_path = some out →
      a.kernel = some (r :: t) → lookupFile w.fs p = some v →
      (handleCallTool env ⟨"image_custom_convolution", a⟩ w).1.isError = false) ∧
    (∀ (env : Env) (a : Args) (w : World) (p out : String) (v : FileVal),
      env.sharpFail = none → a.input_path = some p → a.output_path = some out →
      lookupFile w.fs p = some v →
      (handleCallTool env ⟨"image_colorspace_convert", a⟩ w).1.isError = false) ∧
    (∀ (env : Env) (a : Args) (w : World) (p out : String) (v : FileVal),
      env.sharpFail = none → a.input_path = some p → a.output_path = some out →
      lookupFile w.fs p = some v →
      (handleCallTool env ⟨"image_add_noise", a⟩ w).1.isError = false) ∧
    (∀ (env : Env) (a : Args) (w : World) (p out : String) (v : FileVal),
      env.sharpFail = none → a.input_path = some p → a.output_path = some out →
      lookupFile w.fs p = some v →
      (handleCallTool env ⟨"image_perspective_transform", a⟩ w).1.isError = false) ∧
    (∀ (env : Env) (a : Args) (w : World) (p : String) (v : FileVal),
      env.sharpFail = none → a.input_path = some p → lookupFile w.fs p = some v →
      (handleCallTool env ⟨"image_texture_analysis", a⟩ w).1.isError = false) ∧
    (∀ (env : Env) (a : Args) (w : World) (p out : String) (v : FileVal),
      env.sharpFail = none → a.input_path = some p → a.output_path = some out →
      lookupFile w.fs p = some v →
      (handleCallTool env ⟨"image_flood_fill", a⟩ w).1.isError = false) ∧
    (∀ (env : Env) (a : Args) (w : World) (p out : String) (v : FileVal) (m : String),
      env.sharpFail = some m → a.input_path = some p → a.output_path = some out →
      lookupFile w.fs p = some v →
      handleCallTool env ⟨"image_resize", a⟩ w =
        (errorResponse m, { w with fs := fsAddDir w.fs (jsDirname out) })) :=
  ⟨c1aux_morphology, c1aux_draw_line, c1aux_edge_detection, c1aux_advanced_stats, c1aux_fft,
   fun env a w p out v r t hs hi ho hk hv => c1aux_custom_convolution env a w p out v r t
     hs hi ho hk hv,
   c1aux_colorspace, c1aux_add_noise, c1aux_perspective, c1aux_texture, c1aux_flood_fill,
   fun env a w p out v m hs hi ho hv => c1aux_resize_fails env a w p out v m hs hi ho hv⟩

/-- Witness for the amended C1: with wasm-vips throwing and sharp healthy the
morphology call still succeeds (fallback), and with sharp throwing and
wasm-vips healthy the resize call fails (no fallback). -/
theorem C1_amended_fallback_only_vips_ops_witness :
    (handleCallTool envVipsDown ⟨"image_morphology",
      { input_path := some "in.png", output_path := some "out.png",
        operation := some "erode" }⟩ wOneFile).1.isError = false ∧
    handleCallTool envSharpDown ⟨"image_resize",
      { input_path := some "in.png", output_path := some "out.png" }⟩ wOneFile =
      (errorResponse "sharp: not available",
       { wOneFile with fs := fsAddDir wOneFile.fs (jsDirname "out.png") }) :=
  ⟨C1_amended_fallback_only_vips_ops.1 envVipsDown
      { input_path := some "in.png", output_path := some "out.png",
        operation := some "erode" } wOneFile "in.png" "out.png" (.raw 0) rfl rfl rfl rfl,
   C1_amended_fallback_only_vips_ops.2.2.2.2.2.2.2.2.2.2.2 envSharpDown
      { input_path := some "in.png", output_path := some "out.png" } wOneFile "in.png"
      "out.png" (.raw 0) "sharp: not available" rfl rfl rfl rfl⟩
